import Mathlib

/-!
Verification of the fluid solver in `src/fluid.rs` (a 2D "stable fluids"
solver on a toroidal grid).  The solver's `f32` scalars are embedded as exact
rationals, `glam::Vec2` as a pair of rationals, and the `ndarray::Array2<Cell>`
buffers as functions from coordinates to cells; the row-major in-place loops of
the Rust code are embedded as explicit left-to-right folds, so the
Gauss-Seidel-like update order of the source is preserved exactly.
-/

namespace Fluidsim

/-- Rational stand-in for `glam::Vec2` (a pair of `f32` components). -/
structure Vec2 where
  x : ℚ
  y : ℚ
deriving DecidableEq

/-- Componentwise vector addition, as `glam` implements `Add` for `Vec2`. -/
instance : Add Vec2 :=
  ⟨fun a b => ⟨a.x + b.x, a.y + b.y⟩⟩

/-- Componentwise vector subtraction, as `glam` implements `Sub` for `Vec2`. -/
instance : Sub Vec2 :=
  ⟨fun a b => ⟨a.x - b.x, a.y - b.y⟩⟩

/-- Scalar-times-vector multiplication, as `glam` implements `f32 * Vec2`. -/
instance : HMul ℚ Vec2 Vec2 :=
  ⟨fun q v => ⟨q * v.x, q * v.y⟩⟩

/-- Vector-by-scalar division, as `glam` implements `Vec2 / f32`. -/
instance : HDiv Vec2 ℚ Vec2 :=
  ⟨fun v q => ⟨v.x / q, v.y / q⟩⟩

/-- Zero vector, the value of `Vec2::default()`. -/
def Vec2.zero : Vec2 := ⟨0, 0⟩

/-- One grid sample: `struct Cell { density: f32, velocity: Vec2 }`. -/
structure Cell where
  density : ℚ
  velocity : Vec2
deriving DecidableEq

/-- Value of `Cell::default()`: density `0.0`, velocity the zero vector. -/
def Cell.init : Cell := ⟨0, Vec2.zero⟩

/-- A cell buffer (`Array2<Cell>`), embedded as a function from `usize`
coordinates to cells.  A buffer of dimensions `(n, n)` is represented by the
values at coordinates below `n`; all code-side reads and writes stay below `n`. -/
def Grid : Type := ℕ → ℕ → Cell

/-- Point update of a buffer: the effect of the single Rust statement
`cells[[x, y]] = c` on the buffer value. -/
def setCell (g : Grid) (x y : ℕ) (c : Cell) : Grid :=
  fun i j => if i = x ∧ j = y then c else g i j

/-- Left fold applying `f` at `0, 1, ..., n-1` in increasing order; used to
embed the `for x in 0..n` loops of the source. -/
def upTo {α : Type} (f : α → ℕ → α) : ℕ → α → α
  | 0, a => a
  | n + 1, a => f (upTo f n a) n

/-- Row-major double loop `for x in 0..n { for y in 0..n { ... } }`, threading
the buffer through a per-cell transformation `F` in the exact order of the
source's in-place sweeps. -/
def foldCells (n : ℕ) (F : Grid → ℕ → ℕ → Grid) (g : Grid) : Grid :=
  upTo (fun g x => upTo (fun g y => F g x y) n g) n g

/-- Embeds `fn wrap_index(mut index: isize, size: usize) -> usize`:
truncated remainder (Rust `%=`) followed by a sign fix-up. -/
def wrap_index (index : ℤ) (size : ℕ) : ℕ :=
  let s : ℤ := (size : ℤ)
  let r : ℤ := Int.tmod index s
  (if r < 0 then r + s else r).toNat

/-- Embeds `fn get_cell(cells: &Array2<Cell>, i: isize, j: isize) -> &Cell`.
The dimension argument `n` stands for `cells.dim().0 = cells.dim().1`, which is
always the fluid's `size` for both buffers. -/
def get_cell (cells : Grid) (n : ℕ) (i j : ℤ) : Cell :=
  cells (wrap_index i n) (wrap_index j n)

/-- The solver state `struct Fluid`. -/
structure Fluid where
  diffusion : ℚ
  viscosity : ℚ
  size : ℕ
  cells : Grid
  prev_cells : Grid

/-- Embeds `Fluid::new(diffusion, viscosity, size)`: both buffers are
`Array2::default((size, size))`, i.e. every cell is `Cell::default()`.
No argument is rejected; the function is total in the source as well. -/
def Fluid.new (diffusion viscosity : ℚ) (size : ℕ) : Fluid :=
  { diffusion := diffusion
    viscosity := viscosity
    size := size
    cells := fun _ _ => Cell.init
    prev_cells := fun _ _ => Cell.init }

/-- One cell update of the diffusion sweep (loop body of `Fluid::diffuse`).
Note that the velocity channel multiplies the neighbour sum by `a_density`
while dividing by `1 + 4 * a_velocity`, exactly as the source does. -/
def diffuse_cell (prev : Grid) (n : ℕ) (a_density a_velocity : ℚ) (g : Grid)
    (x y : ℕ) : Grid :=
  let i : ℤ := (x : ℤ)
  let j : ℤ := (y : ℤ)
  let c : Cell := prev x y
  let dsum : ℚ :=
    (get_cell g n (i - 1) j).density + (get_cell g n (i + 1) j).density +
      (get_cell g n i (j - 1)).density + (get_cell g n i (j + 1)).density
  let vsum : Vec2 :=
    (get_cell g n (i - 1) j).velocity + (get_cell g n (i + 1) j).velocity +
      (get_cell g n i (j - 1)).velocity + (get_cell g n i (j + 1)).velocity
  setCell g x y
    { density := (c.density + a_density * dsum) / (1 + 4 * a_density)
      velocity := (c.velocity + a_density * vsum) / (1 + 4 * a_velocity) }

/-- One full in-place relaxation sweep of `Fluid::diffuse`. -/
def diffuse_sweep (prev : Grid) (n : ℕ) (a_density a_velocity : ℚ)
    (g : Grid) : Grid :=
  foldCells n (diffuse_cell prev n a_density a_velocity) g

/-- Embeds `Fluid::diffuse` with the sweep count as a parameter (the source
fixes it to 20; see `Fluid.diffuse`): swap the buffers, then run the in-place
relaxation sweeps over the current buffer with the previous buffer as the
fixed right-hand side. -/
def Fluid.diffuseN (f : Fluid) (delta : ℚ) (sweeps : ℕ) : Fluid :=
  let prev := f.cells
  let start := f.prev_cells
  let a_density : ℚ := delta * f.diffusion * ((f.size * f.size : ℕ) : ℚ)
  let a_velocity : ℚ := delta * f.viscosity * ((f.size * f.size : ℕ) : ℚ)
  { f with
    prev_cells := prev
    cells :=
      upTo (fun g _ => diffuse_sweep prev f.size a_density a_velocity g)
        sweeps start }

/-- Embeds `Fluid::diffuse(delta)`: 20 relaxation sweeps. -/
def Fluid.diffuse (f : Fluid) (delta : ℚ) : Fluid :=
  Fluid.diffuseN f delta 20

/-- Discrete divergence computed by the first loop of `Fluid::project`:
`-0.5 * h * (vx(i+1,j) - vx(i-1,j) + vy(i,j+1) - vy(i,j-1))`. -/
def divergence (cells : Grid) (n : ℕ) (h : ℚ) (x y : ℕ) : ℚ :=
  -(1 / 2) * h *
    ((get_cell cells n ((x : ℤ) + 1) (y : ℤ)).velocity.x -
        (get_cell cells n ((x : ℤ) - 1) (y : ℤ)).velocity.x +
      (get_cell cells n (x : ℤ) ((y : ℤ) + 1)).velocity.y -
      (get_cell cells n (x : ℤ) ((y : ℤ) - 1)).velocity.y)

/-- One cell of the first `project` loop: store the divergence in the `y`
component of the scratch (previous) buffer's velocity and zero the `x`
component, leaving the scratch density untouched. -/
def project_div_cell (cells : Grid) (n : ℕ) (h : ℚ) (p : Grid)
    (x y : ℕ) : Grid :=
  let c : Cell := p x y
  setCell p x y { c with velocity := ⟨0, divergence cells n h x y⟩ }

/-- One cell of the in-place Poisson relaxation sweep of `Fluid::project`:
`p.x = 0.25 * (p.y + sum of the 4 axis neighbours' p.x)`. -/
def project_relax_cell (n : ℕ) (p : Grid) (x y : ℕ) : Grid :=
  let i : ℤ := (x : ℤ)
  let j : ℤ := (y : ℤ)
  let c : Cell := p x y
  let v : ℚ :=
    (1 / 4) *
      (c.velocity.y + (get_cell p n (i - 1) j).velocity.x +
        (get_cell p n (i + 1) j).velocity.x +
        (get_cell p n i (j - 1)).velocity.x +
        (get_cell p n i (j + 1)).velocity.x)
  setCell p x y { c with velocity := ⟨v, c.velocity.y⟩ }

/-- One cell of the final `project` loop: subtract the potential's discrete
gradient from the current buffer's velocity. -/
def project_grad_cell (p : Grid) (n : ℕ) (h : ℚ) (g : Grid)
    (x y : ℕ) : Grid :=
  let i : ℤ := (x : ℤ)
  let j : ℤ := (y : ℤ)
  let c : Cell := g x y
  let grad : Vec2 :=
    ⟨(get_cell p n (i + 1) j).velocity.x - (get_cell p n (i - 1) j).velocity.x,
      (get_cell p n i (j + 1)).velocity.x - (get_cell p n i (j - 1)).velocity.x⟩
  setCell g x y { c with velocity := c.velocity - ((1 / 2 : ℚ) * grad) / h }

/-- Embeds `Fluid::project` with the relaxation sweep count as a parameter
(the source fixes it to 20; see `Fluid.project`). -/
def Fluid.projectN (f : Fluid) (sweeps : ℕ) : Fluid :=
  let h : ℚ := 1 / (f.size : ℚ)
  let p1 := foldCells f.size (project_div_cell f.cells f.size h) f.prev_cells
  let p2 :=
    upTo (fun p _ => foldCells f.size (project_relax_cell f.size) p) sweeps p1
  let c2 := foldCells f.size (project_grad_cell p2 f.size h) f.cells
  { f with cells := c2, prev_cells := p2 }

/-- Embeds `Fluid::project()`: 20 relaxation sweeps. -/
def Fluid.project (f : Fluid) : Fluid :=
  Fluid.projectN f 20

/-- The cell written by `Fluid::advect` at target `(x, y)`: semi-Lagrangian
backtrace through the (post-swap) previous buffer followed by bilinear
interpolation of the 4 corner cells.  `Rat.floor` rounds toward negative
infinity exactly as `f32::floor`. -/
def advect_value (prev : Grid) (n : ℕ) (delta_size : ℚ) (x y : ℕ) : Cell :=
  let source_pos : Vec2 :=
    Vec2.mk (x : ℚ) (y : ℚ) - delta_size * (prev x y).velocity
  let left_idx : ℤ := Rat.floor source_pos.x
  let right_idx : ℤ := left_idx + 1
  let top_idx : ℤ := Rat.floor source_pos.y
  let bottom_idx : ℤ := top_idx + 1
  let top_left : Cell := get_cell prev n left_idx top_idx
  let top_right : Cell := get_cell prev n right_idx top_idx
  let bottom_left : Cell := get_cell prev n left_idx bottom_idx
  let bottom_right : Cell := get_cell prev n right_idx bottom_idx
  let right_coefficient : ℚ := source_pos.x - (left_idx : ℚ)
  let left_coefficient : ℚ := 1 - right_coefficient
  let bottom_coefficient : ℚ := source_pos.y - (top_idx : ℚ)
  let top_coefficient : ℚ := 1 - bottom_coefficient
  { density :=
      left_coefficient *
          (top_coefficient * top_left.density +
            bottom_coefficient * bottom_left.density) +
        right_coefficient *
          (top_coefficient * top_right.density +
            bottom_coefficient * bottom_right.density)
    velocity :=
      left_coefficient *
          (top_coefficient * top_left.velocity +
            bottom_coefficient * bottom_left.velocity) +
        right_coefficient *
          (top_coefficient * top_right.velocity +
            bottom_coefficient * bottom_right.velocity) }

/-- Embeds `Fluid::advect(delta)`: swap the buffers, then overwrite every cell
of the current buffer with the interpolated sample. -/
def Fluid.advect (f : Fluid) (delta : ℚ) : Fluid :=
  let prev := f.cells
  let delta_size : ℚ := delta * (f.size : ℚ)
  { f with
    prev_cells := prev
    cells :=
      foldCells f.size
        (fun g x y => setCell g x y (advect_value prev f.size delta_size x y))
        f.prev_cells }

/-- Embeds `Fluid::step(delta)`: `diffuse; project; advect; project`, with the
wall-clock `Duration` already converted to seconds (`as_secs_f32`). -/
def Fluid.step (f : Fluid) (delta : ℚ) : Fluid :=
  (((f.diffuse delta).project).advect delta).project

/-- Embeds the `Index<(isize, isize)>` operator for `Fluid` (read access to the
current buffer through toroidal wrapping; `cells.dim()` equals
`(size, size)`). -/
def Fluid.get (f : Fluid) (x y : ℤ) : Cell :=
  get_cell f.cells f.size x y

/-- Computable absolute value on the exact scalars (used to sum divergence
magnitudes when stating the projection claims). -/
def absQ (q : ℚ) : ℚ :=
  if q < 0 then -q else q

/-- Sum of `f 0 + f 1 + ... + f (n-1)`. -/
def sumRange (f : ℕ → ℚ) : ℕ → ℚ
  | 0 => 0
  | n + 1 => sumRange f n + f n

/-- The discrete divergence of the current buffer at `(x, y)`, exactly as the
first loop of `Fluid::project` computes it (with `h = 1 / size`). -/
def Fluid.divAt (f : Fluid) (x y : ℕ) : ℚ :=
  divergence f.cells f.size (1 / (f.size : ℚ)) x y

/-- Sum over the whole grid of the magnitude of the discrete divergence. -/
def Fluid.sumDivMag (f : Fluid) : ℚ :=
  sumRange (fun x => sumRange (fun y => absQ (f.divAt x y)) f.size) f.size

/-- Modelled from the spec: the diffusion cell update as section 4.2 of the
design states it, with the velocity channel using the viscosity-based
coefficient `a_velocity` in both the numerator and the denominator (the
source instead multiplies the velocity neighbour sum by `a_density`). -/
def diffuse_spec_cell (prev : Grid) (n : ℕ) (a_density a_velocity : ℚ)
    (g : Grid) (x y : ℕ) : Grid :=
  let i : ℤ := (x : ℤ)
  let j : ℤ := (y : ℤ)
  let c : Cell := prev x y
  let dsum : ℚ :=
    (get_cell g n (i - 1) j).density + (get_cell g n (i + 1) j).density +
      (get_cell g n i (j - 1)).density + (get_cell g n i (j + 1)).density
  let vsum : Vec2 :=
    (get_cell g n (i - 1) j).velocity + (get_cell g n (i + 1) j).velocity +
      (get_cell g n i (j - 1)).velocity + (get_cell g n i (j + 1)).velocity
  setCell g x y
    { density := (c.density + a_density * dsum) / (1 + 4 * a_density)
      velocity := (c.velocity + a_velocity * vsum) / (1 + 4 * a_velocity) }

/-- Modelled from the spec: `Fluid::diffuse` as the design describes it,
differing from the source only in `diffuse_spec_cell`. -/
def Fluid.diffuseSpecN (f : Fluid) (delta : ℚ) (sweeps : ℕ) : Fluid :=
  let prev := f.cells
  let start := f.prev_cells
  let a_density : ℚ := delta * f.diffusion * ((f.size * f.size : ℕ) : ℚ)
  let a_velocity : ℚ := delta * f.viscosity * ((f.size * f.size : ℕ) : ℚ)
  { f with
    prev_cells := prev
    cells :=
      upTo
        (fun g _ =>
          foldCells f.size (diffuse_spec_cell prev f.size a_density a_velocity)
            g)
        sweeps start }

/-- Modelled from the spec: the 20-sweep diffusion stage as the design
describes it. -/
def Fluid.diffuseSpec (f : Fluid) (delta : ℚ) : Fluid :=
  Fluid.diffuseSpecN f delta 20

/-! ## Basic lemmas about the embedding -/

theorem Vec2.add_def (a b : Vec2) : a + b = ⟨a.x + b.x, a.y + b.y⟩ := rfl

theorem Vec2.sub_def (a b : Vec2) : a - b = ⟨a.x - b.x, a.y - b.y⟩ := rfl

theorem Vec2.smul_def (q : ℚ) (v : Vec2) : q * v = ⟨q * v.x, q * v.y⟩ := rfl

theorem Vec2.div_def (v : Vec2) (q : ℚ) : v / q = ⟨v.x / q, v.y / q⟩ := rfl

theorem Vec2.eta (v : Vec2) : Vec2.mk v.x v.y = v := rfl

theorem setCell_apply (g : Grid) (x y : ℕ) (c : Cell) (i j : ℕ) :
    setCell g x y c i j = if i = x ∧ j = y then c else g i j := rfl

theorem setCell_self (g : Grid) (x y : ℕ) (c : Cell) :
    setCell g x y c x y = c := by
  simp [setCell_apply]

theorem setCell_ne (g : Grid) (x y : ℕ) (c : Cell) {i j : ℕ}
    (h : ¬(i = x ∧ j = y)) : setCell g x y c i j = g i j := by
  simp [setCell_apply, h]

theorem upTo_zero {α : Type} (f : α → ℕ → α) (a : α) : upTo f 0 a = a := rfl

theorem upTo_succ {α : Type} (f : α → ℕ → α) (n : ℕ) (a : α) :
    upTo f (n + 1) a = f (upTo f n a) n := rfl

/-- Invariant preservation along an `upTo` fold. -/
theorem upTo_preserve {α : Type} {P : α → Prop} {f : α → ℕ → α}
    (hf : ∀ a k, P a → P (f a k)) :
    ∀ (n : ℕ) (a : α), P a → P (upTo f n a) := by
  intro n
  induction n with
  | zero => intro a ha; exact ha
  | succ m ih => intro a ha; exact hf _ _ (ih a ha)

theorem tmod_lower (i : ℤ) (n : ℕ) (hn : 0 < n) : -(n : ℤ) < Int.tmod i n := by
  rcases i with m | m
  · exact lt_of_lt_of_le (by exact_mod_cast Int.neg_neg_of_pos (by exact_mod_cast hn))
      (Int.tmod_nonneg _ (Int.ofNat_nonneg m))
  · show -(n : ℤ) < Int.tmod (Int.negSucc m) (Int.ofNat n)
    have : Int.tmod (Int.negSucc m) (Int.ofNat n) = -((m.succ % n : ℕ) : ℤ) := rfl
    rw [this]
    have hlt : m.succ % n < n := Nat.mod_lt _ hn
    omega

/-- The truncated remainder plus sign fix-up of `wrap_index` computes the
(nonnegative) Euclidean remainder. -/
theorem wrap_index_coe (i : ℤ) (n : ℕ) (hn : 0 < n) :
    (wrap_index i n : ℤ) = i % (n : ℤ) := by
  unfold wrap_index
  have hn' : (0 : ℤ) < (n : ℤ) := by exact_mod_cast hn
  have hup : Int.tmod i n < (n : ℤ) := Int.tmod_lt_of_pos i hn'
  have hdown : -(n : ℤ) < Int.tmod i n := tmod_lower i n hn
  have hemod : i % (n : ℤ) = Int.tmod i n % (n : ℤ) := by
    conv_lhs => rw [← Int.tmod_add_tdiv i n]
    rw [Int.add_mul_emod_self_left]
  by_cases hneg : Int.tmod i n < 0
  · simp only [hneg, if_pos]
    rw [Int.toNat_of_nonneg (by omega)]
    have ha : (Int.tmod i n + (n : ℤ) * 1) % (n : ℤ) = Int.tmod i n % (n : ℤ) :=
      Int.add_mul_emod_self_left _ _ _
    rw [Int.mul_one] at ha
    rw [hemod, ← ha, Int.emod_eq_of_lt (by omega) (by omega)]
  · simp only [hneg, if_neg, not_false_iff]
    rw [Int.toNat_of_nonneg (by omega)]
    rw [hemod, Int.emod_eq_of_lt (by omega) (by omega)]

theorem wrap_index_lt (i : ℤ) (n : ℕ) (hn : 0 < n) : wrap_index i n < n := by
  have h := wrap_index_coe i n hn
  have hn' : (0 : ℤ) < (n : ℤ) := by exact_mod_cast hn
  have := Int.emod_lt_of_pos i hn'
  omega

theorem wrap_index_small {x n : ℕ} (hx : x < n) : wrap_index (x : ℤ) n = x := by
  have hn : 0 < n := Nat.lt_of_le_of_lt (Nat.zero_le x) hx
  have h := wrap_index_coe (x : ℤ) n hn
  rw [Int.emod_eq_of_lt (by exact_mod_cast Nat.zero_le x) (by exact_mod_cast hx)] at h
  exact_mod_cast h

/-- Toroidal periodicity of the wrapped index in the first argument. -/
theorem wrap_index_add_mul (i k : ℤ) (n : ℕ) (hn : 0 < n) :
    wrap_index (i + k * (n : ℤ)) n = wrap_index i n := by
  have h1 := wrap_index_coe (i + k * (n : ℤ)) n hn
  have h2 := wrap_index_coe i n hn
  have : (i + k * (n : ℤ)) % (n : ℤ) = i % (n : ℤ) := Int.add_mul_emod_self
  omega

/-- Once-written characterisation of one row of a row-major sweep: if the cell
update writes exactly the visited cell, with a written value that depends on
the buffer only through the overwritten cell itself (observed through a
projection `pr`), then after the row every visited cell holds its update and
the rest of the buffer is untouched. -/
theorem upTo_row_part {α : Type} {n : ℕ} {F : Grid → ℕ → ℕ → Grid}
    {pr : Cell → α} {v : ℕ → ℕ → α → α}
    (hF : ∀ g x y, x < n → y < n →
      ∃ c, F g x y = setCell g x y c ∧ pr c = v x y (pr (g x y)))
    {x : ℕ} (hx : x < n) :
    ∀ (m : ℕ), m ≤ n → ∀ (g : Grid) (i j : ℕ),
      pr (upTo (fun g y => F g x y) m g i j) =
        if i = x ∧ j < m then v x j (pr (g x j)) else pr (g i j) := by
  intro m
  induction m with
  | zero =>
    intro _ g i j
    simp [upTo_zero]
  | succ m ih =>
    intro hm g i j
    have hm' : m ≤ n := by omega
    obtain ⟨c, hc, hpr⟩ := hF (upTo (fun g y => F g x y) m g) x m hx (by omega)
    rw [upTo_succ, hc, setCell_apply, apply_ite pr, hpr, ih hm' g x m,
      ih hm' g i j]
    by_cases h1 : i = x ∧ j = m
    · rcases h1 with ⟨rfl, rfl⟩
      rw [if_pos ⟨rfl, rfl⟩, if_neg (by omega), if_pos ⟨rfl, by omega⟩]
    · rw [if_neg h1]
      by_cases h2 : i = x ∧ j < m
      · rcases h2 with ⟨rfl, hj⟩
        rw [if_pos ⟨rfl, hj⟩, if_pos ⟨rfl, by omega⟩]
      · rw [if_neg h2, if_neg (by omega)]

/-- Once-written characterisation of a full row-major sweep (both loops): the
value left at each in-range cell is its update applied to the pre-sweep value,
and out-of-range cells are untouched. -/
theorem foldCells_part {α : Type} {n : ℕ} {F : Grid → ℕ → ℕ → Grid}
    {pr : Cell → α} {v : ℕ → ℕ → α → α}
    (hF : ∀ g x y, x < n → y < n →
      ∃ c, F g x y = setCell g x y c ∧ pr c = v x y (pr (g x y)))
    (g : Grid) (i j : ℕ) :
    pr (foldCells n F g i j) =
      if i < n ∧ j < n then v i j (pr (g i j)) else pr (g i j) := by
  have aux : ∀ (k : ℕ), k ≤ n → ∀ (g : Grid) (i j : ℕ),
      pr (upTo (fun g x => upTo (fun g y => F g x y) n g) k g i j) =
        if i < k ∧ j < n then v i j (pr (g i j)) else pr (g i j) := by
    intro k
    induction k with
    | zero =>
      intro _ g i j
      simp [upTo_zero]
    | succ k ih =>
      intro hk g i j
      have hk' : k ≤ n := by omega
      rw [upTo_succ, upTo_row_part hF (show k < n by omega) n (le_refl n)]
      by_cases hj : j < n
      · by_cases h1 : i = k
        · subst h1
          rw [if_pos ⟨rfl, hj⟩, if_pos ⟨by omega, hj⟩, ih hk' g i j,
            if_neg (fun hc => by omega)]
        · rw [if_neg (fun hc => h1 hc.1), ih hk' g i j]
          by_cases h2 : i < k
          · rw [if_pos ⟨h2, hj⟩, if_pos ⟨by omega, hj⟩]
          · rw [if_neg (fun hc => h2 hc.1), if_neg (fun hc => by omega)]
      · rw [if_neg (fun hc => hj hc.2), ih hk' g i j,
          if_neg (fun hc => hj hc.2), if_neg (fun hc => hj hc.2)]
  exact aux n (le_refl n) g i j

/-- Invariant preservation along a full row-major sweep. -/
theorem foldCells_preserve {P : Grid → Prop} {n : ℕ} {F : Grid → ℕ → ℕ → Grid}
    (hF : ∀ g x y, P g → P (F g x y)) :
    ∀ {g : Grid}, P g → P (foldCells n F g) := by
  intro g hg
  refine upTo_preserve (fun a k ha => ?_) n g hg
  exact upTo_preserve (fun b l hb => hF b k l hb) n a ha


/-- Bounded-index variant of `upTo_preserve`: the invariant only needs to be
preserved at indices below `n`. -/
theorem upTo_preserve_lt {α : Type} {P : α → Prop} {f : α → ℕ → α} {n : ℕ}
    (hf : ∀ a k, k < n → P a → P (f a k)) :
    ∀ (m : ℕ), m ≤ n → ∀ (a : α), P a → P (upTo f m a) := by
  intro m
  induction m with
  | zero => intro _ a ha; exact ha
  | succ k ih => intro hm a ha; exact hf _ _ (by omega) (ih (by omega) a ha)

/-- A row-major sweep whose cell update writes exactly the visited cell leaves
every out-of-range cell untouched. -/
theorem foldCells_untouched {n : ℕ} {F : Grid → ℕ → ℕ → Grid}
    (hF : ∀ g x y, x < n → y < n → ∃ c, F g x y = setCell g x y c)
    (g : Grid) {i j : ℕ} (hij : ¬(i < n ∧ j < n)) :
    foldCells n F g i j = g i j := by
  unfold foldCells
  refine @upTo_preserve_lt Grid (fun gp => gp i j = g i j) _ n ?_ n
    (le_refl n) g rfl
  intro a x hx ha
  refine @upTo_preserve_lt Grid (fun gp => gp i j = g i j) _ n ?_ n
    (le_refl n) a ha
  intro b y hy hb
  obtain ⟨c, hc⟩ := hF b x y hx hy
  rw [hc, setCell_ne b x y c
    (fun he => absurd (show i < n ∧ j < n by omega) hij), hb]

/-- Iterated sweeps (the `for _ in 0..k` loops) also leave out-of-range cells
untouched. -/
theorem sweeps_untouched {n : ℕ} {F : Grid → ℕ → ℕ → Grid}
    (hF : ∀ g x y, x < n → y < n → ∃ c, F g x y = setCell g x y c)
    (k : ℕ) (g : Grid) {i j : ℕ} (hij : ¬(i < n ∧ j < n)) :
    upTo (fun g _ => foldCells n F g) k g i j = g i j := by
  refine @upTo_preserve Grid (fun gp => gp i j = g i j) _ ?_ k g rfl
  intro a m ha
  rw [foldCells_untouched hF a hij, ha]

/-- Splitting an iterated sweep: `m + k` sweeps are `m` sweeps followed by
`k` sweeps. -/
theorem upTo_sweeps_add (n : ℕ) (F : Grid → ℕ → ℕ → Grid) (m k : ℕ)
    (p : Grid) :
    upTo (fun g _ => foldCells n F g) (m + k) p =
      upTo (fun g _ => foldCells n F g) k
        (upTo (fun g _ => foldCells n F g) m p) := by
  induction k with
  | zero => rfl
  | succ l ih =>
    rw [show m + (l + 1) = (m + l) + 1 from rfl, upTo_succ, upTo_succ, ih]

/-- The relaxation update of `project` writes exactly the visited cell. -/
theorem relax_cell_shape (n : ℕ) : ∀ (g : Grid) (x y : ℕ), x < n → y < n →
    ∃ c, project_relax_cell n g x y = setCell g x y c :=
  fun _ _ _ _ _ => ⟨_, rfl⟩

/-- The divergence loop of `project` writes exactly the visited cell. -/
theorem div_cell_shape (cells : Grid) (n : ℕ) (h : ℚ) :
    ∀ (p : Grid) (x y : ℕ), x < n → y < n →
      ∃ c, project_div_cell cells n h p x y = setCell p x y c :=
  fun _ _ _ _ _ => ⟨_, rfl⟩

/-- The gradient-subtraction loop of `project` writes exactly the visited
cell. -/
theorem grad_cell_shape (p : Grid) (n : ℕ) (h : ℚ) :
    ∀ (g : Grid) (x y : ℕ), x < n → y < n →
      ∃ c, project_grad_cell p n h g x y = setCell g x y c :=
  fun _ _ _ _ _ => ⟨_, rfl⟩

/-- `diffuse` leaves out-of-range cells of the current buffer at the values of
the (swapped-in) previous buffer. -/
theorem diffuse_out_untouched (f : Fluid) (delta : ℚ) {i j : ℕ}
    (hij : ¬(i < f.size ∧ j < f.size)) :
    (f.diffuse delta).cells i j = f.prev_cells i j := by
  show upTo
      (fun g _ => diffuse_sweep f.cells f.size
        (delta * f.diffusion * ((f.size * f.size : ℕ) : ℚ))
        (delta * f.viscosity * ((f.size * f.size : ℕ) : ℚ)) g) 20
      f.prev_cells i j = f.prev_cells i j
  simp only [diffuse_sweep]
  exact sweeps_untouched (fun _ _ _ _ _ => ⟨_, rfl⟩) 20 f.prev_cells hij


/-! ## C8: toroidal periodicity of neighbour lookup -/

/-- C8: neighbour lookup is toroidally periodic: for every grid size `N > 0`,
all integer coordinates `i, j` and every integer `k`,
`neighbor(i + k*N, j) = neighbor(i, j)` and symmetrically in `j`; in
particular `neighbor(i, j) = neighbor(i + N, j) = neighbor(i - N, j)`. -/
theorem neighbor_toroidal_wrap (g : Grid) (n : ℕ) (hn : 0 < n) (i j k : ℤ) :
    get_cell g n (i + k * (n : ℤ)) j = get_cell g n i j ∧
      get_cell g n i (j + k * (n : ℤ)) = get_cell g n i j ∧
      get_cell g n (i + (n : ℤ)) j = get_cell g n i j ∧
      get_cell g n (i - (n : ℤ)) j = get_cell g n i j := by
  have hp : i + (n : ℤ) = i + 1 * (n : ℤ) := by ring
  have hm : i - (n : ℤ) = i + (-1) * (n : ℤ) := by ring
  refine ⟨?_, ?_, ?_, ?_⟩
  · unfold get_cell
    rw [wrap_index_add_mul i k n hn]
  · unfold get_cell
    rw [wrap_index_add_mul j k n hn]
  · unfold get_cell
    rw [hp, wrap_index_add_mul i 1 n hn]
  · unfold get_cell
    rw [hm, wrap_index_add_mul i (-1) n hn]

/-- Witness for C8 at a concrete grid, size, coordinates and multiple. -/
theorem neighbor_toroidal_wrap_witness :
    0 < 3 ∧
      (get_cell (fun _ _ => Cell.init) 3 (-5 + 2 * ((3 : ℕ) : ℤ)) 7 =
          get_cell (fun _ _ => Cell.init) 3 (-5) 7 ∧
        get_cell (fun _ _ => Cell.init) 3 (-5) (7 + 2 * ((3 : ℕ) : ℤ)) =
          get_cell (fun _ _ => Cell.init) 3 (-5) 7 ∧
        get_cell (fun _ _ => Cell.init) 3 (-5 + ((3 : ℕ) : ℤ)) 7 =
          get_cell (fun _ _ => Cell.init) 3 (-5) 7 ∧
        get_cell (fun _ _ => Cell.init) 3 (-5 - ((3 : ℕ) : ℤ)) 7 =
          get_cell (fun _ _ => Cell.init) 3 (-5) 7) :=
  ⟨by decide, neighbor_toroidal_wrap (fun _ _ => Cell.init) 3 (by decide) (-5) 7 2⟩

/-! ## C9: wrapped accesses are always in bounds -/

/-- C9: for every buffer of positive size `n`, any signed coordinates are
mapped by `wrap_index` into `[0, n)`, so `get_cell` (and with it the `Index`
operators and every solver stage) only ever reads the buffer at in-range
coordinates. -/
theorem wrap_access_in_bounds (g : Grid) (n : ℕ) (i j : ℤ) (hn : 0 < n) :
    wrap_index i n < n ∧ wrap_index j n < n ∧
      get_cell g n i j = g (wrap_index i n) (wrap_index j n) :=
  ⟨wrap_index_lt i n hn, wrap_index_lt j n hn, rfl⟩

/-- Witness for C9 at a concrete grid, size and coordinates. -/
theorem wrap_access_in_bounds_witness :
    0 < 4 ∧
      (wrap_index (-9) 4 < 4 ∧ wrap_index 11 4 < 4 ∧
        get_cell (fun _ _ => Cell.init) 4 (-9) 11 =
          (fun _ _ => Cell.init : Grid) (wrap_index (-9) 4) (wrap_index 11 4)) :=
  ⟨by decide, wrap_access_in_bounds (fun _ _ => Cell.init) 4 (-9) 11 (by decide)⟩

/-! ## C2: construction never fails; buffers are zero-initialised -/

/-- C2 counterexample: contrary to the claim that `new` fails with an
`InvalidConfiguration` condition when `size == 0`, the source's `Fluid::new`
has no failure path at all: called with `size = 0` it returns an ordinary
`Fluid` value (with empty buffers), exactly as for any other size. -/
theorem new_size_zero_returns_fluid :
    Fluid.new 1 2 0 =
      { diffusion := 1
        viscosity := 2
        size := 0
        cells := fun _ _ => Cell.init
        prev_cells := fun _ _ => Cell.init } := rfl

/-- C2 amended: `new(diffusion, viscosity, size)` never fails; for every size
(`0` included) it returns a `Fluid` carrying the given coefficients and size
whose two `size` by `size` buffers are entirely zero-initialised (density `0`,
velocity the zero vector). -/
theorem new_fields_and_zero_buffers (d v : ℚ) (n : ℕ) (x y : ℕ) :
    (Fluid.new d v n).diffusion = d ∧ (Fluid.new d v n).viscosity = v ∧
      (Fluid.new d v n).size = n ∧
      (Fluid.new d v n).cells x y = Cell.init ∧
      (Fluid.new d v n).prev_cells x y = Cell.init ∧
      Cell.init.density = 0 ∧ Cell.init.velocity = Vec2.zero :=
  ⟨rfl, rfl, rfl, rfl, rfl, rfl, rfl⟩

/-! ## Advection lemmas (C6, C7) -/

theorem rat_floor_eq_floor (q : ℚ) : Rat.floor q = ⌊q⌋ := by
  rw [Rat.floor_def', Rat.floor_def]

theorem rat_floor_natCast (x : ℕ) : Rat.floor ((x : ℕ) : ℚ) = (x : ℤ) := by
  rw [rat_floor_eq_floor, Int.floor_natCast]

/-- Pointwise description of `Fluid::advect`: each in-range target cell of the
current buffer receives its interpolated sample, while out-of-range entries of
the representation keep the (swapped-in) previous buffer's values. -/
theorem advect_cells_apply (f : Fluid) (dt : ℚ) (i j : ℕ) :
    (f.advect dt).cells i j =
      if i < f.size ∧ j < f.size then
        advect_value f.cells f.size (dt * (f.size : ℚ)) i j
      else f.prev_cells i j := by
  have h := @foldCells_part Cell f.size
    (fun g x y => setCell g x y (advect_value f.cells f.size (dt * (f.size : ℚ)) x y))
    (fun c => c)
    (fun x y _ => advect_value f.cells f.size (dt * (f.size : ℚ)) x y)
    (fun g x y _ _ => ⟨advect_value f.cells f.size (dt * (f.size : ℚ)) x y, rfl, rfl⟩)
    f.prev_cells i j
  exact h

/-- The interpolated sample at a cell whose backtrace displacement
`delta_size * velocity` is zero is exactly that cell's previous value: the
source position coincides with the target, all interpolation weight falls on
the top-left corner. -/
theorem advect_value_of_zero_backtrace {prev : Grid} {n : ℕ} (ds : ℚ) {x y : ℕ}
    (hx : x < n) (hy : y < n) (hv : ds * (prev x y).velocity = Vec2.zero) :
    advect_value prev n ds x y = prev x y := by
  unfold advect_value
  rw [hv]
  have h1 : Vec2.mk (x : ℚ) (y : ℚ) - Vec2.zero = Vec2.mk (x : ℚ) (y : ℚ) := by
    simp [Vec2.sub_def, Vec2.zero]
  rw [h1]
  have hfx : Rat.floor ((x : ℕ) : ℚ) = (x : ℤ) := rat_floor_natCast x
  have hfy : Rat.floor ((y : ℕ) : ℚ) = (y : ℤ) := rat_floor_natCast y
  simp only [hfx, hfy]
  have hwx : wrap_index (x : ℤ) n = x := wrap_index_small hx
  have hwy : wrap_index (y : ℤ) n = y := wrap_index_small hy
  have hrc : ((x : ℚ)) - (((x : ℤ)) : ℚ) = 0 := by push_cast; ring
  have hbc : ((y : ℚ)) - (((y : ℤ)) : ℚ) = 0 := by push_cast; ring
  simp only [hrc, hbc, get_cell, hwx, hwy]
  rw [show prev x y = Cell.mk (prev x y).density (prev x y).velocity from rfl]
  simp only [Cell.mk.injEq]
  constructor
  · ring
  · simp only [Vec2.smul_def, Vec2.add_def]
    rw [show (prev x y).velocity =
      Vec2.mk (prev x y).velocity.x (prev x y).velocity.y from rfl]
    simp only [Vec2.mk.injEq]
    constructor
    · ring
    · ring

/-- C6: if every (in-range) cell of the current buffer has zero velocity, then
for any `dt`, `advect(dt)` is the identity on the observable field: the
backtraced source position equals the target position exactly, so every cell's
density and velocity are unchanged. -/
theorem advect_zero_velocity_identity (f : Fluid) (dt : ℚ)
    (hv : ∀ x y, x < f.size → y < f.size → (f.cells x y).velocity = Vec2.zero)
    (x y : ℕ) (hx : x < f.size) (hy : y < f.size) :
    (f.advect dt).cells x y = f.cells x y := by
  rw [advect_cells_apply, if_pos ⟨hx, hy⟩]
  refine advect_value_of_zero_backtrace _ hx hy ?_
  rw [hv x y hx hy]
  simp [Vec2.smul_def, Vec2.zero]

/-- Concrete 2 by 2 grid with varied densities and zero velocities. -/
def sampleGridC6 : Grid :=
  fun x y => if x = 0 ∧ y = 1 then ⟨5, Vec2.zero⟩ else ⟨1, Vec2.zero⟩

/-- Concrete fluid state with zero velocity everywhere. -/
def sampleFluidC6 : Fluid :=
  ⟨0, 0, 2, sampleGridC6, fun _ _ => Cell.init⟩

/-- Witness for C6 at a concrete populated fluid and `dt = 5`. -/
theorem advect_zero_velocity_identity_witness :
    (∀ x y, x < sampleFluidC6.size → y < sampleFluidC6.size →
      (sampleFluidC6.cells x y).velocity = Vec2.zero) ∧
      (sampleFluidC6.advect 5).cells 0 1 = sampleFluidC6.cells 0 1 := by
  have hv : ∀ x y, x < sampleFluidC6.size → y < sampleFluidC6.size →
      (sampleFluidC6.cells x y).velocity = Vec2.zero := by
    intro x y _ _
    by_cases h : x = 0 ∧ y = 1 <;> simp [sampleFluidC6, sampleGridC6, h]
  exact ⟨hv,
    advect_zero_velocity_identity sampleFluidC6 5 hv 0 1 (by decide) (by decide)⟩

/-- Horizontal source coordinate of the backtrace in `Fluid::advect`. -/
def source_x (prev : Grid) (ds : ℚ) (x y : ℕ) : ℚ :=
  (x : ℚ) - ds * (prev x y).velocity.x

/-- Vertical source coordinate of the backtrace in `Fluid::advect`. -/
def source_y (prev : Grid) (ds : ℚ) (x y : ℕ) : ℚ :=
  (y : ℚ) - ds * (prev x y).velocity.y

/-- Top-left corner cell sampled by `Fluid::advect` for target `(x, y)`. -/
def corner_tl (prev : Grid) (n : ℕ) (ds : ℚ) (x y : ℕ) : Cell :=
  get_cell prev n (Rat.floor (source_x prev ds x y))
    (Rat.floor (source_y prev ds x y))

/-- Top-right corner cell sampled by `Fluid::advect` for target `(x, y)`. -/
def corner_tr (prev : Grid) (n : ℕ) (ds : ℚ) (x y : ℕ) : Cell :=
  get_cell prev n (Rat.floor (source_x prev ds x y) + 1)
    (Rat.floor (source_y prev ds x y))

/-- Bottom-left corner cell sampled by `Fluid::advect` for target `(x, y)`. -/
def corner_bl (prev : Grid) (n : ℕ) (ds : ℚ) (x y : ℕ) : Cell :=
  get_cell prev n (Rat.floor (source_x prev ds x y))
    (Rat.floor (source_y prev ds x y) + 1)

/-- Bottom-right corner cell sampled by `Fluid::advect` for target `(x, y)`. -/
def corner_br (prev : Grid) (n : ℕ) (ds : ℚ) (x y : ℕ) : Cell :=
  get_cell prev n (Rat.floor (source_x prev ds x y) + 1)
    (Rat.floor (source_y prev ds x y) + 1)

theorem advect_value_density (prev : Grid) (n : ℕ) (ds : ℚ) (x y : ℕ) :
    (advect_value prev n ds x y).density =
      (1 - (source_x prev ds x y - ((Rat.floor (source_x prev ds x y) : ℤ) : ℚ))) *
          ((1 - (source_y prev ds x y - ((Rat.floor (source_y prev ds x y) : ℤ) : ℚ))) *
              (corner_tl prev n ds x y).density +
            (source_y prev ds x y - ((Rat.floor (source_y prev ds x y) : ℤ) : ℚ)) *
              (corner_bl prev n ds x y).density) +
        (source_x prev ds x y - ((Rat.floor (source_x prev ds x y) : ℤ) : ℚ)) *
          ((1 - (source_y prev ds x y - ((Rat.floor (source_y prev ds x y) : ℤ) : ℚ))) *
              (corner_tr prev n ds x y).density +
            (source_y prev ds x y - ((Rat.floor (source_y prev ds x y) : ℤ) : ℚ)) *
              (corner_br prev n ds x y).density) := rfl

theorem advect_value_velocity_x (prev : Grid) (n : ℕ) (ds : ℚ) (x y : ℕ) :
    (advect_value prev n ds x y).velocity.x =
      (1 - (source_x prev ds x y - ((Rat.floor (source_x prev ds x y) : ℤ) : ℚ))) *
          ((1 - (source_y prev ds x y - ((Rat.floor (source_y prev ds x y) : ℤ) : ℚ))) *
              (corner_tl prev n ds x y).velocity.x +
            (source_y prev ds x y - ((Rat.floor (source_y prev ds x y) : ℤ) : ℚ)) *
              (corner_bl prev n ds x y).velocity.x) +
        (source_x prev ds x y - ((Rat.floor (source_x prev ds x y) : ℤ) : ℚ)) *
          ((1 - (source_y prev ds x y - ((Rat.floor (source_y prev ds x y) : ℤ) : ℚ))) *
              (corner_tr prev n ds x y).velocity.x +
            (source_y prev ds x y - ((Rat.floor (source_y prev ds x y) : ℤ) : ℚ)) *
              (corner_br prev n ds x y).velocity.x) := rfl

theorem advect_value_velocity_y (prev : Grid) (n : ℕ) (ds : ℚ) (x y : ℕ) :
    (advect_value prev n ds x y).velocity.y =
      (1 - (source_x prev ds x y - ((Rat.floor (source_x prev ds x y) : ℤ) : ℚ))) *
          ((1 - (source_y prev ds x y - ((Rat.floor (source_y prev ds x y) : ℤ) : ℚ))) *
              (corner_tl prev n ds x y).velocity.y +
            (source_y prev ds x y - ((Rat.floor (source_y prev ds x y) : ℤ) : ℚ)) *
              (corner_bl prev n ds x y).velocity.y) +
        (source_x prev ds x y - ((Rat.floor (source_x prev ds x y) : ℤ) : ℚ)) *
          ((1 - (source_y prev ds x y - ((Rat.floor (source_y prev ds x y) : ℤ) : ℚ))) *
              (corner_tr prev n ds x y).velocity.y +
            (source_y prev ds x y - ((Rat.floor (source_y prev ds x y) : ℤ) : ℚ)) *
              (corner_br prev n ds x y).velocity.y) := rfl

theorem fract_nonneg_rat (q : ℚ) : 0 ≤ q - ((Rat.floor q : ℤ) : ℚ) := by
  rw [rat_floor_eq_floor]
  have := Int.floor_le q
  linarith

theorem fract_le_one_rat (q : ℚ) : q - ((Rat.floor q : ℤ) : ℚ) ≤ 1 := by
  rw [rat_floor_eq_floor]
  have := Int.lt_floor_add_one q
  push_cast at this ⊢
  linarith

theorem convex_le {t a b m : ℚ} (ht0 : 0 ≤ t) (ht1 : t ≤ 1)
    (ha : a ≤ m) (hb : b ≤ m) : (1 - t) * a + t * b ≤ m := by
  have h1 : (1 - t) * a ≤ (1 - t) * m :=
    mul_le_mul_of_nonneg_left ha (by linarith)
  have h2 : t * b ≤ t * m := mul_le_mul_of_nonneg_left hb ht0
  nlinarith

theorem convex_ge {t a b m : ℚ} (ht0 : 0 ≤ t) (ht1 : t ≤ 1)
    (ha : m ≤ a) (hb : m ≤ b) : m ≤ (1 - t) * a + t * b := by
  have h1 : (1 - t) * m ≤ (1 - t) * a :=
    mul_le_mul_of_nonneg_left ha (by linarith)
  have h2 : t * m ≤ t * b := mul_le_mul_of_nonneg_left hb ht0
  nlinarith

/-- Bilinear interpolation with weights in `[0, 1]` is a convex combination:
it is bounded by the minimum and maximum of the four interpolated values. -/
theorem bilinear_bounds {rc bc a b c d : ℚ} (hrc0 : 0 ≤ rc) (hrc1 : rc ≤ 1)
    (hbc0 : 0 ≤ bc) (hbc1 : bc ≤ 1) :
    min (min a b) (min c d) ≤
        (1 - rc) * ((1 - bc) * a + bc * c) + rc * ((1 - bc) * b + bc * d) ∧
      (1 - rc) * ((1 - bc) * a + bc * c) + rc * ((1 - bc) * b + bc * d) ≤
        max (max a b) (max c d) := by
  constructor
  · refine convex_ge hrc0 hrc1 (convex_ge hbc0 hbc1 ?_ ?_) (convex_ge hbc0 hbc1 ?_ ?_)
    · exact le_trans (min_le_left _ _) (min_le_left _ _)
    · exact le_trans (min_le_right _ _) (min_le_left _ _)
    · exact le_trans (min_le_left _ _) (min_le_right _ _)
    · exact le_trans (min_le_right _ _) (min_le_right _ _)
  · refine convex_le hrc0 hrc1 (convex_le hbc0 hbc1 ?_ ?_) (convex_le hbc0 hbc1 ?_ ?_)
    · exact le_trans (le_max_left _ _) (le_max_left _ _)
    · exact le_trans (le_max_left _ _) (le_max_right _ _)
    · exact le_trans (le_max_right _ _) (le_max_left _ _)
    · exact le_trans (le_max_right _ _) (le_max_right _ _)

/-- C7: the density and each velocity component produced by `advect(dt)` at an
in-range cell is a convex combination of the 4 sampled corner cells of the
(pre-swap current, post-swap previous) buffer, hence bounded below by their
minimum and above by their maximum — no overshoot. -/
theorem advect_convex_bounds (f : Fluid) (dt : ℚ) (x y : ℕ)
    (hx : x < f.size) (hy : y < f.size) :
    min (min (corner_tl f.cells f.size (dt * (f.size : ℚ)) x y).density
          (corner_tr f.cells f.size (dt * (f.size : ℚ)) x y).density)
        (min (corner_bl f.cells f.size (dt * (f.size : ℚ)) x y).density
          (corner_br f.cells f.size (dt * (f.size : ℚ)) x y).density) ≤
        ((f.advect dt).cells x y).density ∧
      ((f.advect dt).cells x y).density ≤
        max (max (corner_tl f.cells f.size (dt * (f.size : ℚ)) x y).density
            (corner_tr f.cells f.size (dt * (f.size : ℚ)) x y).density)
          (max (corner_bl f.cells f.size (dt * (f.size : ℚ)) x y).density
            (corner_br f.cells f.size (dt * (f.size : ℚ)) x y).density) ∧
      min (min (corner_tl f.cells f.size (dt * (f.size : ℚ)) x y).velocity.x
          (corner_tr f.cells f.size (dt * (f.size : ℚ)) x y).velocity.x)
        (min (corner_bl f.cells f.size (dt * (f.size : ℚ)) x y).velocity.x
          (corner_br f.cells f.size (dt * (f.size : ℚ)) x y).velocity.x) ≤
        ((f.advect dt).cells x y).velocity.x ∧
      ((f.advect dt).cells x y).velocity.x ≤
        max (max (corner_tl f.cells f.size (dt * (f.size : ℚ)) x y).velocity.x
            (corner_tr f.cells f.size (dt * (f.size : ℚ)) x y).velocity.x)
          (max (corner_bl f.cells f.size (dt * (f.size : ℚ)) x y).velocity.x
            (corner_br f.cells f.size (dt * (f.size : ℚ)) x y).velocity.x) ∧
      min (min (corner_tl f.cells f.size (dt * (f.size : ℚ)) x y).velocity.y
          (corner_tr f.cells f.size (dt * (f.size : ℚ)) x y).velocity.y)
        (min (corner_bl f.cells f.size (dt * (f.size : ℚ)) x y).velocity.y
          (corner_br f.cells f.size (dt * (f.size : ℚ)) x y).velocity.y) ≤
        ((f.advect dt).cells x y).velocity.y ∧
      ((f.advect dt).cells x y).velocity.y ≤
        max (max (corner_tl f.cells f.size (dt * (f.size : ℚ)) x y).velocity.y
            (corner_tr f.cells f.size (dt * (f.size : ℚ)) x y).velocity.y)
          (max (corner_bl f.cells f.size (dt * (f.size : ℚ)) x y).velocity.y
            (corner_br f.cells f.size (dt * (f.size : ℚ)) x y).velocity.y) := by
  have hc := advect_cells_apply f dt x y
  rw [if_pos ⟨hx, hy⟩] at hc
  have hrc0 := fract_nonneg_rat (source_x f.cells (dt * (f.size : ℚ)) x y)
  have hrc1 := fract_le_one_rat (source_x f.cells (dt * (f.size : ℚ)) x y)
  have hbc0 := fract_nonneg_rat (source_y f.cells (dt * (f.size : ℚ)) x y)
  have hbc1 := fract_le_one_rat (source_y f.cells (dt * (f.size : ℚ)) x y)
  refine ⟨?_, ?_, ?_, ?_, ?_, ?_⟩
  · rw [hc, advect_value_density]
    exact (bilinear_bounds hrc0 hrc1 hbc0 hbc1).1
  · rw [hc, advect_value_density]
    exact (bilinear_bounds hrc0 hrc1 hbc0 hbc1).2
  · rw [hc, advect_value_velocity_x]
    exact (bilinear_bounds hrc0 hrc1 hbc0 hbc1).1
  · rw [hc, advect_value_velocity_x]
    exact (bilinear_bounds hrc0 hrc1 hbc0 hbc1).2
  · rw [hc, advect_value_velocity_y]
    exact (bilinear_bounds hrc0 hrc1 hbc0 hbc1).1
  · rw [hc, advect_value_velocity_y]
    exact (bilinear_bounds hrc0 hrc1 hbc0 hbc1).2

/-- Concrete 1 by 1 fluid with a non-trivial velocity for the C7 witness. -/
def sampleFluidC7 : Fluid :=
  ⟨0, 0, 1, fun _ _ => ⟨2, ⟨1 / 2, 1 / 3⟩⟩, fun _ _ => Cell.init⟩

/-- Witness for C7 at a concrete fluid, `dt = 1` and target cell `(0, 0)`. -/
theorem advect_convex_bounds_witness :
    0 < sampleFluidC7.size ∧
      (min (min (corner_tl sampleFluidC7.cells sampleFluidC7.size
              (1 * (sampleFluidC7.size : ℚ)) 0 0).density
            (corner_tr sampleFluidC7.cells sampleFluidC7.size
              (1 * (sampleFluidC7.size : ℚ)) 0 0).density)
          (min (corner_bl sampleFluidC7.cells sampleFluidC7.size
              (1 * (sampleFluidC7.size : ℚ)) 0 0).density
            (corner_br sampleFluidC7.cells sampleFluidC7.size
              (1 * (sampleFluidC7.size : ℚ)) 0 0).density) ≤
          ((sampleFluidC7.advect 1).cells 0 0).density ∧
        ((sampleFluidC7.advect 1).cells 0 0).density ≤
          max (max (corner_tl sampleFluidC7.cells sampleFluidC7.size
              (1 * (sampleFluidC7.size : ℚ)) 0 0).density
            (corner_tr sampleFluidC7.cells sampleFluidC7.size
              (1 * (sampleFluidC7.size : ℚ)) 0 0).density)
          (max (corner_bl sampleFluidC7.cells sampleFluidC7.size
              (1 * (sampleFluidC7.size : ℚ)) 0 0).density
            (corner_br sampleFluidC7.cells sampleFluidC7.size
              (1 * (sampleFluidC7.size : ℚ)) 0 0).density) ∧
        min (min (corner_tl sampleFluidC7.cells sampleFluidC7.size
              (1 * (sampleFluidC7.size : ℚ)) 0 0).velocity.x
            (corner_tr sampleFluidC7.cells sampleFluidC7.size
              (1 * (sampleFluidC7.size : ℚ)) 0 0).velocity.x)
          (min (corner_bl sampleFluidC7.cells sampleFluidC7.size
              (1 * (sampleFluidC7.size : ℚ)) 0 0).velocity.x
            (corner_br sampleFluidC7.cells sampleFluidC7.size
              (1 * (sampleFluidC7.size : ℚ)) 0 0).velocity.x) ≤
          ((sampleFluidC7.advect 1).cells 0 0).velocity.x ∧
        ((sampleFluidC7.advect 1).cells 0 0).velocity.x ≤
          max (max (corner_tl sampleFluidC7.cells sampleFluidC7.size
              (1 * (sampleFluidC7.size : ℚ)) 0 0).velocity.x
            (corner_tr sampleFluidC7.cells sampleFluidC7.size
              (1 * (sampleFluidC7.size : ℚ)) 0 0).velocity.x)
          (max (corner_bl sampleFluidC7.cells sampleFluidC7.size
              (1 * (sampleFluidC7.size : ℚ)) 0 0).velocity.x
            (corner_br sampleFluidC7.cells sampleFluidC7.size
              (1 * (sampleFluidC7.size : ℚ)) 0 0).velocity.x) ∧
        min (min (corner_tl sampleFluidC7.cells sampleFluidC7.size
              (1 * (sampleFluidC7.size : ℚ)) 0 0).velocity.y
            (corner_tr sampleFluidC7.cells sampleFluidC7.size
              (1 * (sampleFluidC7.size : ℚ)) 0 0).velocity.y)
          (min (corner_bl sampleFluidC7.cells sampleFluidC7.size
              (1 * (sampleFluidC7.size : ℚ)) 0 0).velocity.y
            (corner_br sampleFluidC7.cells sampleFluidC7.size
              (1 * (sampleFluidC7.size : ℚ)) 0 0).velocity.y) ≤
          ((sampleFluidC7.advect 1).cells 0 0).velocity.y ∧
        ((sampleFluidC7.advect 1).cells 0 0).velocity.y ≤
          max (max (corner_tl sampleFluidC7.cells sampleFluidC7.size
              (1 * (sampleFluidC7.size : ℚ)) 0 0).velocity.y
            (corner_tr sampleFluidC7.cells sampleFluidC7.size
              (1 * (sampleFluidC7.size : ℚ)) 0 0).velocity.y)
          (max (corner_bl sampleFluidC7.cells sampleFluidC7.size
              (1 * (sampleFluidC7.size : ℚ)) 0 0).velocity.y
            (corner_br sampleFluidC7.cells sampleFluidC7.size
              (1 * (sampleFluidC7.size : ℚ)) 0 0).velocity.y)) :=
  ⟨by decide, advect_convex_bounds sampleFluidC7 1 0 0 (by decide) (by decide)⟩

/-! ## Diffusion lemmas (C3, C1) -/

theorem wrap_index_one (i : ℤ) : wrap_index i 1 = 0 := by
  have h := wrap_index_coe i 1 (by decide)
  rw [show ((1 : ℕ) : ℤ) = 1 from rfl, Int.emod_one] at h
  exact_mod_cast h

/-- With `a_density = 0` the diffusion cell update ignores the neighbour sums
entirely: the written density is the previous density, and the written
velocity is the previous velocity divided by `1 + 4 * a_velocity`. -/
theorem diffuse_cell_zero_adensity (prev : Grid) (n : ℕ) (av : ℚ) (g : Grid)
    (x y : ℕ) :
    diffuse_cell prev n 0 av g x y =
      setCell g x y
        ⟨(prev x y).density, (prev x y).velocity / (1 + 4 * av)⟩ := by
  unfold diffuse_cell
  refine congrArg (setCell g x y) ?_
  simp only [Cell.mk.injEq]
  constructor
  · norm_num
  · simp only [Vec2.smul_def, Vec2.add_def, Vec2.div_def]
    rw [show (prev x y).velocity =
      Vec2.mk (prev x y).velocity.x (prev x y).velocity.y from rfl]
    simp only [Vec2.mk.injEq]
    constructor
    · ring
    · ring

/-- Pointwise description of a whole diffusion sweep when `a_density = 0`. -/
theorem diffuse_sweep_zero_adensity (prev : Grid) (n : ℕ) (av : ℚ) (g : Grid)
    (i j : ℕ) :
    diffuse_sweep prev n 0 av g i j =
      if i < n ∧ j < n then
        (⟨(prev i j).density, (prev i j).velocity / (1 + 4 * av)⟩ : Cell)
      else g i j := by
  have h := @foldCells_part Cell n (diffuse_cell prev n 0 av)
    (fun c => c)
    (fun x y _ => ⟨(prev x y).density, (prev x y).velocity / (1 + 4 * av)⟩)
    (fun g x y _ _ =>
      ⟨⟨(prev x y).density, (prev x y).velocity / (1 + 4 * av)⟩,
        diffuse_cell_zero_adensity prev n av g x y, rfl⟩)
    g i j
  exact h

/-- When the density coefficient `a_density = dt * diffusion * N^2` vanishes,
any positive number of diffusion sweeps leaves, at each in-range cell, the
pre-call density and the pre-call velocity divided by `1 + 4 * a_velocity`. -/
theorem diffuseN_cells_zero_adensity (f : Fluid) (dt : ℚ) (k : ℕ)
    (hk : 1 ≤ k)
    (ha : dt * f.diffusion * ((f.size * f.size : ℕ) : ℚ) = 0)
    (i j : ℕ) (hi : i < f.size) (hj : j < f.size) :
    (f.diffuseN dt k).cells i j =
      ⟨(f.cells i j).density,
        (f.cells i j).velocity /
          (1 + 4 * (dt * f.viscosity * ((f.size * f.size : ℕ) : ℚ)))⟩ := by
  obtain ⟨m, rfl⟩ : ∃ m, k = m + 1 := ⟨k - 1, by omega⟩
  show (upTo (fun g _ => diffuse_sweep f.cells f.size
      (dt * f.diffusion * ((f.size * f.size : ℕ) : ℚ))
      (dt * f.viscosity * ((f.size * f.size : ℕ) : ℚ)) g) (m + 1)
      f.prev_cells) i j = _
  rw [upTo_succ, ha, diffuse_sweep_zero_adensity, if_pos ⟨hi, hj⟩]

/-- Concrete 1 by 1 fluid: diffusion 0, viscosity 1, density 3, velocity
`(1, 0)`; used for the C1 and C3 falsifying computations. -/
def sampleFluidC1 : Fluid :=
  ⟨0, 1, 1, fun _ _ => ⟨3, ⟨1, 0⟩⟩, fun _ _ => Cell.init⟩

/-- C3 counterexample: with diffusion coefficient 0 but viscosity 1, a
`diffuse(1)` call on a 1 by 1 grid with velocity `(1, 0)` scales the velocity
by `1 / (1 + 4 * a_velocity) = 1/5`, so the observable field is changed. -/
theorem diffuse_zero_diffusion_changes_velocity :
    ((sampleFluidC1.diffuse 1).cells 0 0).velocity.x = 1 / 5 ∧
      (sampleFluidC1.cells 0 0).velocity.x = 1 ∧
      (sampleFluidC1.diffuse 1).cells 0 0 ≠ sampleFluidC1.cells 0 0 := by
  have h := diffuseN_cells_zero_adensity sampleFluidC1 1 20 (by omega)
    (by norm_num [sampleFluidC1]) 0 0 (by decide) (by decide)
  have hx : ((sampleFluidC1.diffuse 1).cells 0 0).velocity.x = 1 / 5 := by
    rw [Fluid.diffuse, h]
    show (1 : ℚ) / (1 + 4 * (1 * sampleFluidC1.viscosity *
      ((sampleFluidC1.size * sampleFluidC1.size : ℕ) : ℚ))) = 1 / 5
    norm_num [sampleFluidC1]
  refine ⟨hx, rfl, fun hc => ?_⟩
  rw [hc] at hx
  norm_num [sampleFluidC1] at hx

theorem vec_div_one (v : Vec2) : v / (1 : ℚ) = v := by
  rw [Vec2.div_def]
  rw [show v = Vec2.mk v.x v.y from rfl]
  simp only [Vec2.mk.injEq]
  exact ⟨div_one v.x, div_one v.y⟩

/-- C3 amended: if the diffusion coefficient is 0 then `diffuse(dt)` leaves
every cell's density unchanged, for any `dt` and any sweep count at least 1;
the velocity channel is additionally unchanged whenever `dt * viscosity = 0`
(in particular for viscosity 0, the default configuration, or `dt = 0`). -/
theorem diffuse_zero_diffusion_density_identity (f : Fluid) (dt : ℚ) (k : ℕ)
    (hk : 1 ≤ k) (hd : f.diffusion = 0) (i j : ℕ)
    (hi : i < f.size) (hj : j < f.size) :
    ((f.diffuseN dt k).cells i j).density = (f.cells i j).density ∧
      (dt * f.viscosity = 0 → (f.diffuseN dt k).cells i j = f.cells i j) := by
  have ha : dt * f.diffusion * ((f.size * f.size : ℕ) : ℚ) = 0 := by
    rw [hd]
    ring
  have h := diffuseN_cells_zero_adensity f dt k hk ha i j hi hj
  refine ⟨by rw [h], fun hv => ?_⟩
  have hav : dt * f.viscosity * ((f.size * f.size : ℕ) : ℚ) = 0 := by
    rw [hv, zero_mul]
  rw [h, hav, show (1 + 4 * (0 : ℚ)) = 1 by norm_num, vec_div_one]

/-- Concrete fluid with diffusion 0, nonzero viscosity and a populated cell,
for the C3 witness (taken at `dt = 0`). -/
def sampleFluidC3 : Fluid :=
  ⟨0, 3, 1, fun _ _ => ⟨2, ⟨5, 7⟩⟩, fun _ _ => Cell.init⟩

/-- Witness for the amended C3 at a concrete fluid, `dt = 0`, 20 sweeps. -/
theorem diffuse_zero_diffusion_density_identity_witness :
    1 ≤ 20 ∧ sampleFluidC3.diffusion = 0 ∧
      (0 : ℚ) * sampleFluidC3.viscosity = 0 ∧
      ((sampleFluidC3.diffuseN 0 20).cells 0 0).density =
        (sampleFluidC3.cells 0 0).density ∧
      (sampleFluidC3.diffuseN 0 20).cells 0 0 = sampleFluidC3.cells 0 0 := by
  have h := diffuse_zero_diffusion_density_identity sampleFluidC3 0 20
    (by omega) rfl 0 0 (by decide) (by decide)
  exact ⟨by omega, rfl, by norm_num, h.1, h.2 (by norm_num)⟩

/-! ## C1: the velocity numerator uses the diffusion-based coefficient -/

theorem foldCells_one (F : Grid → ℕ → ℕ → Grid) (g : Grid) :
    foldCells 1 F g = F g 0 0 := rfl

/-- Unfolding of the current buffer produced by the spec-modelled diffusion. -/
theorem diffuseSpecN_cells (f : Fluid) (dt : ℚ) (k : ℕ) :
    (f.diffuseSpecN dt k).cells =
      upTo
        (fun g _ =>
          foldCells f.size
            (diffuse_spec_cell f.cells f.size
              (dt * f.diffusion * ((f.size * f.size : ℕ) : ℚ))
              (dt * f.viscosity * ((f.size * f.size : ℕ) : ℚ))) g)
        k f.prev_cells := rfl

/-- One spec-modelled diffusion sweep on the concrete 1 by 1 grid, velocity
channel: all four wrapped neighbours are the cell itself. -/
theorem spec_sweep_one_velocity (g : Grid) :
    ((diffuse_spec_cell (fun _ _ => (⟨3, ⟨1, 0⟩⟩ : Cell)) 1 0 1 g 0 0) 0 0).velocity =
      (Vec2.mk 1 0 +
          (1 : ℚ) *
            ((g 0 0).velocity + (g 0 0).velocity + (g 0 0).velocity +
              (g 0 0).velocity)) /
        ((1 : ℚ) + 4 * 1) := rfl

/-- Closed form of the spec-modelled velocity iteration on the 1 by 1 grid:
after `k` sweeps the velocity is `(1 - (4/5)^k, 0)`. -/
theorem spec_iter_velocity (A B : ℚ) (hA : A = 0) (hB : B = 1) (k : ℕ) :
    ((upTo
        (fun g _ =>
          foldCells 1
            (diffuse_spec_cell (fun _ _ => (⟨3, ⟨1, 0⟩⟩ : Cell)) 1 A B) g)
        k (fun _ _ => Cell.init)) 0 0).velocity =
      ⟨1 - (4 / 5) ^ k, 0⟩ := by
  subst hA
  subst hB
  induction k with
  | zero =>
    show Cell.init.velocity = _
    rw [show Cell.init.velocity = Vec2.mk 0 0 from rfl]
    simp only [Vec2.mk.injEq]
    norm_num
  | succ k ih =>
    rw [upTo_succ, foldCells_one, spec_sweep_one_velocity, ih]
    simp only [Vec2.add_def, Vec2.smul_def, Vec2.div_def]
    simp only [Vec2.mk.injEq]
    constructor
    · rw [pow_succ]
      ring
    · norm_num

set_option maxRecDepth 8000 in
/-- C1: evaluation of the failing input.  On a 1 by 1 grid with diffusion 0,
viscosity 1, velocity `(1, 0)` and `dt = 1`, the source's `diffuse` (whose
velocity numerator multiplies the neighbour sum by `a_density`) leaves
velocity x at `1/5`, whereas the claimed update rule (viscosity-based
coefficient in both numerator and denominator, `Fluid.diffuseSpec`) yields
`1 - (4/5)^20`; the two disagree. -/
theorem diffuse_velocity_numerator_coefficient_bug :
    ((sampleFluidC1.diffuse 1).cells 0 0).velocity.x = 1 / 5 ∧
      ((sampleFluidC1.diffuseSpec 1).cells 0 0).velocity.x = 1 - (4 / 5) ^ 20 ∧
      (1 / 5 : ℚ) ≠ 1 - (4 / 5) ^ 20 := by
  have hcode := diffuseN_cells_zero_adensity sampleFluidC1 1 20 (by omega)
    (by norm_num [sampleFluidC1]) 0 0 (by decide) (by decide)
  refine ⟨?_, ?_, by norm_num⟩
  · rw [Fluid.diffuse, hcode]
    show (1 : ℚ) / (1 + 4 * (1 * sampleFluidC1.viscosity *
      ((sampleFluidC1.size * sampleFluidC1.size : ℕ) : ℚ))) = 1 / 5
    norm_num [sampleFluidC1]
  · rw [Fluid.diffuseSpec, diffuseSpecN_cells]
    show ((upTo
        (fun g _ =>
          foldCells 1
            (diffuse_spec_cell (fun _ _ => (⟨3, ⟨1, 0⟩⟩ : Cell)) 1
              (1 * sampleFluidC1.diffusion *
                ((sampleFluidC1.size * sampleFluidC1.size : ℕ) : ℚ))
              (1 * sampleFluidC1.viscosity *
                ((sampleFluidC1.size * sampleFluidC1.size : ℕ) : ℚ))) g)
        20 (fun _ _ => Cell.init)) 0 0).velocity.x = 1 - (4 / 5) ^ 20
    rw [spec_iter_velocity
      (1 * sampleFluidC1.diffusion *
        ((sampleFluidC1.size * sampleFluidC1.size : ℕ) : ℚ))
      (1 * sampleFluidC1.viscosity *
        ((sampleFluidC1.size * sampleFluidC1.size : ℕ) : ℚ))
      (by norm_num [sampleFluidC1]) (by norm_num [sampleFluidC1]) 20]

/-! ## C10: project touches only velocities -/

/-- Unfolding of the current buffer produced by `Fluid::project`: only the
final gradient-subtraction loop writes to it. -/
theorem projectN_cells (f : Fluid) (k : ℕ) :
    (f.projectN k).cells =
      foldCells f.size
        (project_grad_cell ((f.projectN k).prev_cells) f.size
          (1 / (f.size : ℚ)))
        f.cells := rfl

/-- The gradient-subtraction loop never changes any density. -/
theorem project_grad_density (p : Grid) (n : ℕ) (h : ℚ) (g : Grid) (i j : ℕ) :
    ((foldCells n (project_grad_cell p n h) g) i j).density =
      (g i j).density := by
  have hh := @foldCells_part ℚ n (project_grad_cell p n h) Cell.density
    (fun _ _ d => d) (fun g x y _ _ => ⟨_, rfl, rfl⟩) g i j
  rw [hh]
  split
  · rfl
  · rfl

/-- C10: `project()` never modifies the density channel of the current buffer,
nor the diffusion coefficient, viscosity coefficient, or size: only the
current buffer's velocities (and the scratch storage packed into the previous
buffer) change. -/
theorem project_preserves_density_and_config (f : Fluid) (x y : ℕ) :
    ((f.project).cells x y).density = (f.cells x y).density ∧
      (f.project).diffusion = f.diffusion ∧
      (f.project).viscosity = f.viscosity ∧
      (f.project).size = f.size := by
  refine ⟨?_, rfl, rfl, rfl⟩
  rw [Fluid.project, projectN_cells, project_grad_density]

/-! ## C5: projection and the discrete divergence -/

theorem foldCells_zero (F : Grid → ℕ → ℕ → Grid) (g : Grid) :
    foldCells 0 F g = g := rfl

/-- Unfolding of the previous (scratch) buffer produced by `Fluid::project`:
divergence loop, then the relaxation sweeps. -/
theorem projectN_prev_cells (f : Fluid) (k : ℕ) :
    (f.projectN k).prev_cells =
      upTo (fun p _ => foldCells f.size (project_relax_cell f.size) p) k
        (foldCells f.size
          (project_div_cell f.cells f.size (1 / (f.size : ℚ)))
          f.prev_cells) := rfl

/-- On grids of size 1 or 2 the two opposite axis neighbours coincide, so the
discrete divergence of any field is identically zero. -/
theorem divAt_zero_of_small (f : Fluid) (hn : f.size ≤ 2) (x y : ℕ)
    (_hx : x < f.size) (_hy : y < f.size) : f.divAt x y = 0 := by
  have hw : ∀ i : ℤ, wrap_index (i + 1) f.size = wrap_index (i - 1) f.size := by
    intro i
    have h12 : f.size = 1 ∨ f.size = 2 := by omega
    rcases h12 with h1 | h2
    · rw [h1, wrap_index_one, wrap_index_one]
    · have he : i + 1 = (i - 1) + 1 * ((2 : ℕ) : ℤ) := by push_cast; ring
      rw [h2, he, wrap_index_add_mul (i - 1) 1 2 (by norm_num)]
  unfold Fluid.divAt divergence get_cell
  rw [hw (x : ℤ), hw (y : ℤ)]
  ring

/-- After the divergence loop, every in-range scratch cell's velocity is
`(0, divergence)`. -/
theorem div_phase_velocity (cells : Grid) (n : ℕ) (h : ℚ) (p : Grid)
    (i j : ℕ) (hi : i < n) (hj : j < n) :
    ((foldCells n (project_div_cell cells n h) p) i j).velocity =
      ⟨0, divergence cells n h i j⟩ := by
  have hh := @foldCells_part Cell n (project_div_cell cells n h) (fun c => c)
    (fun x y c => { c with velocity := ⟨0, divergence cells n h x y⟩ })
    (fun p x y _ _ => ⟨_, rfl, rfl⟩) p i j
  rw [hh, if_pos ⟨hi, hj⟩]

theorem cell_with_velocity (c : Cell) (v : Vec2) :
    ({ c with velocity := v } : Cell).velocity = v := rfl

/-- One Poisson relaxation sweep preserves an all-zero scratch velocity
field. -/
theorem relax_sweep_preserves_zero {n : ℕ} (hpos : 0 < n) (p : Grid)
    (hP : ∀ i j, i < n → j < n → (p i j).velocity = Vec2.mk 0 0) :
    ∀ i j, i < n → j < n →
      ((foldCells n (project_relax_cell n) p) i j).velocity = Vec2.mk 0 0 := by
  refine @foldCells_preserve
    (fun q => ∀ i j, i < n → j < n → (q i j).velocity = Vec2.mk 0 0) n
    (project_relax_cell n) ?_ p hP
  intro q x y hq i j hi hj
  unfold project_relax_cell
  rw [setCell_apply]
  by_cases hij : i = x ∧ j = y
  · rw [if_pos hij]
    rcases hij with ⟨rfl, rfl⟩
    rw [cell_with_velocity]
    have h0 : (q i j).velocity = Vec2.mk 0 0 := hq i j hi hj
    have h1 : (get_cell q n ((i : ℤ) - 1) (j : ℤ)).velocity = Vec2.mk 0 0 := by
      unfold get_cell
      exact hq _ _ (wrap_index_lt _ n hpos) (wrap_index_lt _ n hpos)
    have h2 : (get_cell q n ((i : ℤ) + 1) (j : ℤ)).velocity = Vec2.mk 0 0 := by
      unfold get_cell
      exact hq _ _ (wrap_index_lt _ n hpos) (wrap_index_lt _ n hpos)
    have h3 : (get_cell q n (i : ℤ) ((j : ℤ) - 1)).velocity = Vec2.mk 0 0 := by
      unfold get_cell
      exact hq _ _ (wrap_index_lt _ n hpos) (wrap_index_lt _ n hpos)
    have h4 : (get_cell q n (i : ℤ) ((j : ℤ) + 1)).velocity = Vec2.mk 0 0 := by
      unfold get_cell
      exact hq _ _ (wrap_index_lt _ n hpos) (wrap_index_lt _ n hpos)
    rw [h0, h1, h2, h3, h4]
    rw [Vec2.mk.injEq]
    constructor
    · show (1 / 4 : ℚ) * ((Vec2.mk 0 0).y + (Vec2.mk 0 0).x + (Vec2.mk 0 0).x +
        (Vec2.mk 0 0).x + (Vec2.mk 0 0).x) = 0
      norm_num [Vec2.mk.injEq]
    · rfl
  · rw [if_neg hij]
    exact hq i j hi hj

/-- Subtracting half of a zero gradient changes nothing. -/
theorem grad_sub_zero (c : Cell) (h : ℚ) (gx gy : ℚ) (hgx : gx = 0)
    (hgy : gy = 0) :
    ({ c with velocity := c.velocity - ((1 / 2 : ℚ) * Vec2.mk gx gy) / h } :
      Cell) = c := by
  subst hgx
  subst hgy
  have hv : c.velocity - ((1 / 2 : ℚ) * Vec2.mk 0 0) / h = c.velocity := by
    simp only [Vec2.smul_def, Vec2.div_def, Vec2.sub_def]
    rw [show c.velocity = Vec2.mk c.velocity.x c.velocity.y from rfl]
    simp only [Vec2.mk.injEq]
    constructor
    · show c.velocity.x - (1 / 2 : ℚ) * (Vec2.mk 0 0).x / h = c.velocity.x
      norm_num [Vec2.mk.injEq]
    · show c.velocity.y - (1 / 2 : ℚ) * (Vec2.mk 0 0).y / h = c.velocity.y
      norm_num [Vec2.mk.injEq]
  rw [hv]

/-- A field whose discrete divergence vanishes everywhere is a fixed point of
`project()`: the scratch potential stays zero through every sweep and the
subtracted gradient is zero, so the current buffer is completely unchanged. -/
theorem project_divfree_fixes_cells (f : Fluid)
    (hdiv : ∀ x y, x < f.size → y < f.size → f.divAt x y = 0) (x y : ℕ) :
    (f.project).cells x y = f.cells x y := by
  rcases Nat.eq_zero_or_pos f.size with h0 | hpos
  · rw [Fluid.project, projectN_cells, h0, foldCells_zero]
  · have hP2 : ∀ i j, i < f.size → j < f.size →
        ((f.projectN 20).prev_cells i j).velocity = Vec2.mk 0 0 := by
      rw [projectN_prev_cells]
      refine upTo_preserve
        (fun p k hp => relax_sweep_preserves_zero hpos p hp) 20 _ ?_
      intro i j hi hj
      rw [div_phase_velocity f.cells f.size (1 / (f.size : ℚ))
        f.prev_cells i j hi hj]
      have hz := hdiv i j hi hj
      unfold Fluid.divAt at hz
      rw [hz]
    have hc := @foldCells_part Cell f.size
      (project_grad_cell ((f.projectN 20).prev_cells) f.size
        (1 / (f.size : ℚ)))
      (fun c => c)
      (fun x y c =>
        { c with
          velocity := c.velocity -
            ((1 / 2 : ℚ) *
                (⟨(get_cell ((f.projectN 20).prev_cells) f.size ((x : ℤ) + 1)
                      (y : ℤ)).velocity.x -
                    (get_cell ((f.projectN 20).prev_cells) f.size ((x : ℤ) - 1)
                      (y : ℤ)).velocity.x,
                    (get_cell ((f.projectN 20).prev_cells) f.size (x : ℤ)
                      ((y : ℤ) + 1)).velocity.x -
                    (get_cell ((f.projectN 20).prev_cells) f.size (x : ℤ)
                      ((y : ℤ) - 1)).velocity.x⟩ : Vec2)) /
              (1 / (f.size : ℚ)) })
      (fun g x y _ _ => ⟨_, rfl, rfl⟩) f.cells x y
    rw [Fluid.project, projectN_cells, hc]
    by_cases hxy : x < f.size ∧ y < f.size
    · rw [if_pos hxy]
      have h1 : (get_cell ((f.projectN 20).prev_cells) f.size ((x : ℤ) + 1)
          (y : ℤ)).velocity = Vec2.mk 0 0 := by
        unfold get_cell
        exact hP2 _ _ (wrap_index_lt _ _ hpos) (wrap_index_lt _ _ hpos)
      have h2 : (get_cell ((f.projectN 20).prev_cells) f.size ((x : ℤ) - 1)
          (y : ℤ)).velocity = Vec2.mk 0 0 := by
        unfold get_cell
        exact hP2 _ _ (wrap_index_lt _ _ hpos) (wrap_index_lt _ _ hpos)
      have h3 : (get_cell ((f.projectN 20).prev_cells) f.size (x : ℤ)
          ((y : ℤ) + 1)).velocity = Vec2.mk 0 0 := by
        unfold get_cell
        exact hP2 _ _ (wrap_index_lt _ _ hpos) (wrap_index_lt _ _ hpos)
      have h4 : (get_cell ((f.projectN 20).prev_cells) f.size (x : ℤ)
          ((y : ℤ) - 1)).velocity = Vec2.mk 0 0 := by
        unfold get_cell
        exact hP2 _ _ (wrap_index_lt _ _ hpos) (wrap_index_lt _ _ hpos)
      rw [h1, h2, h3, h4]
      refine grad_sub_zero (f.cells x y) (1 / (f.size : ℚ)) _ _ ?_ ?_
      · show (0 : ℚ) - 0 = 0
        norm_num
      · show (0 : ℚ) - 0 = 0
        norm_num
    · rw [if_neg hxy]

theorem absQ_zero : absQ 0 = 0 := by
  norm_num [absQ]

theorem sumRange_eq_zero (F : ℕ → ℚ) (n : ℕ) (h : ∀ m, m < n → F m = 0) :
    sumRange F n = 0 := by
  induction n with
  | zero => rfl
  | succ k ih =>
    show sumRange F k + F k = 0
    rw [ih (fun m hm => h m (by omega)), h k (by omega), add_zero]

/-- Divergence-free fields: `project()` leaves the whole current buffer
unchanged and the divergence-magnitude sum stays at zero. -/
theorem project_divfree_package (f : Fluid)
    (hdiv : ∀ x y, x < f.size → y < f.size → f.divAt x y = 0) :
    (∀ x y, (f.project).cells x y = f.cells x y) ∧
      (f.project).sumDivMag = f.sumDivMag ∧ f.sumDivMag = 0 := by
  have hfix := project_divfree_fixes_cells f hdiv
  have hcells : (f.project).cells = f.cells :=
    funext fun x => funext fun y => hfix x y
  have hdiveq : ∀ x y, (f.project).divAt x y = f.divAt x y := by
    intro x y
    unfold Fluid.divAt
    rw [hcells]
    rfl
  have hsum : (f.project).sumDivMag = f.sumDivMag := by
    unfold Fluid.sumDivMag
    simp only [hdiveq]
    rfl
  have hzero : f.sumDivMag = 0 := by
    unfold Fluid.sumDivMag
    refine sumRange_eq_zero _ _ (fun m hm => ?_)
    refine sumRange_eq_zero _ _ (fun l hl => ?_)
    rw [hdiv m l hm hl, absQ_zero]
  exact ⟨hfix, hsum, hzero⟩

/-! ## C4: step at dt = 0 -/

/-- With `dt = 0` both diffusion coefficients vanish, so `diffuse(0)` leaves
every in-range cell unchanged. -/
theorem diffuse_dt_zero_identity (f : Fluid) (i j : ℕ)
    (hi : i < f.size) (hj : j < f.size) :
    (f.diffuse 0).cells i j = f.cells i j := by
  have h := diffuseN_cells_zero_adensity f 0 20 (by omega)
    (by rw [zero_mul, zero_mul]) i j hi hj
  rw [Fluid.diffuse, h,
    show (0 : ℚ) * f.viscosity * ((f.size * f.size : ℕ) : ℚ) = 0 by
      rw [zero_mul, zero_mul],
    show (1 + 4 * (0 : ℚ)) = 1 by norm_num, vec_div_one]

/-- With `dt = 0` the backtrace displacement is zero, so `advect(0)` leaves
every in-range cell unchanged (source position equals target position). -/
theorem advect_dt_zero_identity (f : Fluid) (i j : ℕ)
    (hi : i < f.size) (hj : j < f.size) :
    (f.advect 0).cells i j = f.cells i j := by
  rw [advect_cells_apply, if_pos ⟨hi, hj⟩]
  refine advect_value_of_zero_backtrace _ hi hj ?_
  rw [Vec2.smul_def, show Vec2.zero = Vec2.mk 0 0 from rfl, Vec2.mk.injEq]
  constructor
  · ring
  · ring

/-- The discrete divergence only depends on the size and the in-range cells of
the current buffer. -/
theorem divAt_congr_of_cells (f g : Fluid) (hsz : g.size = f.size)
    (hc : ∀ i j, i < f.size → j < f.size → g.cells i j = f.cells i j)
    (hpos : 0 < f.size) (x y : ℕ) : g.divAt x y = f.divAt x y := by
  unfold Fluid.divAt divergence get_cell
  rw [hsz]
  rw [hc _ _ (wrap_index_lt _ _ hpos) (wrap_index_lt _ _ hpos),
    hc _ _ (wrap_index_lt _ _ hpos) (wrap_index_lt _ _ hpos),
    hc _ _ (wrap_index_lt _ _ hpos) (wrap_index_lt _ _ hpos),
    hc _ _ (wrap_index_lt _ _ hpos) (wrap_index_lt _ _ hpos)]

/-- One `step(0)` call: the density of every in-range cell is unchanged for
every state, and if the current velocity field is discretely divergence-free
the whole observable field is unchanged. -/
theorem step_zero_identity (f : Fluid) :
    (f.step 0).size = f.size ∧
      (∀ i j, i < f.size → j < f.size →
        ((f.step 0).cells i j).density = (f.cells i j).density) ∧
      ((∀ x y, x < f.size → y < f.size → f.divAt x y = 0) →
        ∀ i j, i < f.size → j < f.size → (f.step 0).cells i j = f.cells i j) := by
  refine ⟨rfl, ?_, ?_⟩
  · intro i j hi hj
    have h4 := (project_preserves_density_and_config
      (((f.diffuse 0).project).advect 0) i j).1
    have h3 := advect_dt_zero_identity ((f.diffuse 0).project) i j hi hj
    have h2 := (project_preserves_density_and_config (f.diffuse 0) i j).1
    have h1 := diffuse_dt_zero_identity f i j hi hj
    rw [Fluid.step, h4, h3, h2, h1]
  · intro hdiv i j hi hj
    have hpos : 0 < f.size := Nat.lt_of_le_of_lt (Nat.zero_le i) hi
    have h1 : ∀ a b, a < f.size → b < f.size →
        (f.diffuse 0).cells a b = f.cells a b := fun a b ha hb =>
      diffuse_dt_zero_identity f a b ha hb
    have hdiv1 : ∀ x y, x < f.size → y < f.size →
        (f.diffuse 0).divAt x y = 0 := fun x y hx hy => by
      rw [divAt_congr_of_cells f (f.diffuse 0) rfl h1 hpos]
      exact hdiv x y hx hy
    have h2 : ∀ a b, ((f.diffuse 0).project).cells a b =
        (f.diffuse 0).cells a b :=
      project_divfree_fixes_cells (f.diffuse 0) hdiv1
    have h12 : ∀ a b, a < f.size → b < f.size →
        ((f.diffuse 0).project).cells a b = f.cells a b := fun a b ha hb =>
      (h2 a b).trans (h1 a b ha hb)
    have hdiv2 : ∀ x y, x < f.size → y < f.size →
        ((f.diffuse 0).project).divAt x y = 0 := fun x y hx hy => by
      rw [divAt_congr_of_cells f ((f.diffuse 0).project) rfl h12 hpos]
      exact hdiv x y hx hy
    have h3 : ∀ a b, a < f.size → b < f.size →
        (((f.diffuse 0).project).advect 0).cells a b =
          ((f.diffuse 0).project).cells a b := fun a b ha hb =>
      advect_dt_zero_identity ((f.diffuse 0).project) a b ha hb
    have h123 : ∀ a b, a < f.size → b < f.size →
        (((f.diffuse 0).project).advect 0).cells a b = f.cells a b :=
      fun a b ha hb => (h3 a b ha hb).trans (h12 a b ha hb)
    have hdiv3 : ∀ x y, x < f.size → y < f.size →
        ((((f.diffuse 0).project).advect 0)).divAt x y = 0 :=
      fun x y hx hy => by
        rw [divAt_congr_of_cells f (((f.diffuse 0).project).advect 0) rfl h123
          hpos]
        exact hdiv x y hx hy
    have h4 : ∀ a b, ((((f.diffuse 0).project).advect 0).project).cells a b =
        (((f.diffuse 0).project).advect 0).cells a b :=
      project_divfree_fixes_cells (((f.diffuse 0).project).advect 0) hdiv3
    rw [Fluid.step]
    exact (h4 i j).trans (h123 i j hi hj)

/-- Repeated invocation of `step(0.0)`. -/
def stepRepeat (f : Fluid) : ℕ → Fluid
  | 0 => f
  | k + 1 => (stepRepeat f k).step 0

/-- C4 amended: repeated `step(0.0)` calls leave the density of every cell
unchanged on every populated grid; they additionally leave every velocity
unchanged when the initial velocity field is discretely divergence-free (the
two projection passes are then exact identities on the observable field). -/
theorem step_zero_repeated (f : Fluid) (k : ℕ) (i j : ℕ)
    (hi : i < f.size) (hj : j < f.size) :
    ((stepRepeat f k).cells i j).density = (f.cells i j).density ∧
      ((∀ x y, x < f.size → y < f.size → f.divAt x y = 0) →
        (stepRepeat f k).cells i j = f.cells i j) := by
  have main : ∀ m : ℕ, (stepRepeat f m).size = f.size ∧
      (∀ a b, a < f.size → b < f.size →
        ((stepRepeat f m).cells a b).density = (f.cells a b).density) ∧
      ((∀ x y, x < f.size → y < f.size → f.divAt x y = 0) →
        ∀ a b, a < f.size → b < f.size →
          (stepRepeat f m).cells a b = f.cells a b) := by
    intro m
    induction m with
    | zero => exact ⟨rfl, fun a b _ _ => rfl, fun _ a b _ _ => rfl⟩
    | succ m ih =>
      obtain ⟨ihsz, ihd, ihc⟩ := ih
      have hstep := step_zero_identity (stepRepeat f m)
      obtain ⟨hsz, hd, hc⟩ := hstep
      refine ⟨by rw [show stepRepeat f (m + 1) = (stepRepeat f m).step 0
        from rfl, hsz, ihsz], ?_, ?_⟩
      · intro a b ha hb
        have ha' : a < (stepRepeat f m).size := by rw [ihsz]; exact ha
        have hb' : b < (stepRepeat f m).size := by rw [ihsz]; exact hb
        have := hd a b ha' hb'
        rw [show stepRepeat f (m + 1) = (stepRepeat f m).step 0 from rfl, this]
        exact ihd a b ha hb
      · intro hdiv a b ha hb
        rcases Nat.eq_zero_or_pos f.size with h0 | hpos
        · omega
        have hdivm : ∀ x y, x < (stepRepeat f m).size →
            y < (stepRepeat f m).size → (stepRepeat f m).divAt x y = 0 := by
          intro x y hx hy
          have hx' : x < f.size := by rw [← ihsz]; exact hx
          have hy' : y < f.size := by rw [← ihsz]; exact hy
          rw [divAt_congr_of_cells f (stepRepeat f m) ihsz (ihc hdiv) hpos]
          exact hdiv x y hx' hy'
        have ha' : a < (stepRepeat f m).size := by rw [ihsz]; exact ha
        have hb' : b < (stepRepeat f m).size := by rw [ihsz]; exact hb
        have := hc hdivm a b ha' hb'
        rw [show stepRepeat f (m + 1) = (stepRepeat f m).step 0 from rfl, this]
        exact ihc hdiv a b ha hb
  exact ⟨(main k).2.1 i j hi hj, fun hdiv => (main k).2.2 hdiv i j hi hj⟩

/-- Concrete 2 by 2 populated state (nonzero coefficients, densities and
velocities); any 2 by 2 field is discretely divergence-free. -/
def sampleFluidC4W : Fluid :=
  ⟨1, 2, 2, fun _ _ => ⟨3, ⟨4, 5⟩⟩, fun _ _ => Cell.init⟩

/-- Witness for the amended C4 at a concrete populated divergence-free state,
two repeated `step(0)` calls. -/
theorem step_zero_repeated_witness :
    0 < sampleFluidC4W.size ∧ 1 < sampleFluidC4W.size ∧
      (((stepRepeat sampleFluidC4W 2).cells 0 1).density =
          (sampleFluidC4W.cells 0 1).density ∧
        ((∀ x y, x < sampleFluidC4W.size → y < sampleFluidC4W.size →
            sampleFluidC4W.divAt x y = 0) →
          (stepRepeat sampleFluidC4W 2).cells 0 1 =
            sampleFluidC4W.cells 0 1)) ∧
      (stepRepeat sampleFluidC4W 2).cells 0 1 = sampleFluidC4W.cells 0 1 := by
  have h := step_zero_repeated sampleFluidC4W 2 0 1 (by decide) (by decide)
  exact ⟨by decide, by decide, h,
    h.2 (fun x y hx hy =>
      divAt_zero_of_small sampleFluidC4W (by decide) x y hx hy)⟩

/-- Concrete populated 3 by 3 state whose only non-zero velocity is `(1, 0)`
at cell `(0, 0)` (a divergent field). -/
def sampleFluidC4 : Fluid :=
  ⟨0, 0, 3, fun x y => if x = 0 ∧ y = 0 then ⟨0, ⟨1, 0⟩⟩ else ⟨0, ⟨0, 0⟩⟩,
    fun x y => if x = 0 ∧ y = 0 then ⟨0, ⟨1, 0⟩⟩ else ⟨0, ⟨0, 0⟩⟩⟩

theorem sampleFluidC4_cells_out : ∀ x y : ℕ, ¬(x < 3 ∧ y < 3) →
    sampleFluidC4.cells x y = ⟨0, ⟨0, 0⟩⟩ := by
  intro x y h
  simp only [sampleFluidC4]
  rw [if_neg (show ¬(x = 0 ∧ y = 0) by omega)]

/-- Scratch buffer during the first projection of the 3 by 3 state: divergence stored in the velocity `y` component, before any relaxation sweep. -/
def pA0 : Grid :=
  fun x y =>
    if x = 1 ∧ y = 0 then ⟨0, ⟨0, 1 / 6⟩⟩
    else if x = 2 ∧ y = 0 then ⟨0, ⟨0, -(1 / 6)⟩⟩
    else ⟨0, ⟨0, 0⟩⟩

theorem pA0_out : ∀ x y : ℕ, ¬(x < 3 ∧ y < 3) → pA0 x y = ⟨0, ⟨0, 0⟩⟩ := by
  intro x y h
  unfold pA0
  rw [if_neg (show ¬(x = 1 ∧ y = 0) by omega),
    if_neg (show ¬(x = 2 ∧ y = 0) by omega)]

/-- Scratch buffer during the first projection of the 3 by 3 state: divergence stored in the velocity `y` component, after 5 relaxation sweeps. -/
def pA5 : Grid :=
  fun x y =>
    if x = 0 ∧ y = 0 then ⟨0, ⟨310639 / 100663296, 0⟩⟩
    else if x = 0 ∧ y = 1 then ⟨0, ⟨414475 / 134217728, 0⟩⟩
    else if x = 0 ∧ y = 2 then ⟨0, ⟨828609 / 268435456, 0⟩⟩
    else if x = 1 ∧ y = 0 then ⟨0, ⟨8077969 / 201326592, 1 / 6⟩⟩
    else if x = 1 ∧ y = 1 then ⟨0, ⟨19884167 / 1610612736, 0⟩⟩
    else if x = 1 ∧ y = 2 then ⟨0, ⟨79536265 / 6442450944, 0⟩⟩
    else if x = 2 ∧ y = 0 then ⟨0, ⟨-(18227631 / 536870912), -(1 / 6)⟩⟩
    else if x = 2 ∧ y = 1 then ⟨0, ⟨-(19884167 / 3221225472), 0⟩⟩
    else if x = 2 ∧ y = 2 then ⟨0, ⟨-(53025675 / 8589934592), 0⟩⟩
    else ⟨0, ⟨0, 0⟩⟩

theorem pA5_out : ∀ x y : ℕ, ¬(x < 3 ∧ y < 3) → pA5 x y = ⟨0, ⟨0, 0⟩⟩ := by
  intro x y h
  unfold pA5
  rw [if_neg (show ¬(x = 0 ∧ y = 0) by omega),
    if_neg (show ¬(x = 0 ∧ y = 1) by omega),
    if_neg (show ¬(x = 0 ∧ y = 2) by omega),
    if_neg (show ¬(x = 1 ∧ y = 0) by omega),
    if_neg (show ¬(x = 1 ∧ y = 1) by omega),
    if_neg (show ¬(x = 1 ∧ y = 2) by omega),
    if_neg (show ¬(x = 2 ∧ y = 0) by omega),
    if_neg (show ¬(x = 2 ∧ y = 1) by omega),
    if_neg (show ¬(x = 2 ∧ y = 2) by omega)]

/-- Scratch buffer during the first projection of the 3 by 3 state: divergence stored in the velocity `y` component, after 10 relaxation sweeps. -/
def pA10 : Grid :=
  fun x y =>
    if x = 0 ∧ y = 0 then ⟨0, ⟨111199989424935 / 36028797018963968, 0⟩⟩
    else if x = 0 ∧ y = 1 then ⟨0, ⟨444799953480681 / 144115188075855872, 0⟩⟩
    else if x = 0 ∧ y = 2 then ⟨0, ⟨889599924397467 / 288230376151711744, 0⟩⟩
    else if x = 1 ∧ y = 0 then ⟨0, ⟨8673599286466187 / 216172782113783808, 1 / 6⟩⟩
    else if x = 1 ∧ y = 1 then ⟨0, ⟨21350398258875133 / 1729382256910270464, 0⟩⟩
    else if x = 1 ∧ y = 2 then ⟨0, ⟨85401593004219827 / 6917529027641081856, 0⟩⟩
    else if x = 2 ∧ y = 0 then ⟨0, ⟨-(19571198375207989 / 576460752303423488), -(1 / 6)⟩⟩
    else if x = 2 ∧ y = 1 then ⟨0, ⟨-(21350398258875133 / 3458764513820540928), 0⟩⟩
    else if x = 2 ∧ y = 2 then ⟨0, ⟨-(56934395276829033 / 9223372036854775808), 0⟩⟩
    else ⟨0, ⟨0, 0⟩⟩

theorem pA10_out : ∀ x y : ℕ, ¬(x < 3 ∧ y < 3) → pA10 x y = ⟨0, ⟨0, 0⟩⟩ := by
  intro x y h
  unfold pA10
  rw [if_neg (show ¬(x = 0 ∧ y = 0) by omega),
    if_neg (show ¬(x = 0 ∧ y = 1) by omega),
    if_neg (show ¬(x = 0 ∧ y = 2) by omega),
    if_neg (show ¬(x = 1 ∧ y = 0) by omega),
    if_neg (show ¬(x = 1 ∧ y = 1) by omega),
    if_neg (show ¬(x = 1 ∧ y = 2) by omega),
    if_neg (show ¬(x = 2 ∧ y = 0) by omega),
    if_neg (show ¬(x = 2 ∧ y = 1) by omega),
    if_neg (show ¬(x = 2 ∧ y = 2) by omega)]

/-- Scratch buffer during the first projection of the 3 by 3 state: divergence stored in the velocity `y` component, after 15 relaxation sweeps. -/
def pA15 : Grid :=
  fun x y =>
    if x = 0 ∧ y = 0 then ⟨0, ⟨358200242848931634865559 / 116056878683004400771792896, 0⟩⟩
    else if x = 0 ∧ y = 1 then ⟨0, ⟨477600323798560497502419 / 154742504910672534362390528, 0⟩⟩
    else if x = 0 ∧ y = 2 then ⟨0, ⟨955200647596667879769369 / 309485009821345068724781056, 0⟩⟩
    else if x = 1 ∧ y = 0 then ⟨0, ⟨3104402104689367254261283 / 77371252455336267181195264, 1 / 6⟩⟩
    else if x = 1 ∧ y = 1 then ⟨0, ⟨7641605180773509770558885 / 618970019642690137449562112, 0⟩⟩
    else if x = 1 ∧ y = 2 then ⟨0, ⟨30566420723095112045110411 / 2475880078570760549798248448, 0⟩⟩
    else if x = 2 ∧ y = 0 then ⟨0, ⟨-(21014414247128099782608855 / 618970019642690137449562112), -(1 / 6)⟩⟩
    else if x = 2 ∧ y = 1 then ⟨0, ⟨-(7641605180773509770558885 / 1237940039285380274899124224), 0⟩⟩
    else if x = 2 ∧ y = 2 then ⟨0, ⟨-(61132841446190963588287827 / 9903520314283042199192993792), 0⟩⟩
    else ⟨0, ⟨0, 0⟩⟩

theorem pA15_out : ∀ x y : ℕ, ¬(x < 3 ∧ y < 3) → pA15 x y = ⟨0, ⟨0, 0⟩⟩ := by
  intro x y h
  unfold pA15
  rw [if_neg (show ¬(x = 0 ∧ y = 0) by omega),
    if_neg (show ¬(x = 0 ∧ y = 1) by omega),
    if_neg (show ¬(x = 0 ∧ y = 2) by omega),
    if_neg (show ¬(x = 1 ∧ y = 0) by omega),
    if_neg (show ¬(x = 1 ∧ y = 1) by omega),
    if_neg (show ¬(x = 1 ∧ y = 2) by omega),
    if_neg (show ¬(x = 2 ∧ y = 0) by omega),
    if_neg (show ¬(x = 2 ∧ y = 1) by omega),
    if_neg (show ¬(x = 2 ∧ y = 2) by omega)]

/-- Scratch buffer during the first projection of the 3 by 3 state: divergence stored in the velocity `y` component, after 20 relaxation sweeps. -/
def pA20 : Grid :=
  fun x y =>
    if x = 0 ∧ y = 0 then ⟨0, ⟨384614582113690935944933905674157 / 124615124604835863084731911901282304, 0⟩⟩
    else if x = 0 ∧ y = 1 then ⟨0, ⟨512819442818254582158023916839425 / 166153499473114484112975882535043072, 0⟩⟩
    else if x = 0 ∧ y = 2 then ⟨0, ⟨1025638885636509167759074401676515 / 332306998946228968225951765070086144, 0⟩⟩
    else if x = 1 ∧ y = 0 then ⟨0, ⟨9999979134955964321116058752766035 / 249230249209671726169463823802564608, 1 / 6⟩⟩
    else if x = 1 ∧ y = 1 then ⟨0, ⟨24615333255276219902312492165072885 / 1993841993677373809355710590420516864, 0⟩⟩
    else if x = 1 ∧ y = 2 then ⟨0, ⟨98461333021104879464686515777142075 / 7975367974709495237422842361682067456, 0⟩⟩
    else if x = 2 ∧ y = 0 then ⟨0, ⟨-(22564055484003201559908290225724525 / 664613997892457936451903530140172288), -(1 / 6)⟩⟩
    else if x = 2 ∧ y = 1 then ⟨0, ⟨-(24615333255276219902312492165072885 / 3987683987354747618711421180841033728), 0⟩⟩
    else if x = 2 ∧ y = 2 then ⟨0, ⟨-(65640888680736586344206721873820545 / 10633823966279326983230456482242756608), 0⟩⟩
    else ⟨0, ⟨0, 0⟩⟩

theorem pA20_out : ∀ x y : ℕ, ¬(x < 3 ∧ y < 3) → pA20 x y = ⟨0, ⟨0, 0⟩⟩ := by
  intro x y h
  unfold pA20
  rw [if_neg (show ¬(x = 0 ∧ y = 0) by omega),
    if_neg (show ¬(x = 0 ∧ y = 1) by omega),
    if_neg (show ¬(x = 0 ∧ y = 2) by omega),
    if_neg (show ¬(x = 1 ∧ y = 0) by omega),
    if_neg (show ¬(x = 1 ∧ y = 1) by omega),
    if_neg (show ¬(x = 1 ∧ y = 2) by omega),
    if_neg (show ¬(x = 2 ∧ y = 0) by omega),
    if_neg (show ¬(x = 2 ∧ y = 1) by omega),
    if_neg (show ¬(x = 2 ∧ y = 2) by omega)]

/-- Current buffer of the 3 by 3 state after one `project()` call. -/
def gA : Grid :=
  fun x y =>
    if x = 0 ∧ y = 0 then ⟨0, ⟨1181535996253258553655153719581042721 / 1329227995784915872903807060280344576, 10329079703992995 / 664613997892457936451903530140172288⟩⟩
    else if x = 0 ∧ y = 1 then ⟨0, ⟨-(73845999765828659706937476495218655 / 2658455991569831745807614120560689152), -(15717751959636289 / 664613997892457936451903530140172288)⟩⟩
    else if x = 0 ∧ y = 2 then ⟨0, ⟨-(590767998126629276891366228730029935 / 21267647932558653966460912964485513216), 2694336127821647 / 332306998946228968225951765070086144⟩⟩
    else if x = 1 ∧ y = 0 then ⟨0, ⟨73845999765828659654843813167960087 / 1329227995784915872903807060280344576, -(144563452883149465 / 5316911983139663491615228241121378304)⟩⟩
    else if x = 1 ∧ y = 1 then ⟨0, ⟨36922999882914329874105066169219085 / 2658455991569831745807614120560689152, 221537999297485978811027364311371045 / 5316911983139663491615228241121378304⟩⟩
    else if x = 1 ∧ y = 2 then ⟨0, ⟨295383999063314639137491308182407075 / 21267647932558653966460912964485513216, -(55384499824371494666615977857055395 / 1329227995784915872903807060280344576)⟩⟩
    else if x = 2 ∧ y = 0 then ⟨0, ⟨9230749970728582449226190941417721 / 166153499473114484112975882535043072, 185879771699121445 / 21267647932558653966460912964485513216⟩⟩
    else if x = 2 ∧ y = 1 then ⟨0, ⟨18461499941457164916416205162999785 / 1329227995784915872903807060280344576, -(886151997189943915842977765213315565 / 21267647932558653966460912964485513216)⟩⟩
    else if x = 2 ∧ y = 2 then ⟨0, ⟨73845999765828659438468730136905715 / 5316911983139663491615228241121378304, 110768999648742989457137249189274265 / 2658455991569831745807614120560689152⟩⟩
    else ⟨0, ⟨0, 0⟩⟩

theorem gA_out : ∀ x y : ℕ, ¬(x < 3 ∧ y < 3) → gA x y = ⟨0, ⟨0, 0⟩⟩ := by
  intro x y h
  unfold gA
  rw [if_neg (show ¬(x = 0 ∧ y = 0) by omega),
    if_neg (show ¬(x = 0 ∧ y = 1) by omega),
    if_neg (show ¬(x = 0 ∧ y = 2) by omega),
    if_neg (show ¬(x = 1 ∧ y = 0) by omega),
    if_neg (show ¬(x = 1 ∧ y = 1) by omega),
    if_neg (show ¬(x = 1 ∧ y = 2) by omega),
    if_neg (show ¬(x = 2 ∧ y = 0) by omega),
    if_neg (show ¬(x = 2 ∧ y = 1) by omega),
    if_neg (show ¬(x = 2 ∧ y = 2) by omega)]

/-- Scratch buffer during the second projection of the 3 by 3 state, before any relaxation sweep. -/
def pB0 : Grid :=
  fun x y =>
    if x = 0 ∧ y = 0 then ⟨0, ⟨0, -(18821437206059153 / 7975367974709495237422842361682067456)⟩⟩
    else if x = 0 ∧ y = 1 then ⟨0, ⟨0, -(21511026049820711 / 15950735949418990474845684723364134912)⟩⟩
    else if x = 0 ∧ y = 2 then ⟨0, ⟨0, -(2217115000870921303 / 127605887595351923798765477786913079296)⟩⟩
    else if x = 1 ∧ y = 0 then ⟨0, ⟨0, 1329227995784915872922628497486403729 / 10633823966279326983230456482242756608⟩⟩
    else if x = 1 ∧ y = 1 then ⟨0, ⟨0, -(185879771699121445 / 10633823966279326983230456482242756608)⟩⟩
    else if x = 1 ∧ y = 2 then ⟨0, ⟨0, 392374039833476415 / 42535295865117307932921825928971026432⟩⟩
    else if x = 2 ∧ y = 0 then ⟨0, ⟨0, -(15950735949418990472504882743881812459 / 127605887595351923798765477786913079296)⟩⟩
    else if x = 2 ∧ y = 1 then ⟨0, ⟨0, 392374039833476415 / 42535295865117307932921825928971026432⟩⟩
    else ⟨0, ⟨0, 0⟩⟩

theorem pB0_out : ∀ x y : ℕ, ¬(x < 3 ∧ y < 3) → pB0 x y = ⟨0, ⟨0, 0⟩⟩ := by
  intro x y h
  unfold pB0
  rw [if_neg (show ¬(x = 0 ∧ y = 0) by omega),
    if_neg (show ¬(x = 0 ∧ y = 1) by omega),
    if_neg (show ¬(x = 0 ∧ y = 2) by omega),
    if_neg (show ¬(x = 1 ∧ y = 0) by omega),
    if_neg (show ¬(x = 1 ∧ y = 1) by omega),
    if_neg (show ¬(x = 1 ∧ y = 2) by omega),
    if_neg (show ¬(x = 2 ∧ y = 0) by omega),
    if_neg (show ¬(x = 2 ∧ y = 1) by omega)]

/-- Scratch buffer during the second projection of the 3 by 3 state, after 5 relaxation sweeps. -/
def pB5 : Grid :=
  fun x y =>
    if x = 0 ∧ y = 0 then ⟨0, ⟨1238730166147891444993673419979656142861183 / 535217884764734955396857238543560676143529984, -(18821437206059153 / 7975367974709495237422842361682067456)⟩⟩
    else if x = 0 ∧ y = 1 then ⟨0, ⟨1652795320658859017587563234460775397309275 / 713623846352979940529142984724747568191373312, -(21511026049820711 / 15950735949418990474845684723364134912)⟩⟩
    else if x = 0 ∧ y = 2 then ⟨0, ⟨3304230841078030062540435975201484473779121 / 1427247692705959881058285969449495136382746624, -(2217115000870921303 / 127605887595351923798765477786913079296)⟩⟩
    else if x = 1 ∧ y = 0 then ⟨0, ⟨32212387631648043267309903988992886116109441 / 1070435769529469910793714477087121352287059968, 1329227995784915872922628497486403729 / 10633823966279326983230456482242756608⟩⟩
    else if x = 1 ∧ y = 1 then ⟨0, ⟨79291774347787689857099734125812352882965783 / 8563486156235759286349715816696970818296479744, -(185879771699121445 / 10633823966279326983230456482242756608)⟩⟩
    else if x = 1 ∧ y = 2 then ⟨0, ⟨317165490354503855620336350186546534969166585 / 34253944624943037145398863266787883273185918976, 392374039833476415 / 42535295865117307932921825928971026432⟩⟩
    else if x = 2 ∧ y = 0 then ⟨0, ⟨-(72686032266111005677288243162849516577086399 / 2854495385411919762116571938898990272765493248), -(15950735949418990472504882743881812459 / 127605887595351923798765477786913079296)⟩⟩
    else if x = 2 ∧ y = 1 then ⟨0, ⟨-(79291774347787689857099734125812352882965783 / 17126972312471518572699431633393941636592959488), 392374039833476415 / 42535295865117307932921825928971026432⟩⟩
    else if x = 2 ∧ y = 2 then ⟨0, ⟨-(211449635116176956906783857538145580783700955 / 45671926166590716193865151022383844364247891968), 0⟩⟩
    else ⟨0, ⟨0, 0⟩⟩

theorem pB5_out : ∀ x y : ℕ, ¬(x < 3 ∧ y < 3) → pB5 x y = ⟨0, ⟨0, 0⟩⟩ := by
  intro x y h
  unfold pB5
  rw [if_neg (show ¬(x = 0 ∧ y = 0) by omega),
    if_neg (show ¬(x = 0 ∧ y = 1) by omega),
    if_neg (show ¬(x = 0 ∧ y = 2) by omega),
    if_neg (show ¬(x = 1 ∧ y = 0) by omega),
    if_neg (show ¬(x = 1 ∧ y = 1) by omega),
    if_neg (show ¬(x = 1 ∧ y = 2) by omega),
    if_neg (show ¬(x = 2 ∧ y = 0) by omega),
    if_neg (show ¬(x = 2 ∧ y = 1) by omega),
    if_neg (show ¬(x = 2 ∧ y = 2) by omega)]

/-- Scratch buffer during the second projection of the 3 by 3 state, after 10 relaxation sweeps. -/
def pB10 : Grid :=
  fun x y =>
    if x = 0 ∧ y = 0 then ⟨0, ⟨1330291251671491707820807110680346870576963542804773 / 574685827824708321884380135181365943857027170818850816, -(18821437206059153 / 7975367974709495237422842361682067456)⟩⟩
    else if x = 0 ∧ y = 1 then ⟨0, ⟨1773721652071048260054022649769808569287530204201049 / 766247770432944429179173513575154591809369561091801088, -(21511026049820711 / 15950735949418990474845684723364134912)⟩⟩
    else if x = 0 ∧ y = 2 then ⟨0, ⟨3547443373671773226474557649173873704583840595043563 / 1532495540865888858358347027150309183618739122183602176, -(2217115000870921303 / 127605887595351923798765477786913079296)⟩⟩
    else if x = 1 ∧ y = 0 then ⟨0, ⟨34587572987372778409952951338155024620487234633373403 / 1149371655649416643768760270362731887714054341637701632, 1329227995784915872922628497486403729 / 10633823966279326983230456482242756608⟩⟩
    else if x = 1 ∧ y = 1 then ⟨0, ⟨85138641260563051398591180622043865760614922224405037 / 9194973245195333150150082162901855101712434733101613056, -(185879771699121445 / 10633823966279326983230456482242756608)⟩⟩
    else if x = 1 ∧ y = 2 then ⟨0, ⟨340554564917514639319367445432240820497009755721130883 / 36779892980781332600600328651607420406849738932406452224, 392374039833476415 / 42535295865117307932921825928971026432⟩⟩
    else if x = 2 ∧ y = 0 then ⟨0, ⟨-(78043754374160151532909040624427605219429680661034981 / 3064991081731777716716694054300618367237478244367204352), -(15950735949418990472504882743881812459 / 127605887595351923798765477786913079296)⟩⟩
    else if x = 2 ∧ y = 1 then ⟨0, ⟨-(85138641260563051398591180622043865760614922224405037 / 18389946490390666300300164325803710203424869466203226112), 392374039833476415 / 42535295865117307932921825928971026432⟩⟩
    else if x = 2 ∧ y = 2 then ⟨0, ⟨-(227036376375136908145778006574935068249121360793017817 / 49039857307708443467467104868809893875799651909875269632), 0⟩⟩
    else ⟨0, ⟨0, 0⟩⟩

theorem pB10_out : ∀ x y : ℕ, ¬(x < 3 ∧ y < 3) → pB10 x y = ⟨0, ⟨0, 0⟩⟩ := by
  intro x y h
  unfold pB10
  rw [if_neg (show ¬(x = 0 ∧ y = 0) by omega),
    if_neg (show ¬(x = 0 ∧ y = 1) by omega),
    if_neg (show ¬(x = 0 ∧ y = 2) by omega),
    if_neg (show ¬(x = 1 ∧ y = 0) by omega),
    if_neg (show ¬(x = 1 ∧ y = 1) by omega),
    if_neg (show ¬(x = 1 ∧ y = 2) by omega),
    if_neg (show ¬(x = 2 ∧ y = 0) by omega),
    if_neg (show ¬(x = 2 ∧ y = 1) by omega),
    if_neg (show ¬(x = 2 ∧ y = 2) by omega)]

/-- Scratch buffer during the second projection of the 3 by 3 state, after 15 relaxation sweeps. -/
def pB15 : Grid :=
  fun x y =>
    if x = 0 ∧ y = 0 then ⟨0, ⟨476129790891755540988950780251241771230642440364657094185741 / 205688069665150755269371147819668813122841983204197482918576128, -(18821437206059153 / 7975367974709495237422842361682067456)⟩⟩
    else if x = 0 ∧ y = 1 then ⟨0, ⟨1904519163566962285170311314190448709185668155477696722418851 / 822752278660603021077484591278675252491367932816789931674304512, -(21511026049820711 / 15950735949418990474845684723364134912)⟩⟩
    else if x = 0 ∧ y = 2 then ⟨0, ⟨3809038327132117685709455976247494980368327319435245720835721 / 1645504557321206042154969182557350504982735865633579863348609024, -(2217115000870921303 / 127605887595351923798765477786913079296)⟩⟩
    else if x = 1 ∧ y = 0 then ⟨0, ⟨12379374563180166663346745958478059048946981509897685588225267 / 411376139330301510538742295639337626245683966408394965837152256, 1329227995784915872922628497486403729 / 10633823966279326983230456482242756608⟩⟩
    else if x = 1 ∧ y = 1 then ⟨0, ⟨30472306617057606412942092555260659349444949503188165895703125 / 3291009114642412084309938365114701009965471731267159726697218048, -(185879771699121445 / 10633823966279326983230456482242756608)⟩⟩
    else if x = 1 ∧ y = 2 then ⟨0, ⟨121889226468234704348297148270590141780284146943499159159833819 / 13164036458569648337239753460458804039861886925068638906788872192, 392374039833476415 / 42535295865117307932921825928971026432⟩⟩
    else if x = 2 ∧ y = 0 then ⟨0, ⟨-(83798843196912197636669699017553792963604211853734301693441895 / 3291009114642412084309938365114701009965471731267159726697218048), -(15950735949418990472504882743881812459 / 127605887595351923798765477786913079296)⟩⟩
    else if x = 2 ∧ y = 1 then ⟨0, ⟨-(30472306617057606412942092555260659349444949503188165895703125 / 6582018229284824168619876730229402019930943462534319453394436096), 392374039833476415 / 42535295865117307932921825928971026432⟩⟩
    else if x = 2 ∧ y = 2 then ⟨0, ⟨-(243778452936472357538590185100166388930075980922332413638654243 / 52656145834278593348959013841835216159447547700274555627155488768), 0⟩⟩
    else ⟨0, ⟨0, 0⟩⟩

theorem pB15_out : ∀ x y : ℕ, ¬(x < 3 ∧ y < 3) → pB15 x y = ⟨0, ⟨0, 0⟩⟩ := by
  intro x y h
  unfold pB15
  rw [if_neg (show ¬(x = 0 ∧ y = 0) by omega),
    if_neg (show ¬(x = 0 ∧ y = 1) by omega),
    if_neg (show ¬(x = 0 ∧ y = 2) by omega),
    if_neg (show ¬(x = 1 ∧ y = 0) by omega),
    if_neg (show ¬(x = 1 ∧ y = 1) by omega),
    if_neg (show ¬(x = 1 ∧ y = 2) by omega),
    if_neg (show ¬(x = 2 ∧ y = 0) by omega),
    if_neg (show ¬(x = 2 ∧ y = 1) by omega),
    if_neg (show ¬(x = 2 ∧ y = 2) by omega)]

/-- Scratch buffer during the second projection of the 3 by 3 state, after 20 relaxation sweeps. -/
def pB20 : Grid :=
  fun x y =>
    if x = 0 ∧ y = 0 then ⟨0, ⟨1533721410397903065198913980086280873813823383157487650871252715959261 / 662567649291894123593736562778594443435306461328357109295602325484732416, -(18821437206059153 / 7975367974709495237422842361682067456)⟩⟩
    else if x = 0 ∧ y = 1 then ⟨0, ⟨2044961880530537422652809980885213656392857352728890013683412982979825 / 883423532389192164791648750371459257913741948437809479060803100646309888, -(21511026049820711 / 15950735949418990474845684723364134912)⟩⟩
    else if x = 0 ∧ y = 2 then ⟨0, ⟨4089923761061074854458754570597934562189329316799321160495576126656435 / 1766847064778384329583297500742918515827483896875618958121606201292619776, -(2217115000870921303 / 127605887595351923798765477786913079296)⟩⟩
    else if x = 1 ∧ y = 0 then ⟨0, ⟨39876756670345479659409621193575871840892830449864831680103892626836515 / 1325135298583788247187473125557188886870612922656714218591204650969464832, 1329227995784915872922628497486403729 / 10633823966279326983230456482242756608⟩⟩
    else if x = 1 ∧ y = 1 then ⟨0, ⟨98158170265465796177613339868083710085743064742338920282131003064672165 / 10601082388670305977499785004457511094964903381253713748729637207755718656, -(185879771699121445 / 10633823966279326983230456482242756608)⟩⟩
    else if x = 1 ∧ y = 2 then ⟨0, ⟨392632681061863184326137781993103077439749732440461646759988687319425675 / 42404329554681223909999140017830044379859613525014854994918548831022874624, 392374039833476415 / 42535295865117307932921825928971026432⟩⟩
    else if x = 2 ∧ y = 0 then ⟨0, ⟨-(89978322743343646450389561509232826462557176886057195694882350489965725 / 3533694129556768659166595001485837031654967793751237916243212402585239552), -(15950735949418990472504882743881812459 / 127605887595351923798765477786913079296)⟩⟩
    else if x = 2 ∧ y = 1 then ⟨0, ⟨-(98158170265465796177613339868083710085743064742338920282131003064672165 / 21202164777340611954999570008915022189929806762507427497459274415511437312), 392374039833476415 / 42535295865117307932921825928971026432⟩⟩
    else if x = 2 ∧ y = 2 then ⟨0, ⟨-(261755120707908789642251175386502610263292872024572944763655899216584305 / 56539106072908298546665520023773392506479484700019806659891398441363832832), 0⟩⟩
    else ⟨0, ⟨0, 0⟩⟩

theorem pB20_out : ∀ x y : ℕ, ¬(x < 3 ∧ y < 3) → pB20 x y = ⟨0, ⟨0, 0⟩⟩ := by
  intro x y h
  unfold pB20
  rw [if_neg (show ¬(x = 0 ∧ y = 0) by omega),
    if_neg (show ¬(x = 0 ∧ y = 1) by omega),
    if_neg (show ¬(x = 0 ∧ y = 2) by omega),
    if_neg (show ¬(x = 1 ∧ y = 0) by omega),
    if_neg (show ¬(x = 1 ∧ y = 1) by omega),
    if_neg (show ¬(x = 1 ∧ y = 2) by omega),
    if_neg (show ¬(x = 2 ∧ y = 0) by omega),
    if_neg (show ¬(x = 2 ∧ y = 1) by omega),
    if_neg (show ¬(x = 2 ∧ y = 2) by omega)]

set_option maxRecDepth 200000 in
set_option maxHeartbeats 2000000 in
theorem pA_div :
    foldCells 3 (project_div_cell sampleFluidC4.cells 3 (1 / ((3 : ℕ) : ℚ)))
      sampleFluidC4.cells = pA0 := by
  funext i j
  by_cases hin : i < 3 ∧ j < 3
  · obtain ⟨hi, hj⟩ := hin
    interval_cases i <;> interval_cases j <;> (with_unfolding_all rfl)
  · rw [foldCells_untouched
      (div_cell_shape sampleFluidC4.cells 3 (1 / ((3 : ℕ) : ℚ))) sampleFluidC4.cells hin,
      pA0_out i j hin]
    rw [sampleFluidC4_cells_out i j hin]
set_option maxRecDepth 200000 in
set_option maxHeartbeats 2000000 in
theorem pA_c5 :
    upTo (fun p _ => foldCells 3 (project_relax_cell 3) p) 5 pA0 = pA5 := by
  funext i j
  by_cases hin : i < 3 ∧ j < 3
  · obtain ⟨hi, hj⟩ := hin
    interval_cases i <;> interval_cases j <;> (with_unfolding_all rfl)
  · rw [sweeps_untouched (relax_cell_shape 3) 5 pA0 hin, pA0_out i j hin,
      pA5_out i j hin]

set_option maxRecDepth 200000 in
set_option maxHeartbeats 2000000 in
theorem pA_c10 :
    upTo (fun p _ => foldCells 3 (project_relax_cell 3) p) 5 pA5 = pA10 := by
  funext i j
  by_cases hin : i < 3 ∧ j < 3
  · obtain ⟨hi, hj⟩ := hin
    interval_cases i <;> interval_cases j <;> (with_unfolding_all rfl)
  · rw [sweeps_untouched (relax_cell_shape 3) 5 pA5 hin, pA5_out i j hin,
      pA10_out i j hin]

set_option maxRecDepth 200000 in
set_option maxHeartbeats 2000000 in
theorem pA_c15 :
    upTo (fun p _ => foldCells 3 (project_relax_cell 3) p) 5 pA10 = pA15 := by
  funext i j
  by_cases hin : i < 3 ∧ j < 3
  · obtain ⟨hi, hj⟩ := hin
    interval_cases i <;> interval_cases j <;> (with_unfolding_all rfl)
  · rw [sweeps_untouched (relax_cell_shape 3) 5 pA10 hin, pA10_out i j hin,
      pA15_out i j hin]

set_option maxRecDepth 200000 in
set_option maxHeartbeats 2000000 in
theorem pA_c20 :
    upTo (fun p _ => foldCells 3 (project_relax_cell 3) p) 5 pA15 = pA20 := by
  funext i j
  by_cases hin : i < 3 ∧ j < 3
  · obtain ⟨hi, hj⟩ := hin
    interval_cases i <;> interval_cases j <;> (with_unfolding_all rfl)
  · rw [sweeps_untouched (relax_cell_shape 3) 5 pA15 hin, pA15_out i j hin,
      pA20_out i j hin]

set_option maxRecDepth 200000 in
set_option maxHeartbeats 2000000 in
theorem gA_fold :
    foldCells 3 (project_grad_cell pA20 3 (1 / ((3 : ℕ) : ℚ)))
      sampleFluidC4.cells = gA := by
  funext i j
  by_cases hin : i < 3 ∧ j < 3
  · obtain ⟨hi, hj⟩ := hin
    interval_cases i <;> interval_cases j <;> (with_unfolding_all rfl)
  · rw [foldCells_untouched
      (grad_cell_shape pA20 3 (1 / ((3 : ℕ) : ℚ))) sampleFluidC4.cells hin,
      gA_out i j hin]
    rw [sampleFluidC4_cells_out i j hin]
set_option maxRecDepth 200000 in
set_option maxHeartbeats 2000000 in
theorem pB_div :
    foldCells 3 (project_div_cell gA 3 (1 / ((3 : ℕ) : ℚ)))
      gA = pB0 := by
  funext i j
  by_cases hin : i < 3 ∧ j < 3
  · obtain ⟨hi, hj⟩ := hin
    interval_cases i <;> interval_cases j <;> (with_unfolding_all rfl)
  · rw [foldCells_untouched
      (div_cell_shape gA 3 (1 / ((3 : ℕ) : ℚ))) gA hin,
      pB0_out i j hin]
    rw [gA_out i j hin]
set_option maxRecDepth 200000 in
set_option maxHeartbeats 2000000 in
theorem pB_c5 :
    upTo (fun p _ => foldCells 3 (project_relax_cell 3) p) 5 pB0 = pB5 := by
  funext i j
  by_cases hin : i < 3 ∧ j < 3
  · obtain ⟨hi, hj⟩ := hin
    interval_cases i <;> interval_cases j <;> (with_unfolding_all rfl)
  · rw [sweeps_untouched (relax_cell_shape 3) 5 pB0 hin, pB0_out i j hin,
      pB5_out i j hin]

set_option maxRecDepth 200000 in
set_option maxHeartbeats 2000000 in
theorem pB_c10 :
    upTo (fun p _ => foldCells 3 (project_relax_cell 3) p) 5 pB5 = pB10 := by
  funext i j
  by_cases hin : i < 3 ∧ j < 3
  · obtain ⟨hi, hj⟩ := hin
    interval_cases i <;> interval_cases j <;> (with_unfolding_all rfl)
  · rw [sweeps_untouched (relax_cell_shape 3) 5 pB5 hin, pB5_out i j hin,
      pB10_out i j hin]

set_option maxRecDepth 200000 in
set_option maxHeartbeats 2000000 in
theorem pB_c15 :
    upTo (fun p _ => foldCells 3 (project_relax_cell 3) p) 5 pB10 = pB15 := by
  funext i j
  by_cases hin : i < 3 ∧ j < 3
  · obtain ⟨hi, hj⟩ := hin
    interval_cases i <;> interval_cases j <;> (with_unfolding_all rfl)
  · rw [sweeps_untouched (relax_cell_shape 3) 5 pB10 hin, pB10_out i j hin,
      pB15_out i j hin]

set_option maxRecDepth 200000 in
set_option maxHeartbeats 2000000 in
theorem pB_c20 :
    upTo (fun p _ => foldCells 3 (project_relax_cell 3) p) 5 pB15 = pB20 := by
  funext i j
  by_cases hin : i < 3 ∧ j < 3
  · obtain ⟨hi, hj⟩ := hin
    interval_cases i <;> interval_cases j <;> (with_unfolding_all rfl)
  · rw [sweeps_untouched (relax_cell_shape 3) 5 pB15 hin, pB15_out i j hin,
      pB20_out i j hin]


theorem relaxA_20 :
    upTo (fun p _ => foldCells 3 (project_relax_cell 3) p) 20 pA0 = pA20 := by
  rw [show (20 : ℕ) = 15 + 5 from rfl, upTo_sweeps_add,
    show (15 : ℕ) = 10 + 5 from rfl, upTo_sweeps_add,
    show (10 : ℕ) = 5 + 5 from rfl, upTo_sweeps_add, pA_c5, pA_c10, pA_c15,
    pA_c20]

theorem relaxB_20 :
    upTo (fun p _ => foldCells 3 (project_relax_cell 3) p) 20 pB0 = pB20 := by
  rw [show (20 : ℕ) = 15 + 5 from rfl, upTo_sweeps_add,
    show (15 : ℕ) = 10 + 5 from rfl, upTo_sweeps_add,
    show (10 : ℕ) = 5 + 5 from rfl, upTo_sweeps_add, pB_c5, pB_c10, pB_c15,
    pB_c20]

/-- The scratch buffer left by the first projection of the 3 by 3 state. -/
theorem projA_prev : (sampleFluidC4.projectN 20).prev_cells = pA20 := by
  rw [projectN_prev_cells, show sampleFluidC4.size = 3 from rfl,
    show sampleFluidC4.prev_cells = sampleFluidC4.cells from rfl, pA_div]
  exact relaxA_20

/-- The current buffer after one projection of the 3 by 3 state. -/
theorem projA_cells : (sampleFluidC4.project).cells = gA := by
  rw [show (sampleFluidC4.project).cells = (sampleFluidC4.projectN 20).cells
      from rfl,
    projectN_cells, show sampleFluidC4.size = 3 from rfl, projA_prev]
  exact gA_fold

/-- `diffuse(0)` leaves the 3 by 3 state observable buffer unchanged (both
buffers of the sample hold the same field). -/
theorem diffuseA_cells :
    (sampleFluidC4.diffuse 0).cells = sampleFluidC4.cells := by
  funext i j
  by_cases hin : i < 3 ∧ j < 3
  · exact diffuse_dt_zero_identity sampleFluidC4 i j hin.1 hin.2
  · rw [diffuse_out_untouched sampleFluidC4 0 hin]
    rfl

theorem projB_prev :
    ((sampleFluidC4.diffuse 0).projectN 20).prev_cells = pA20 := by
  rw [projectN_prev_cells, show (sampleFluidC4.diffuse 0).size = 3 from rfl,
    diffuseA_cells,
    show (sampleFluidC4.diffuse 0).prev_cells = sampleFluidC4.cells from rfl,
    pA_div]
  exact relaxA_20

theorem projB_cells : ((sampleFluidC4.diffuse 0).project).cells = gA := by
  rw [show ((sampleFluidC4.diffuse 0).project).cells =
      ((sampleFluidC4.diffuse 0).projectN 20).cells from rfl,
    projectN_cells, show (sampleFluidC4.diffuse 0).size = 3 from rfl,
    projB_prev, diffuseA_cells]
  exact gA_fold

theorem advC_cells :
    (((sampleFluidC4.diffuse 0).project).advect 0).cells = gA := by
  funext i j
  by_cases hin : i < 3 ∧ j < 3
  · rw [advect_dt_zero_identity ((sampleFluidC4.diffuse 0).project) i j
      hin.1 hin.2, projB_cells]
  · rw [advect_cells_apply,
      if_neg (show ¬(i < ((sampleFluidC4.diffuse 0).project).size ∧
        j < ((sampleFluidC4.diffuse 0).project).size) from hin),
      show ((sampleFluidC4.diffuse 0).project).prev_cells =
        ((sampleFluidC4.diffuse 0).projectN 20).prev_cells from rfl,
      projB_prev, pA20_out i j hin, gA_out i j hin]

theorem advC_prev :
    (((sampleFluidC4.diffuse 0).project).advect 0).prev_cells = gA := by
  rw [show (((sampleFluidC4.diffuse 0).project).advect 0).prev_cells =
      ((sampleFluidC4.diffuse 0).project).cells from rfl, projB_cells]

theorem projD_prev :
    ((((sampleFluidC4.diffuse 0).project).advect 0).projectN 20).prev_cells =
      pB20 := by
  rw [projectN_prev_cells,
    show (((sampleFluidC4.diffuse 0).project).advect 0).size = 3 from rfl,
    advC_cells, advC_prev, pB_div]
  exact relaxB_20

set_option maxRecDepth 100000 in
set_option maxHeartbeats 2000000 in
/-- C4 counterexample: on a populated 3 by 3 grid with a single non-zero
(divergent) velocity, one `step(0.0)` call changes the velocity at `(0, 0)`
(the two projection passes act on the divergent field even though `dt = 0`),
so the observable field is not left unchanged. -/
theorem step_zero_on_divergent_field_changes_velocity :
    ((sampleFluidC4.step 0).cells 0 0).velocity.x =
        5693173875397016172805696929796739593246970273776516500003244124541935889 /
          7067388259113537318333190002971674063309935587502475832486424805170479104 ∧
      (sampleFluidC4.cells 0 0).velocity.x = 1 ∧
      (sampleFluidC4.step 0).cells 0 0 ≠ sampleFluidC4.cells 0 0 := by
  have h2 : (sampleFluidC4.cells 0 0).velocity.x = 1 := rfl
  have h1 : ((sampleFluidC4.step 0).cells 0 0).velocity.x =
      5693173875397016172805696929796739593246970273776516500003244124541935889 /
          7067388259113537318333190002971674063309935587502475832486424805170479104 := by
    rw [show (sampleFluidC4.step 0).cells =
        ((((sampleFluidC4.diffuse 0).project).advect 0).projectN 20).cells
        from rfl,
      projectN_cells,
      show (((sampleFluidC4.diffuse 0).project).advect 0).size = 3 from rfl,
      projD_prev, advC_cells]
    with_unfolding_all rfl
  refine ⟨h1, h2, fun hc => ?_⟩
  rw [hc, h2] at h1
  norm_num at h1

/-! ## C5 (revised): the divergence-magnitude sum under project -/

/-- Concrete 5 by 5 state whose only non-zero velocity is `(0, 1)` at cell
`(4, 3)`, all other cells zero; its divergence-magnitude sum is `1/5`. -/
def sampleFluidC5N5 : Fluid :=
  ⟨0, 0, 5, fun x y => if x = 4 ∧ y = 3 then ⟨0, ⟨0, 1⟩⟩ else ⟨0, ⟨0, 0⟩⟩,
    fun _ _ => ⟨0, ⟨0, 0⟩⟩⟩

theorem sampleFluidC5N5_cells_out : ∀ x y : ℕ, ¬(x < 5 ∧ y < 5) →
    sampleFluidC5N5.cells x y = ⟨0, ⟨0, 0⟩⟩ := by
  intro x y h
  simp only [sampleFluidC5N5]
  rw [if_neg (show ¬(x = 4 ∧ y = 3) by omega)]

/-- Scratch buffer during the projection of the 5 by 5 state, before any relaxation sweep. -/
def pC0 : Grid :=
  fun x y =>
    if x = 4 ∧ y = 2 then ⟨0, ⟨0, -(1 / 10)⟩⟩
    else if x = 4 ∧ y = 4 then ⟨0, ⟨0, 1 / 10⟩⟩
    else ⟨0, ⟨0, 0⟩⟩

theorem pC0_out : ∀ x y : ℕ, ¬(x < 5 ∧ y < 5) → pC0 x y = ⟨0, ⟨0, 0⟩⟩ := by
  intro x y h
  unfold pC0
  rw [if_neg (show ¬(x = 4 ∧ y = 2) by omega),
    if_neg (show ¬(x = 4 ∧ y = 4) by omega)]

/-- Scratch buffer during the projection of the 5 by 5 state, after 5 relaxation sweeps. -/
def pC5 : Grid :=
  fun x y =>
    if x = 0 ∧ y = 0 then ⟨0, ⟨36599627 / 10737418240, 0⟩⟩
    else if x = 0 ∧ y = 1 then ⟨0, ⟨-(173449473 / 42949672960), 0⟩⟩
    else if x = 0 ∧ y = 2 then ⟨0, ⟨-(1810651609 / 171798691840), 0⟩⟩
    else if x = 0 ∧ y = 3 then ⟨0, ⟨-(85205677 / 68719476736), 0⟩⟩
    else if x = 0 ∧ y = 4 then ⟨0, ⟨24259770833 / 2748779069440, 0⟩⟩
    else if x = 1 ∧ y = 0 then ⟨0, ⟨62154909 / 42949672960, 0⟩⟩
    else if x = 1 ∧ y = 1 then ⟨0, ⟨-(81024633 / 42949672960), 0⟩⟩
    else if x = 1 ∧ y = 2 then ⟨0, ⟨-(611732121 / 137438953472), 0⟩⟩
    else if x = 1 ∧ y = 3 then ⟨0, ⟨-(3353058431 / 2748779069440), 0⟩⟩
    else if x = 1 ∧ y = 4 then ⟨0, ⟨15733154793 / 5497558138880, 0⟩⟩
    else if x = 2 ∧ y = 0 then ⟨0, ⟨132000917 / 85899345920, 0⟩⟩
    else if x = 2 ∧ y = 1 then ⟨0, ⟨-(688783837 / 343597383680), 0⟩⟩
    else if x = 2 ∧ y = 2 then ⟨0, ⟨-(12841381111 / 2748779069440), 0⟩⟩
    else if x = 2 ∧ y = 3 then ⟨0, ⟨-(7208277307 / 5497558138880), 0⟩⟩
    else if x = 2 ∧ y = 4 then ⟨0, ⟨31904315831 / 10995116277760, 0⟩⟩
    else if x = 3 ∧ y = 0 then ⟨0, ⟨1196051219 / 343597383680, 0⟩⟩
    else if x = 3 ∧ y = 1 then ⟨0, ⟨-(2943130853 / 687194767360), 0⟩⟩
    else if x = 3 ∧ y = 2 then ⟨0, ⟨-(119495248587 / 10995116277760), 0⟩⟩
    else if x = 3 ∧ y = 3 then ⟨0, ⟨-(11404067661 / 8796093022208), 0⟩⟩
    else if x = 3 ∧ y = 4 then ⟨0, ⟨1574484866203 / 175921860444160, 0⟩⟩
    else if x = 4 ∧ y = 0 then ⟨0, ⟨20353073977 / 2748779069440, 0⟩⟩
    else if x = 4 ∧ y = 1 then ⟨0, ⟨-(92597761691 / 10995116277760), 0⟩⟩
    else if x = 4 ∧ y = 2 then ⟨0, ⟨-(144426626711 / 4398046511104), -(1 / 10)⟩⟩
    else if x = 4 ∧ y = 3 then ⟨0, ⟨-(205024853543 / 175921860444160), 0⟩⟩
    else if x = 4 ∧ y = 4 then ⟨0, ⟨5454217031229 / 175921860444160, 1 / 10⟩⟩
    else ⟨0, ⟨0, 0⟩⟩

theorem pC5_out : ∀ x y : ℕ, ¬(x < 5 ∧ y < 5) → pC5 x y = ⟨0, ⟨0, 0⟩⟩ := by
  intro x y h
  unfold pC5
  rw [if_neg (show ¬(x = 0 ∧ y = 0) by omega),
    if_neg (show ¬(x = 0 ∧ y = 1) by omega),
    if_neg (show ¬(x = 0 ∧ y = 2) by omega),
    if_neg (show ¬(x = 0 ∧ y = 3) by omega),
    if_neg (show ¬(x = 0 ∧ y = 4) by omega),
    if_neg (show ¬(x = 1 ∧ y = 0) by omega),
    if_neg (show ¬(x = 1 ∧ y = 1) by omega),
    if_neg (show ¬(x = 1 ∧ y = 2) by omega),
    if_neg (show ¬(x = 1 ∧ y = 3) by omega),
    if_neg (show ¬(x = 1 ∧ y = 4) by omega),
    if_neg (show ¬(x = 2 ∧ y = 0) by omega),
    if_neg (show ¬(x = 2 ∧ y = 1) by omega),
    if_neg (show ¬(x = 2 ∧ y = 2) by omega),
    if_neg (show ¬(x = 2 ∧ y = 3) by omega),
    if_neg (show ¬(x = 2 ∧ y = 4) by omega),
    if_neg (show ¬(x = 3 ∧ y = 0) by omega),
    if_neg (show ¬(x = 3 ∧ y = 1) by omega),
    if_neg (show ¬(x = 3 ∧ y = 2) by omega),
    if_neg (show ¬(x = 3 ∧ y = 3) by omega),
    if_neg (show ¬(x = 3 ∧ y = 4) by omega),
    if_neg (show ¬(x = 4 ∧ y = 0) by omega),
    if_neg (show ¬(x = 4 ∧ y = 1) by omega),
    if_neg (show ¬(x = 4 ∧ y = 2) by omega),
    if_neg (show ¬(x = 4 ∧ y = 3) by omega),
    if_neg (show ¬(x = 4 ∧ y = 4) by omega)]

/-- Scratch buffer during the projection of the 5 by 5 state, after 10 relaxation sweeps. -/
def pC10 : Grid :=
  fun x y =>
    if x = 0 ∧ y = 0 then ⟨0, ⟨39152084672045958334207 / 12089258196146291747061760, 0⟩⟩
    else if x = 0 ∧ y = 1 then ⟨0, ⟨-(11572950360659849139957 / 2417851639229258349412352), 0⟩⟩
    else if x = 0 ∧ y = 2 then ⟨0, ⟨-(1046215462455905380440237 / 96714065569170333976494080), 0⟩⟩
    else if x = 0 ∧ y = 3 then ⟨0, ⟨-(157317853482356048407461 / 193428131138340667952988160), 0⟩⟩
    else if x = 0 ∧ y = 4 then ⟨0, ⟨28508142346742053786530917 / 3094850098213450687247810560, 0⟩⟩
    else if x = 1 ∧ y = 0 then ⟨0, ⟨59486066951916879683687 / 48357032784585166988247040, 0⟩⟩
    else if x = 1 ∧ y = 1 then ⟨0, ⟨-(540220106625471077788669 / 193428131138340667952988160), 0⟩⟩
    else if x = 1 ∧ y = 2 then ⟨0, ⟨-(3727585942165163047045527 / 773712524553362671811952640), 0⟩⟩
    else if x = 1 ∧ y = 3 then ⟨0, ⟨-(502771933456142561663919 / 618970019642690137449562112), 0⟩⟩
    else if x = 1 ∧ y = 4 then ⟨0, ⟨19860797364416070515810493 / 6189700196426901374495621120, 0⟩⟩
    else if x = 2 ∧ y = 0 then ⟨0, ⟨118069806988587258739183 / 96714065569170333976494080, 0⟩⟩
    else if x = 2 ∧ y = 1 then ⟨0, ⟨-(2164981060646627642920159 / 773712524553362671811952640), 0⟩⟩
    else if x = 2 ∧ y = 2 then ⟨0, ⟨-(1491211463444529766766783 / 309485009821345068724781056), 0⟩⟩
    else if x = 2 ∧ y = 3 then ⟨0, ⟨-(10063696480995299633743137 / 12379400392853802748991242240), 0⟩⟩
    else if x = 2 ∧ y = 4 then ⟨0, ⟨158717385100557147152294041 / 49517601571415210995964968960, 0⟩⟩
    else if x = 3 ∧ y = 0 then ⟨0, ⟨2490140125995194156805073 / 773712524553362671811952640, 0⟩⟩
    else if x = 3 ∧ y = 1 then ⟨0, ⟨-(1485026581325363683919835 / 309485009821345068724781056), 0⟩⟩
    else if x = 3 ∧ y = 2 then ⟨0, ⟨-(33474461770201063906039073 / 3094850098213450687247810560), 0⟩⟩
    else if x = 3 ∧ y = 3 then ⟨0, ⟨-(40156448501528348365699941 / 49517601571415210995964968960), 0⟩⟩
    else if x = 3 ∧ y = 4 then ⟨0, ⟨455832078906381825290938861 / 49517601571415210995964968960, 0⟩⟩
    else if x = 4 ∧ y = 0 then ⟨0, ⟨2234501398777846678607361 / 309485009821345068724781056, 0⟩⟩
    else if x = 4 ∧ y = 1 then ⟨0, ⟨-(27224042244126922289537601 / 3094850098213450687247810560), 0⟩⟩
    else if x = 4 ∧ y = 2 then ⟨0, ⟨-(203098886379369754765172817 / 6189700196426901374495621120), -(1 / 10)⟩⟩
    else if x = 4 ∧ y = 3 then ⟨0, ⟨-(159822499065163458537755821 / 198070406285660843983859875840), 0⟩⟩
    else if x = 4 ∧ y = 4 then ⟨0, ⟨4945029690107152311531735387 / 158456325028528675187087900672, 1 / 10⟩⟩
    else ⟨0, ⟨0, 0⟩⟩

theorem pC10_out : ∀ x y : ℕ, ¬(x < 5 ∧ y < 5) → pC10 x y = ⟨0, ⟨0, 0⟩⟩ := by
  intro x y h
  unfold pC10
  rw [if_neg (show ¬(x = 0 ∧ y = 0) by omega),
    if_neg (show ¬(x = 0 ∧ y = 1) by omega),
    if_neg (show ¬(x = 0 ∧ y = 2) by omega),
    if_neg (show ¬(x = 0 ∧ y = 3) by omega),
    if_neg (show ¬(x = 0 ∧ y = 4) by omega),
    if_neg (show ¬(x = 1 ∧ y = 0) by omega),
    if_neg (show ¬(x = 1 ∧ y = 1) by omega),
    if_neg (show ¬(x = 1 ∧ y = 2) by omega),
    if_neg (show ¬(x = 1 ∧ y = 3) by omega),
    if_neg (show ¬(x = 1 ∧ y = 4) by omega),
    if_neg (show ¬(x = 2 ∧ y = 0) by omega),
    if_neg (show ¬(x = 2 ∧ y = 1) by omega),
    if_neg (show ¬(x = 2 ∧ y = 2) by omega),
    if_neg (show ¬(x = 2 ∧ y = 3) by omega),
    if_neg (show ¬(x = 2 ∧ y = 4) by omega),
    if_neg (show ¬(x = 3 ∧ y = 0) by omega),
    if_neg (show ¬(x = 3 ∧ y = 1) by omega),
    if_neg (show ¬(x = 3 ∧ y = 2) by omega),
    if_neg (show ¬(x = 3 ∧ y = 3) by omega),
    if_neg (show ¬(x = 3 ∧ y = 4) by omega),
    if_neg (show ¬(x = 4 ∧ y = 0) by omega),
    if_neg (show ¬(x = 4 ∧ y = 1) by omega),
    if_neg (show ¬(x = 4 ∧ y = 2) by omega),
    if_neg (show ¬(x = 4 ∧ y = 3) by omega),
    if_neg (show ¬(x = 4 ∧ y = 4) by omega)]

/-- Scratch buffer during the projection of the 5 by 5 state, after 15 relaxation sweeps. -/
def pC15 : Grid :=
  fun x y =>
    if x = 0 ∧ y = 0 then ⟨0, ⟨2178112911893584430867299380818586059 / 680564733841876926926749214863536422912, 0⟩⟩
    else if x = 0 ∧ y = 1 then ⟨0, ⟨-(52274563925316842129905384057462066105 / 10889035741470030830827987437816582766592), 0⟩⟩
    else if x = 0 ∧ y = 2 then ⟨0, ⟨-(2352156813125085521442483656727537264351 / 217780714829400616616559748756331655331840), 0⟩⟩
    else if x = 0 ∧ y = 3 then ⟨0, ⟨-(348321698704349931604859795935778620791 / 435561429658801233233119497512663310663680), 0⟩⟩
    else if x = 0 ∧ y = 4 then ⟨0, ⟨8014861861473867624451887190166749790567 / 871122859317602466466238995025326621327360, 0⟩⟩
    else if x = 1 ∧ y = 0 then ⟨0, ⟨6534500668225813766906345504818375559 / 5444517870735015415413993718908291383296, 0⟩⟩
    else if x = 1 ∧ y = 1 then ⟨0, ⟨-(121989369228549942456064871090257519595 / 43556142965880123323311949751266331066368), 0⟩⟩
    else if x = 1 ∧ y = 2 then ⟨0, ⟨-(2090959031862105679606905810393585608123 / 435561429658801233233119497512663310663680), 0⟩⟩
    else if x = 1 ∧ y = 3 then ⟨0, ⟨-(696743369856201394166774912395613459257 / 871122859317602466466238995025326621327360), 0⟩⟩
    else if x = 1 ∧ y = 4 then ⟨0, ⟨1115192171827613134594038903606621414731 / 348449143727040986586495598010130648530944, 0⟩⟩
    else if x = 2 ∧ y = 0 then ⟨0, ⟨13068205908110550674500899078996151327 / 10889035741470030830827987437816582766592, 0⟩⟩
    else if x = 2 ∧ y = 1 then ⟨0, ⟨-(487945848329530806588071972257324679343 / 174224571863520493293247799005065324265472), 0⟩⟩
    else if x = 2 ∧ y = 2 then ⟨0, ⟨-(16727322837456696756631213921230181913121 / 3484491437270409865864955980101306485309440), 0⟩⟩
    else if x = 2 ∧ y = 3 then ⟨0, ⟨-(11147710546641724824522192498193346455749 / 13937965749081639463459823920405225941237760), 0⟩⟩
    else if x = 2 ∧ y = 4 then ⟨0, ⟨178428037887035461418828430997194667863091 / 55751862996326557853839295681620903764951040, 0⟩⟩
    else if x = 3 ∧ y = 0 then ⟨0, ⟨557551195858764708031417228816256396225 / 174224571863520493293247799005065324265472, 0⟩⟩
    else if x = 3 ∧ y = 1 then ⟨0, ⟨-(1672728943616089126282790166653301349815 / 348449143727040986586495598010130648530944), 0⟩⟩
    else if x = 3 ∧ y = 2 then ⟨0, ⟨-(30106911964741708085483593012596873002139 / 2787593149816327892691964784081045188247552), 0⟩⟩
    else if x = 3 ∧ y = 3 then ⟨0, ⟨-(11146609518812264389345729535539838850387 / 13937965749081639463459823920405225941237760), 0⟩⟩
    else if x = 3 ∧ y = 4 then ⟨0, ⟨2051759759533533262109574611111305743714983 / 223007451985306231415357182726483615059804160, 0⟩⟩
    else if x = 4 ∧ y = 0 then ⟨0, ⟨5017802412628009560457762458337836548227 / 696898287454081973172991196020261297061888, 0⟩⟩
    else if x = 4 ∧ y = 1 then ⟨0, ⟨-(122659538670483623207042736910975599898199 / 13937965749081639463459823920405225941237760), 0⟩⟩
    else if x = 4 ∧ y = 2 then ⟨0, ⟨-(914336817572725765827216362578017335958639 / 27875931498163278926919647840810451882475520), -(1 / 10)⟩⟩
    else if x = 4 ∧ y = 3 then ⟨0, ⟨-(89171736803957614389581056071452653159317 / 111503725992653115707678591363241807529902080), 0⟩⟩
    else if x = 4 ∧ y = 4 then ⟨0, ⟨27831662893034514346072297878967557585194557 / 892029807941224925661428730905934460239216640, 1 / 10⟩⟩
    else ⟨0, ⟨0, 0⟩⟩

theorem pC15_out : ∀ x y : ℕ, ¬(x < 5 ∧ y < 5) → pC15 x y = ⟨0, ⟨0, 0⟩⟩ := by
  intro x y h
  unfold pC15
  rw [if_neg (show ¬(x = 0 ∧ y = 0) by omega),
    if_neg (show ¬(x = 0 ∧ y = 1) by omega),
    if_neg (show ¬(x = 0 ∧ y = 2) by omega),
    if_neg (show ¬(x = 0 ∧ y = 3) by omega),
    if_neg (show ¬(x = 0 ∧ y = 4) by omega),
    if_neg (show ¬(x = 1 ∧ y = 0) by omega),
    if_neg (show ¬(x = 1 ∧ y = 1) by omega),
    if_neg (show ¬(x = 1 ∧ y = 2) by omega),
    if_neg (show ¬(x = 1 ∧ y = 3) by omega),
    if_neg (show ¬(x = 1 ∧ y = 4) by omega),
    if_neg (show ¬(x = 2 ∧ y = 0) by omega),
    if_neg (show ¬(x = 2 ∧ y = 1) by omega),
    if_neg (show ¬(x = 2 ∧ y = 2) by omega),
    if_neg (show ¬(x = 2 ∧ y = 3) by omega),
    if_neg (show ¬(x = 2 ∧ y = 4) by omega),
    if_neg (show ¬(x = 3 ∧ y = 0) by omega),
    if_neg (show ¬(x = 3 ∧ y = 1) by omega),
    if_neg (show ¬(x = 3 ∧ y = 2) by omega),
    if_neg (show ¬(x = 3 ∧ y = 3) by omega),
    if_neg (show ¬(x = 3 ∧ y = 4) by omega),
    if_neg (show ¬(x = 4 ∧ y = 0) by omega),
    if_neg (show ¬(x = 4 ∧ y = 1) by omega),
    if_neg (show ¬(x = 4 ∧ y = 2) by omega),
    if_neg (show ¬(x = 4 ∧ y = 3) by omega),
    if_neg (show ¬(x = 4 ∧ y = 4) by omega)]

/-- Scratch buffer during the projection of the 5 by 5 state, after 20 relaxation sweeps. -/
def pC20 : Grid :=
  fun x y =>
    if x = 0 ∧ y = 0 then ⟨0, ⟨9807882943276792553119471092398038465187061048985927 / 3064991081731777716716694054300618367237478244367204352, 0⟩⟩
    else if x = 0 ∧ y = 1 then ⟨0, ⟨-(294240799293181365826173807629024526344702255281757239 / 61299821634635554334333881086012367344749564887344087040), 0⟩⟩
    else if x = 0 ∧ y = 2 then ⟨0, ⟨-(2648150953554041500533952934717977852168352554273773323 / 245199286538542217337335524344049469378998259549376348160), 0⟩⟩
    else if x = 0 ∧ y = 3 then ⟨0, ⟨-(392309451551232002422828357036581582800111091814062307 / 490398573077084434674671048688098938757996519098752696320), 0⟩⟩
    else if x = 0 ∧ y = 4 then ⟨0, ⟨36093339394425709337193937882464789613241257698099770377 / 3923188584616675477397368389504791510063972152790021570560, 0⟩⟩
    else if x = 1 ∧ y = 0 then ⟨0, ⟨73558147300070995776793937867682562344816559055705281 / 61299821634635554334333881086012367344749564887344087040, 0⟩⟩
    else if x = 1 ∧ y = 1 then ⟨0, ⟨-(343281827347345558211426411605229015098575983217302587 / 122599643269271108668667762172024734689499129774688174080), 0⟩⟩
    else if x = 1 ∧ y = 2 then ⟨0, ⟨-(4707820675540017127765878827619244316943362250234510017 / 980797146154168869349342097376197877515993038197505392640), 0⟩⟩
    else if x = 1 ∧ y = 3 then ⟨0, ⟨-(3138485424732540624848373173834020954195390766703272007 / 3923188584616675477397368389504791510063972152790021570560), 0⟩⟩
    else if x = 1 ∧ y = 4 then ⟨0, ⟨5021681967438875153018131078157323092359245955064157805 / 1569275433846670190958947355801916604025588861116008628224, 0⟩⟩
    else if x = 2 ∧ y = 0 then ⟨0, ⟨147117156711295307639515425220977216493498930115582297 / 122599643269271108668667762172024734689499129774688174080, 0⟩⟩
    else if x = 2 ∧ y = 1 then ⟨0, ⟨-(137312364351176139070327001374076845840781549424052893 / 49039857307708443467467104868809893875799651909875269632), 0⟩⟩
    else if x = 2 ∧ y = 2 then ⟨0, ⟨-(18831269163132416964222840577156283662490266401306794181 / 3923188584616675477397368389504791510063972152790021570560), 0⟩⟩
    else if x = 2 ∧ y = 3 then ⟨0, ⟨-(3138482852443830400641770907370374466956590555584703907 / 3923188584616675477397368389504791510063972152790021570560), 0⟩⟩
    else if x = 2 ∧ y = 4 then ⟨0, ⟨100433697591623430587169918540262522465660594800633482331 / 31385508676933403819178947116038332080511777222320172564480, 0⟩⟩
    else if x = 3 ∧ y = 0 then ⟨0, ⟨156926792923425750212047195023288825110833502045917123 / 49039857307708443467467104868809893875799651909875269632, 0⟩⟩
    else if x = 3 ∧ y = 1 then ⟨0, ⟨-(2353918545037361153790941683039367911800253362413414337 / 490398573077084434674671048688098938757996519098752696320), 0⟩⟩
    else if x = 3 ∧ y = 2 then ⟨0, ⟨-(33896317025948856496996128817978022887810901520066092521 / 3138550867693340381917894711603833208051177722232017256448), 0⟩⟩
    else if x = 3 ∧ y = 3 then ⟨0, ⟨-(50215794096977340197981700944270398247853005245542111321 / 62771017353866807638357894232076664161023554444640345128960), 0⟩⟩
    else if x = 3 ∧ y = 4 then ⟨0, ⟨2309974025344135181501712703517275814237304030885691798301 / 251084069415467230553431576928306656644094217778561380515840, 0⟩⟩
    else if x = 4 ∧ y = 0 then ⟨0, ⟨28246895108493696888784899985402632899995340230772212491 / 3923188584616675477397368389504791510063972152790021570560, 0⟩⟩
    else if x = 4 ∧ y = 1 then ⟨0, ⟨-(138096410913480372943231223287686796037010807412275228093 / 15692754338466701909589473558019166040255888611160086282240), 0⟩⟩
    else if x = 4 ∧ y = 2 then ⟨0, ⟨-(1029444439667199435200316909863245555572894052121589156453 / 31385508676933403819178947116038332080511777222320172564480), -(1 / 10)⟩⟩
    else if x = 4 ∧ y = 3 then ⟨0, ⟨-(200864153914053206654803392620232480580086365329727372003 / 251084069415467230553431576928306656644094217778561380515840), 0⟩⟩
    else if x = 4 ∧ y = 4 then ⟨0, ⟨15667645910581823514326356313635612019456890855429954690717 / 502168138830934461106863153856613313288188435557122761031680, 1 / 10⟩⟩
    else ⟨0, ⟨0, 0⟩⟩

theorem pC20_out : ∀ x y : ℕ, ¬(x < 5 ∧ y < 5) → pC20 x y = ⟨0, ⟨0, 0⟩⟩ := by
  intro x y h
  unfold pC20
  rw [if_neg (show ¬(x = 0 ∧ y = 0) by omega),
    if_neg (show ¬(x = 0 ∧ y = 1) by omega),
    if_neg (show ¬(x = 0 ∧ y = 2) by omega),
    if_neg (show ¬(x = 0 ∧ y = 3) by omega),
    if_neg (show ¬(x = 0 ∧ y = 4) by omega),
    if_neg (show ¬(x = 1 ∧ y = 0) by omega),
    if_neg (show ¬(x = 1 ∧ y = 1) by omega),
    if_neg (show ¬(x = 1 ∧ y = 2) by omega),
    if_neg (show ¬(x = 1 ∧ y = 3) by omega),
    if_neg (show ¬(x = 1 ∧ y = 4) by omega),
    if_neg (show ¬(x = 2 ∧ y = 0) by omega),
    if_neg (show ¬(x = 2 ∧ y = 1) by omega),
    if_neg (show ¬(x = 2 ∧ y = 2) by omega),
    if_neg (show ¬(x = 2 ∧ y = 3) by omega),
    if_neg (show ¬(x = 2 ∧ y = 4) by omega),
    if_neg (show ¬(x = 3 ∧ y = 0) by omega),
    if_neg (show ¬(x = 3 ∧ y = 1) by omega),
    if_neg (show ¬(x = 3 ∧ y = 2) by omega),
    if_neg (show ¬(x = 3 ∧ y = 3) by omega),
    if_neg (show ¬(x = 3 ∧ y = 4) by omega),
    if_neg (show ¬(x = 4 ∧ y = 0) by omega),
    if_neg (show ¬(x = 4 ∧ y = 1) by omega),
    if_neg (show ¬(x = 4 ∧ y = 2) by omega),
    if_neg (show ¬(x = 4 ∧ y = 3) by omega),
    if_neg (show ¬(x = 4 ∧ y = 4) by omega)]

/-- Scratch buffer during the projection of the 5 by 5 state, after 25 relaxation sweeps. -/
def pC25 : Grid :=
  fun x y =>
    if x = 0 ∧ y = 0 then ⟨0, ⟨55213952813774253163816009289737244037037623704435225631491777460681 / 17254365866976409468586889655692563631127772430425966387906310559498240, 0⟩⟩
    else if x = 0 ∧ y = 1 then ⟨0, ⟨-(165641907478745787227613948890357626649043333037214980515010223903291 / 34508731733952818937173779311385127262255544860851932775812621118996480), 0⟩⟩
    else if x = 0 ∧ y = 2 then ⟨0, ⟨-(745388557140822133413790384651604301164289385270090332124340918260777 / 69017463467905637874347558622770254524511089721703865551625242237992960), 0⟩⟩
    else if x = 0 ∧ y = 3 then ⟨0, ⟨-(110427930267785063424760217018477510308510531375048636453614949392121 / 138034926935811275748695117245540509049022179443407731103250484475985920), 0⟩⟩
    else if x = 0 ∧ y = 4 then ⟨0, ⟨40637479822565259571831304689290321464386882843990108428304945280387203 / 4417117661945960823958243751857296289568709742189047395304015503231549440, 0⟩⟩
    else if x = 1 ∧ y = 0 then ⟨0, ⟨82820905793496740194487663632695002607801726779088380814416757073909 / 69017463467905637874347558622770254524511089721703865551625242237992960, 0⟩⟩
    else if x = 1 ∧ y = 1 then ⟨0, ⟨-(772995509134998818315763629289456767479339553473113715377873662257089 / 276069853871622551497390234491081018098044358886815462206500968951971840), 0⟩⟩
    else if x = 1 ∧ y = 2 then ⟨0, ⟨-(5300540389164118676675538197747702886660947302689102297363608673905189 / 1104279415486490205989560937964324072392177435547261848826003875807887360), 0⟩⟩
    else if x = 1 ∧ y = 3 then ⟨0, ⟨-(3533693472850116034033316492364142595871522817714255782931839598741677 / 4417117661945960823958243751857296289568709742189047395304015503231549440), 0⟩⟩
    else if x = 1 ∧ y = 4 then ⟨0, ⟨28269549113397252023334574993665351308875383486111122690217168138560299 / 8834235323891921647916487503714592579137419484378094790608031006463098880, 0⟩⟩
    else if x = 2 ∧ y = 0 then ⟨0, ⟨33128368174514780247688097459185759369798901892868629938426476734249 / 27606985387162255149739023449108101809804435888681546220650096895197184, 0⟩⟩
    else if x = 2 ∧ y = 1 then ⟨0, ⟨-(3091981956193529758408090163355808211913050437177458195120208678628327 / 1104279415486490205989560937964324072392177435547261848826003875807887360), 0⟩⟩
    else if x = 2 ∧ y = 2 then ⟨0, ⟨-(1060108085136950562127310200221111741350736282543736624056204642819527 / 220855883097298041197912187592864814478435487109452369765200775161577472), 0⟩⟩
    else if x = 2 ∧ y = 3 then ⟨0, ⟨-(14134773789167460219456642975938028073911703553309312996827027850268793 / 17668470647783843295832975007429185158274838968756189581216062012926197760), 0⟩⟩
    else if x = 2 ∧ y = 4 then ⟨0, ⟨226156399138018230327928321717894095146128815355258429429499367715592221 / 70673882591135373183331900029716740633099355875024758324864248051704791040, 0⟩⟩
    else if x = 3 ∧ y = 0 then ⟨0, ⟨3533693575822283275987358819258755882581163848478835274390786599459529 / 1104279415486490205989560937964324072392177435547261848826003875807887360, 0⟩⟩
    else if x = 3 ∧ y = 1 then ⟨0, ⟨-(10601081766220992365786201160156684327629035828062446586511437901319759 / 2208558830972980411979121875928648144784354871094523697652007751615774720), 0⟩⟩
    else if x = 3 ∧ y = 2 then ⟨0, ⟨-(95409736729859116637337787312648425438399575943295025375472831875083413 / 8834235323891921647916487503714592579137419484378094790608031006463098880), 0⟩⟩
    else if x = 3 ∧ y = 3 then ⟨0, ⟨-(56539102293143741633199837662607665980507568636897672822121602759309027 / 70673882591135373183331900029716740633099355875024758324864248051704791040), 0⟩⟩
    else if x = 3 ∧ y = 4 then ⟨0, ⟨1300399387283169746386781268487273684400264748783412636480779373663882013 / 141347765182270746366663800059433481266198711750049516649728496103409582080, 0⟩⟩
    else if x = 4 ∧ y = 0 then ⟨0, ⟨7950811215548992533891619051687540486666904827317507391245490547444757 / 1104279415486490205989560937964324072392177435547261848826003875807887360, 0⟩⟩
    else if x = 4 ∧ y = 1 then ⟨0, ⟨-(77741269266094405291198203037513268040416401019201872557525631912868517 / 8834235323891921647916487503714592579137419484378094790608031006463098880), 0⟩⟩
    else if x = 4 ∧ y = 2 then ⟨0, ⟨-(579525830377825403718890718077011981379647275337915940492770607320244253 / 17668470647783843295832975007429185158274838968756189581216062012926197760), -(1 / 10)⟩⟩
    else if x = 4 ∧ y = 3 then ⟨0, ⟨-(45231287046542486913319370519483102725468059501353455572856849224596203 / 56539106072908298546665520023773392506479484700019806659891398441363832832), 0⟩⟩
    else if x = 4 ∧ y = 4 then ⟨0, ⟨35280401755612495032813183673610419046720419687878610156613335799977338211 / 1130782121458165970933310400475467850129589694000396133197827968827276656640, 1 / 10⟩⟩
    else ⟨0, ⟨0, 0⟩⟩

theorem pC25_out : ∀ x y : ℕ, ¬(x < 5 ∧ y < 5) → pC25 x y = ⟨0, ⟨0, 0⟩⟩ := by
  intro x y h
  unfold pC25
  rw [if_neg (show ¬(x = 0 ∧ y = 0) by omega),
    if_neg (show ¬(x = 0 ∧ y = 1) by omega),
    if_neg (show ¬(x = 0 ∧ y = 2) by omega),
    if_neg (show ¬(x = 0 ∧ y = 3) by omega),
    if_neg (show ¬(x = 0 ∧ y = 4) by omega),
    if_neg (show ¬(x = 1 ∧ y = 0) by omega),
    if_neg (show ¬(x = 1 ∧ y = 1) by omega),
    if_neg (show ¬(x = 1 ∧ y = 2) by omega),
    if_neg (show ¬(x = 1 ∧ y = 3) by omega),
    if_neg (show ¬(x = 1 ∧ y = 4) by omega),
    if_neg (show ¬(x = 2 ∧ y = 0) by omega),
    if_neg (show ¬(x = 2 ∧ y = 1) by omega),
    if_neg (show ¬(x = 2 ∧ y = 2) by omega),
    if_neg (show ¬(x = 2 ∧ y = 3) by omega),
    if_neg (show ¬(x = 2 ∧ y = 4) by omega),
    if_neg (show ¬(x = 3 ∧ y = 0) by omega),
    if_neg (show ¬(x = 3 ∧ y = 1) by omega),
    if_neg (show ¬(x = 3 ∧ y = 2) by omega),
    if_neg (show ¬(x = 3 ∧ y = 3) by omega),
    if_neg (show ¬(x = 3 ∧ y = 4) by omega),
    if_neg (show ¬(x = 4 ∧ y = 0) by omega),
    if_neg (show ¬(x = 4 ∧ y = 1) by omega),
    if_neg (show ¬(x = 4 ∧ y = 2) by omega),
    if_neg (show ¬(x = 4 ∧ y = 3) by omega),
    if_neg (show ¬(x = 4 ∧ y = 4) by omega)]

/-- Scratch buffer during the projection of the 5 by 5 state, after 30 relaxation sweeps. -/
def pC30 : Grid :=
  fun x y =>
    if x = 0 ∧ y = 0 then ⟨0, ⟨31082702358566047857571883499067541599577096163687280848427047707825683011384436549 / 9713344461128645354597309534117594533212034195260697606259062048694521426026042490880, 0⟩⟩
    else if x = 0 ∧ y = 1 then ⟨0, ⟨-(372992424953560543203691142566001245617781335554442817457547126727686245096698381409 / 77706755689029162836778476272940756265696273562085580850072496389556171408208339927040), 0⟩⟩
    else if x = 0 ∧ y = 2 then ⟨0, ⟨-(3356931843133386721070089155886431005812626769744408814001615752230771622944902458663 / 310827022756116651347113905091763025062785094248342323400289985558224685632833359708160), 0⟩⟩
    else if x = 0 ∧ y = 3 then ⟨0, ⟨-(497323247523096806738121301173440051769141448680949270019520097977737785298320656319 / 621654045512233302694227810183526050125570188496684646800579971116449371265666719416320), 0⟩⟩
    else if x = 0 ∧ y = 4 then ⟨0, ⟨22876868841901415790911185068993691782903831499092767944363245177423553435635048982891 / 2486616182048933210776911240734104200502280753986738587202319884465797485062666877665280, 0⟩⟩
    else if x = 1 ∧ y = 0 then ⟨0, ⟨23312026951041161244281745816715620773639620010550923671830007394947391793585542911 / 19426688922257290709194619068235189066424068390521395212518124097389042852052084981760, 0⟩⟩
    else if x = 1 ∧ y = 1 then ⟨0, ⟨-(174063130912163643207953097028949993434036110454275076375359242552499385333120723873 / 62165404551223330269422781018352605012557018849668464680057997111644937126566671941632), 0⟩⟩
    else if x = 1 ∧ y = 2 then ⟨0, ⟨-(1491969706492498195581809162598108587308209516648890916765283951725374808946184290611 / 310827022756116651347113905091763025062785094248342323400289985558224685632833359708160), 0⟩⟩
    else if x = 1 ∧ y = 3 then ⟨0, ⟨-(1989292980538350972829322614559496603752135095594737654031705137983511279148730665637 / 2486616182048933210776911240734104200502280753986738587202319884465797485062666877665280), 0⟩⟩
    else if x = 1 ∧ y = 4 then ⟨0, ⟨15914343518835469062010864672412229587118175339192569905174370564082462260619786479331 / 4973232364097866421553822481468208401004561507973477174404639768931594970125333755330560, 0⟩⟩
    else if x = 2 ∧ y = 0 then ⟨0, ⟨46624053791812098858744500566965801910887988525837449056953099144354495357798350031 / 38853377844514581418389238136470378132848136781042790425036248194778085704104169963520, 0⟩⟩
    else if x = 2 ∧ y = 1 then ⟨0, ⟨-(3481262625878571886010260221570829247902444379370527875118917083980692726909744241261 / 1243308091024466605388455620367052100251140376993369293601159942232898742531333438832640), 0⟩⟩
    else if x = 2 ∧ y = 2 then ⟨0, ⟨-(4774303064984487104869947042214839014013652794461602786984148541163215238024214184933 / 994646472819573284310764496293641680200912301594695434880927953786318994025066751066112), 0⟩⟩
    else if x = 2 ∧ y = 3 then ⟨0, ⟨-(15914343855854401051731907007107101808683581960291485147980899648574968773341876964867 / 19892929456391465686215289925872833604018246031893908697618559075726379880501335021322240), 0⟩⟩
    else if x = 2 ∧ y = 4 then ⟨0, ⟨50925899258697718888258205549221439166457680245871205364574344582214059808340155843701 / 15914343565113172548972231940698266883214596825515126958094847260581103904401068017057792, 0⟩⟩
    else if x = 3 ∧ y = 0 then ⟨0, ⟨3978585898245031124882829791754990411494992670175816319198957416938920269426904607587 / 1243308091024466605388455620367052100251140376993369293601159942232898742531333438832640, 0⟩⟩
    else if x = 3 ∧ y = 1 then ⟨0, ⟨-(11935757631912579128107273800101754189504712945301082972661880417548550847060200679493 / 2486616182048933210776911240734104200502280753986738587202319884465797485062666877665280), 0⟩⟩
    else if x = 3 ∧ y = 2 then ⟨0, ⟨-(214843638123588925840593581852070800577697660655436310210267194569801895383199828027843 / 19892929456391465686215289925872833604018246031893908697618559075726379880501335021322240), 0⟩⟩
    else if x = 3 ∧ y = 3 then ⟨0, ⟨-(31828687746887405871822483390522816025689855978965461639708694829410773788035216040291 / 39785858912782931372430579851745667208036492063787817395237118151452759761002670042644480), 0⟩⟩
    else if x = 3 ∧ y = 4 then ⟨0, ⟨2928239212865093332274096381594332089325829351832275424080690026088193257203289240191299 / 318286871302263450979444638813965337664291936510302539161896945211622078088021360341155840, 0⟩⟩
    else if x = 4 ∧ y = 0 then ⟨0, ⟨35807273050563700666690987355680323667527426874909720568395106020353645182795557217911 / 4973232364097866421553822481468208401004561507973477174404639768931594970125333755330560, 0⟩⟩
    else if x = 4 ∧ y = 1 then ⟨0, ⟨-(35011555784425238299904391798185023791282272331967147507838339000613798248239988257783 / 3978585891278293137243057985174566720803649206378781739523711815145275976100267004264448), 0⟩⟩
    else if x = 4 ∧ y = 2 then ⟨0, ⟨-(1304976172346161622795376004551078741343532419909078333980791327135064429555953255470731 / 39785858912782931372430579851745667208036492063787817395237118151452759761002670042644480), -(1 / 10)⟩⟩
    else if x = 4 ∧ y = 3 then ⟨0, ⟨-(63657375322839222753231822119113075538913381384412755423749049579561808677956247215767 / 79571717825565862744861159703491334416072984127575634790474236302905519522005340085288960), 0⟩⟩
    else if x = 4 ∧ y = 4 then ⟨0, ⟨39722201528799539603110487854109146816532815229202974731831170516945001962753802217200167 / 1273147485209053803917778555255861350657167746041210156647587780846488312352085441364623360, 1 / 10⟩⟩
    else ⟨0, ⟨0, 0⟩⟩

theorem pC30_out : ∀ x y : ℕ, ¬(x < 5 ∧ y < 5) → pC30 x y = ⟨0, ⟨0, 0⟩⟩ := by
  intro x y h
  unfold pC30
  rw [if_neg (show ¬(x = 0 ∧ y = 0) by omega),
    if_neg (show ¬(x = 0 ∧ y = 1) by omega),
    if_neg (show ¬(x = 0 ∧ y = 2) by omega),
    if_neg (show ¬(x = 0 ∧ y = 3) by omega),
    if_neg (show ¬(x = 0 ∧ y = 4) by omega),
    if_neg (show ¬(x = 1 ∧ y = 0) by omega),
    if_neg (show ¬(x = 1 ∧ y = 1) by omega),
    if_neg (show ¬(x = 1 ∧ y = 2) by omega),
    if_neg (show ¬(x = 1 ∧ y = 3) by omega),
    if_neg (show ¬(x = 1 ∧ y = 4) by omega),
    if_neg (show ¬(x = 2 ∧ y = 0) by omega),
    if_neg (show ¬(x = 2 ∧ y = 1) by omega),
    if_neg (show ¬(x = 2 ∧ y = 2) by omega),
    if_neg (show ¬(x = 2 ∧ y = 3) by omega),
    if_neg (show ¬(x = 2 ∧ y = 4) by omega),
    if_neg (show ¬(x = 3 ∧ y = 0) by omega),
    if_neg (show ¬(x = 3 ∧ y = 1) by omega),
    if_neg (show ¬(x = 3 ∧ y = 2) by omega),
    if_neg (show ¬(x = 3 ∧ y = 3) by omega),
    if_neg (show ¬(x = 3 ∧ y = 4) by omega),
    if_neg (show ¬(x = 4 ∧ y = 0) by omega),
    if_neg (show ¬(x = 4 ∧ y = 1) by omega),
    if_neg (show ¬(x = 4 ∧ y = 2) by omega),
    if_neg (show ¬(x = 4 ∧ y = 3) by omega),
    if_neg (show ¬(x = 4 ∧ y = 4) by omega)]

/-- Scratch buffer during the projection of the 5 by 5 state, after 35 relaxation sweeps. -/
def pC35 : Grid :=
  fun x y =>
    if x = 0 ∧ y = 0 then ⟨0, ⟨69992023220028843993548925787658866077776545483076786966078655938731630479369812389882326809226911 / 21872507247830119243725022271176213653531694308932124364257706064099529991993759232235131770230538240, 0⟩⟩
    else if x = 0 ∧ y = 1 then ⟨0, ⟨-(419952139117766917173010456031884318496037380866563378211792939786575821105592654817558490110365573 / 87490028991320476974900089084704854614126777235728497457030824256398119967975036928940527080922152960), 0⟩⟩
    else if x = 0 ∧ y = 2 then ⟨0, ⟨-(3779569252615606140513748357521871663840006454647560160605860612287024129563320228582364195253748109 / 349960115965281907899600356338819418456507108942913989828123297025592479871900147715762108323688611840), 0⟩⟩
    else if x = 0 ∧ y = 3 then ⟨0, ⟨-(559936185853535233726621709219138213811987461499781662440094690605520177288839304126812830859402421 / 699920231930563815799200712677638836913014217885827979656246594051184959743800295431524216647377223680), 0⟩⟩
    else if x = 0 ∧ y = 4 then ⟨0, ⟨51514129072052339872530605592113634363986768162073551384537141080584073496610001852733734702571657293 / 5599361855444510526393605701421110695304113743086623837249972752409479677950402363452193733179017789440, 0⟩⟩
    else if x = 1 ∧ y = 0 then ⟨0, ⟨104988034876736058436727040056171539392878828030571787905083186157575236051489441864280340783844153 / 87490028991320476974900089084704854614126777235728497457030824256398119967975036928940527080922152960, 0⟩⟩
    else if x = 1 ∧ y = 1 then ⟨0, ⟨-(48994416230100304813630176249638555719433847691474215262064131228721325212238270975307022059786263 / 17498005798264095394980017816940970922825355447145699491406164851279623993595007385788105416184430592), 0⟩⟩
    else if x = 1 ∧ y = 2 then ⟨0, ⟨-(6719234227327364676069091490831755148121489168755190920893188710186649292084664004139437175544356761 / 1399840463861127631598401425355277673826028435771655959312493188102369919487600590863048433294754447360), 0⟩⟩
    else if x = 1 ∧ y = 3 then ⟨0, ⟨-(4479489486777481086679093476457554428916205429277183442478045365075750502738033902014198774718951107 / 5599361855444510526393605701421110695304113743086623837249972752409479677950402363452193733179017789440), 0⟩⟩
    else if x = 1 ∧ y = 4 then ⟨0, ⟨35835915877829420403361521235585292839329852383241865315606315505622424787854700923858798268883253509 / 11198723710889021052787211402842221390608227486173247674499945504818959355900804726904387466358035578880, 0⟩⟩
    else if x = 2 ∧ y = 0 then ⟨0, ⟨209976069705595221701911694125282014698906513742975580173451957039366341415163699595654412912645073 / 174980057982640953949800178169409709228253554471456994914061648512796239935950073857881054161844305920, 0⟩⟩
    else if x = 2 ∧ y = 1 then ⟨0, ⟨-(1959776649341821034575248701750304485102943848151776893259857193777334011108267562604303751859747221 / 699920231930563815799200712677638836913014217885827979656246594051184959743800295431524216647377223680), 0⟩⟩
    else if x = 2 ∧ y = 2 then ⟨0, ⟨-(26876936909593292564704760309078645410484894246642663903451991928893092653890663060904353947934996483 / 5599361855444510526393605701421110695304113743086623837249972752409479677950402363452193733179017789440), 0⟩⟩
    else if x = 2 ∧ y = 3 then ⟨0, ⟨-(8958978973752899218775940322298318377773553428369574151493965399458787776218108636036341850951377123 / 11198723710889021052787211402842221390608227486173247674499945504818959355900804726904387466358035578880), 0⟩⟩
    else if x = 2 ∧ y = 4 then ⟨0, ⟨71671831753594662556843363953487653336153515710460440659647690070702102959494327415728961425233807217 / 22397447421778042105574422805684442781216454972346495348999891009637918711801609453808774932716071157760, 0⟩⟩
    else if x = 3 ∧ y = 0 then ⟨0, ⟨2239744742614202770302651266954142378008385823025304435675151813775874446148389210850406895293930587 / 699920231930563815799200712677638836913014217885827979656246594051184959743800295431524216647377223680, 0⟩⟩
    else if x = 3 ∧ y = 1 then ⟨0, ⟨-(6719234226462488403522408960528297949888506630117601631132345141473026821396544522293590207148569373 / 1399840463861127631598401425355277673826028435771655959312493188102369919487600590863048433294754447360), 0⟩⟩
    else if x = 3 ∧ y = 2 then ⟨0, ⟨-(241892432167404215180032188421710746729344735644629466965065516071400942051806845036965428289352428471 / 22397447421778042105574422805684442781216454972346495348999891009637918711801609453808774932716071157760), 0⟩⟩
    else if x = 3 ∧ y = 3 then ⟨0, ⟨-(71671831782410458493707671061911005576420874520778942479785773514073321374508862249975509875911802813 / 89589789687112168422297691222737771124865819889385981395999564038551674847206437815235099730864284631040), 0⟩⟩
    else if x = 3 ∧ y = 4 then ⟨0, ⟨3296904260550849914505099538092273064324048190015123098268480342626773620341403507380589759724997273927 / 358359158748448673689190764890951084499463279557543925583998256154206699388825751260940398923457138524160, 0⟩⟩
    else if x = 4 ∧ y = 0 then ⟨0, ⟨40315405362835452777976387623280325681320217467493517231792240492959016344407698983474414389329615597 / 5599361855444510526393605701421110695304113743086623837249972752409479677950402363452193733179017789440, 0⟩⟩
    else if x = 4 ∧ y = 1 then ⟨0, ⟨-(197097537309104653469334683024412407882695112085403272815089926909289241733916782974072153540154631367 / 22397447421778042105574422805684442781216454972346495348999891009637918711801609453808774932716071157760), 0⟩⟩
    else if x = 4 ∧ y = 2 then ⟨0, ⟨-(1469272550886560868278085123015455703925508110627266379109408079672024324570883019750575474747131790719 / 44794894843556084211148845611368885562432909944692990697999782019275837423603218907617549865432142315520), -(1 / 10)⟩⟩
    else if x = 4 ∧ y = 3 then ⟨0, ⟨-(286687327080520936794191104702768872624589874500462443147678129560901952438305091700561160417828161403 / 358359158748448673689190764890951084499463279557543925583998256154206699388825751260940398923457138524160), 0⟩⟩
    else if x = 4 ∧ y = 4 then ⟨0, ⟨2236161150607400753813121624413491304227271667578067280248285412459664967830540319764569501676728221495 / 71671831749689734737838152978190216899892655911508785116799651230841339877765150252188079784691427704832, 1 / 10⟩⟩
    else ⟨0, ⟨0, 0⟩⟩

theorem pC35_out : ∀ x y : ℕ, ¬(x < 5 ∧ y < 5) → pC35 x y = ⟨0, ⟨0, 0⟩⟩ := by
  intro x y h
  unfold pC35
  rw [if_neg (show ¬(x = 0 ∧ y = 0) by omega),
    if_neg (show ¬(x = 0 ∧ y = 1) by omega),
    if_neg (show ¬(x = 0 ∧ y = 2) by omega),
    if_neg (show ¬(x = 0 ∧ y = 3) by omega),
    if_neg (show ¬(x = 0 ∧ y = 4) by omega),
    if_neg (show ¬(x = 1 ∧ y = 0) by omega),
    if_neg (show ¬(x = 1 ∧ y = 1) by omega),
    if_neg (show ¬(x = 1 ∧ y = 2) by omega),
    if_neg (show ¬(x = 1 ∧ y = 3) by omega),
    if_neg (show ¬(x = 1 ∧ y = 4) by omega),
    if_neg (show ¬(x = 2 ∧ y = 0) by omega),
    if_neg (show ¬(x = 2 ∧ y = 1) by omega),
    if_neg (show ¬(x = 2 ∧ y = 2) by omega),
    if_neg (show ¬(x = 2 ∧ y = 3) by omega),
    if_neg (show ¬(x = 2 ∧ y = 4) by omega),
    if_neg (show ¬(x = 3 ∧ y = 0) by omega),
    if_neg (show ¬(x = 3 ∧ y = 1) by omega),
    if_neg (show ¬(x = 3 ∧ y = 2) by omega),
    if_neg (show ¬(x = 3 ∧ y = 3) by omega),
    if_neg (show ¬(x = 3 ∧ y = 4) by omega),
    if_neg (show ¬(x = 4 ∧ y = 0) by omega),
    if_neg (show ¬(x = 4 ∧ y = 1) by omega),
    if_neg (show ¬(x = 4 ∧ y = 2) by omega),
    if_neg (show ¬(x = 4 ∧ y = 3) by omega),
    if_neg (show ¬(x = 4 ∧ y = 4) by omega)]

/-- Scratch buffer during the projection of the 5 by 5 state, after 40 relaxation sweeps. -/
def pC40 : Grid :=
  fun x y =>
    if x = 0 ∧ y = 0 then ⟨0, ⟨78804012393182908633864997059867540140493400229641439809713076348699521532459391465518129130719797256206919860347 / 24626253872746549507674400062589758628174837044040904167467683377653576107185756632133916409303072275504142493941760, 0⟩⟩
    else if x = 0 ∧ y = 1 then ⟨0, ⟨-(118206018589715182371129150843382574612747112594679257806445813851152164438727713423044521047108565905380474949827 / 24626253872746549507674400062589758628174837044040904167467683377653576107185756632133916409303072275504142493941760), 0⟩⟩
    else if x = 0 ∧ y = 2 then ⟨0, ⟨-(2127708334609152369361826029802386696041792410244672172568361080263784633948242908829346456800115704135314053023141 / 197010030981972396061395200500718069025398696352327233339741467021228608857486053057071331274424578204033139951534080), 0⟩⟩
    else if x = 0 ∧ y = 3 then ⟨0, ⟨-(315216049567460130519429157210830302187594066796115954296674563229500478530755283304892558974942652360538988736029 / 394020061963944792122790401001436138050797392704654466679482934042457217714972106114142662548849156408066279903068160), 0⟩⟩
    else if x = 0 ∧ y = 4 then ⟨0, ⟨57999753121222120562687118748948434631914849047300626387202811202479904183992680820912170968489419697345870976636217 / 6304320991423116673964646416022978208812758283274471466871726944679315483439553697826282600781586502529060478449090560, 0⟩⟩
    else if x = 1 ∧ y = 0 then ⟨0, ⟨118206018589886436349834813940246173791966385707491830420338207858196691113947831772928045731855855133747523230899 / 98505015490986198030697600250359034512699348176163616669870733510614304428743026528535665637212289102016569975767040, 0⟩⟩
    else if x = 1 ∧ y = 1 then ⟨0, ⟨-(1103256173508606819020602196041467765338872757412227826977107274456305882313834980710213584101027326408362277978777 / 394020061963944792122790401001436138050797392704654466679482934042457217714972106114142662548849156408066279903068160), 0⟩⟩
    else if x = 1 ∧ y = 2 then ⟨0, ⟨-(7565185189739803923976129422784999631991999248644579150106323007101906834418678196270670928709245093195821822167843 / 1576080247855779168491161604005744552203189570818617866717931736169828870859888424456570650195396625632265119612272640), 0⟩⟩
    else if x = 1 ∧ y = 3 then ⟨0, ⟨-(1008691358620582841541718072326403394934615305169665611944009060095972799315164746583252547053939810551827273321003 / 1260864198284623334792929283204595641762551656654894293374345388935863096687910739565256520156317300505812095689818112), 0⟩⟩
    else if x = 1 ∧ y = 4 then ⟨0, ⟨40347654345294922477466867776494228693435462565226291906757907241236647122436686819254786808006855095260553253337073 / 12608641982846233347929292832045956417625516566548942933743453889358630966879107395652565201563173005058120956898181120, 0⟩⟩
    else if x = 2 ∧ y = 0 then ⟨0, ⟨236412037179262685381456957071065387335082194278555860963256795469663251370507337385326497746684276184571085592027 / 197010030981972396061395200500718069025398696352327233339741467021228608857486053057071331274424578204033139951534080, 0⟩⟩
    else if x = 2 ∧ y = 1 then ⟨0, ⟨-(4413024694030781184646425755360854881561915718040194726069178837845068369618830691099874077844478455021652529058979 / 1576080247855779168491161604005744552203189570818617866717931736169828870859888424456570650195396625632265119612272640), 0⟩⟩
    else if x = 2 ∧ y = 2 then ⟨0, ⟨-(15130370379469208593316089648619237540763023672433412192532112283981088726784532235201739253896180961105618993257827 / 3152160495711558336982323208011489104406379141637235733435863472339657741719776848913141300390793251264530239224545280), 0⟩⟩
    else if x = 2 ∧ y = 3 then ⟨0, ⟨-(20173827172405593485274256300115995888940429916159087815685529621427412826892879726436083243505305869923629784467421 / 25217283965692466695858585664091912835251033133097885867486907778717261933758214791305130403126346010116241913796362240), 0⟩⟩
    else if x = 2 ∧ y = 4 then ⟨0, ⟨322781234762183358594209925479144220950439511190730298501963914303952296065602663484061759382644103643296969436703557 / 100869135862769866783434342656367651341004132532391543469947631114869047735032859165220521612505384040464967655185448960, 0⟩⟩
    else if x = 3 ∧ y = 0 then ⟨0, ⟨5043456793149173468703196921659568674325361659339147060268764574359817212282908276341824000880163445062658239424333 / 1576080247855779168491161604005744552203189570818617866717931736169828870859888424456570650195396625632265119612272640, 0⟩⟩
    else if x = 3 ∧ y = 1 then ⟨0, ⟨-(15130370379466475220220778676895878901706207937818544686278318435494727385046928835767949437405133803827080899628651 / 3152160495711558336982323208011489104406379141637235733435863472339657741719776848913141300390793251264530239224545280), 0⟩⟩
    else if x = 3 ∧ y = 2 then ⟨0, ⟨-(68086666707440221495589557158945274199924481002332335345596624549516988543306126140454895564345777616789751557961863 / 6304320991423116673964646416022978208812758283274471466871726944679315483439553697826282600781586502529060478449090560), 0⟩⟩
    else if x = 3 ∧ y = 3 then ⟨0, ⟨-(80695308689359651757767409935868119367753066000520942384089934585755402777996941730236445718804667395353877871845049 / 100869135862769866783434342656367651341004132532391543469947631114869047735032859165220521612505384040464967655185448960), 0⟩⟩
    else if x = 3 ∧ y = 4 then ⟨0, ⟨927996049938856864482147730241833570401078028842191394607525068030199591658983475306650229068043496861216559626229443 / 100869135862769866783434342656367651341004132532391543469947631114869047735032859165220521612505384040464967655185448960, 0⟩⟩
    else if x = 4 ∧ y = 0 then ⟨0, ⟨22695555569145432282576438141355995793266969999938236343973773727754077438315471704233028018852618724012543224584861 / 3152160495711558336982323208011489104406379141637235733435863472339657741719776848913141300390793251264530239224545280, 0⟩⟩
    else if x = 4 ∧ y = 1 then ⟨0, ⟨-(55478024724604130538270742489248695198204146879914797649448047872489634684106736119771708160886711064093074385526407 / 6304320991423116673964646416022978208812758283274471466871726944679315483439553697826282600781586502529060478449090560), 0⟩⟩
    else if x = 4 ∧ y = 2 then ⟨0, ⟨-(413563457037455279585684047192227384345462557566738665288059294027820834210115601041277882400056966111727666194349863 / 12608641982846233347929292832045956417625516566548942933743453889358630966879107395652565201563173005058120956898181120), -(1 / 10)⟩⟩
    else if x = 4 ∧ y = 3 then ⟨0, ⟨-(64556246951443006552213969856362793325335016730677027706697523070300205440114610559922626692968324916112033785233085 / 80695308690215893426747474125094121072803306025913234775958104891895238188026287332176417290004307232371974124148359168), 0⟩⟩
    else if x = 4 ∧ y = 4 then ⟨0, ⟨50353872622714990186723017816258848129360012543691332168685288056828152213328416465195402956205944036354034406904512027 / 1613906173804317868534949482501882421456066120518264695519162097837904763760525746643528345800086144647439482482967183360, 1 / 10⟩⟩
    else ⟨0, ⟨0, 0⟩⟩

theorem pC40_out : ∀ x y : ℕ, ¬(x < 5 ∧ y < 5) → pC40 x y = ⟨0, ⟨0, 0⟩⟩ := by
  intro x y h
  unfold pC40
  rw [if_neg (show ¬(x = 0 ∧ y = 0) by omega),
    if_neg (show ¬(x = 0 ∧ y = 1) by omega),
    if_neg (show ¬(x = 0 ∧ y = 2) by omega),
    if_neg (show ¬(x = 0 ∧ y = 3) by omega),
    if_neg (show ¬(x = 0 ∧ y = 4) by omega),
    if_neg (show ¬(x = 1 ∧ y = 0) by omega),
    if_neg (show ¬(x = 1 ∧ y = 1) by omega),
    if_neg (show ¬(x = 1 ∧ y = 2) by omega),
    if_neg (show ¬(x = 1 ∧ y = 3) by omega),
    if_neg (show ¬(x = 1 ∧ y = 4) by omega),
    if_neg (show ¬(x = 2 ∧ y = 0) by omega),
    if_neg (show ¬(x = 2 ∧ y = 1) by omega),
    if_neg (show ¬(x = 2 ∧ y = 2) by omega),
    if_neg (show ¬(x = 2 ∧ y = 3) by omega),
    if_neg (show ¬(x = 2 ∧ y = 4) by omega),
    if_neg (show ¬(x = 3 ∧ y = 0) by omega),
    if_neg (show ¬(x = 3 ∧ y = 1) by omega),
    if_neg (show ¬(x = 3 ∧ y = 2) by omega),
    if_neg (show ¬(x = 3 ∧ y = 3) by omega),
    if_neg (show ¬(x = 3 ∧ y = 4) by omega),
    if_neg (show ¬(x = 4 ∧ y = 0) by omega),
    if_neg (show ¬(x = 4 ∧ y = 1) by omega),
    if_neg (show ¬(x = 4 ∧ y = 2) by omega),
    if_neg (show ¬(x = 4 ∧ y = 3) by omega),
    if_neg (show ¬(x = 4 ∧ y = 4) by omega)]

/-- Current buffer of the 5 by 5 state after one `project()` call (20 sweeps). -/
def gC : Grid :=
  fun x y =>
    if x = 0 ∧ y = 0 then ⟨0, ⟨23539173681289153159070087961870948909927080451207074507 / 1569275433846670190958947355801916604025588861116008628224, 54924750549189316750069061570722359299302202036132233673 / 1569275433846670190958947355801916604025588861116008628224⟩⟩
    else if x = 0 ∧ y = 1 then ⟨0, ⟨-(94156337013020141492168642602217482104393081560460496957 / 6277101735386680763835789423207666416102355444464034512896), 3432781589016184904783510622109820929383317438192647483 / 98079714615416886934934209737619787751599303819750539264⟩⟩
    else if x = 0 ∧ y = 2 then ⟨0, ⟨-(878794178049918887111808787379429737430706460114084835909 / 12554203470773361527671578846415332832204710888928069025792), -(1961616942794218924186562103995614627957506950439995605 / 196159429230833773869868419475239575503198607639501078528)⟩⟩
    else if x = 0 ∧ y = 3 then ⟨0, ⟨-(1086731170606664507509494855139511581356260717963555 / 100433627766186892221372630771322662657637687111424552206336), -(78463754651290373345737184837952435247934898566480143545 / 1569275433846670190958947355801916604025588861116008628224)⟩⟩
    else if x = 0 ∧ y = 4 then ⟨0, ⟨14060707681001383465360554368625268629901932149809424193117 / 200867255532373784442745261542645325315275374222849104412672, -(1961570722475518810921943731820267737230040859651810627 / 196159429230833773869868419475239575503198607639501078528)⟩⟩
    else if x = 1 ∧ y = 0 then ⟨0, ⟨245198161019776394485263418474944322113983511843854783 / 49039857307708443467467104868809893875799651909875269632, 47078446787424491490621945733521272428105092701228154593 / 3138550867693340381917894711603833208051177722232017256448⟩⟩
    else if x = 1 ∧ y = 1 then ⟨0, ⟨-(490401375416844767953060223645713876174901274006764491 / 98079714615416886934934209737619787751599303819750539264), 5884751032341153060194581833502165314460427195125794513 / 392318858461667547739736838950479151006397215279002157056⟩⟩
    else if x = 1 ∧ y = 2 then ⟨0, ⟨-(23539146093732247044320406378331361972203374467073578987 / 1569275433846670190958947355801916604025588861116008628224), -(7846533050382517237917271997533307528959040696250410777 / 1569275433846670190958947355801916604025588861116008628224)⟩⟩
    else if x = 1 ∧ y = 3 then ⟨0, ⟨7240033974381259144051077721804555701821072205451 / 1569275433846670190958947355801916604025588861116008628224, -(62770975241514512787217686011740569997343127777196869161 / 3138550867693340381917894711603833208051177722232017256448)⟩⟩
    else if x = 1 ∧ y = 4 then ⟨0, ⟨188313017563782244110381584519455794440269466784164680685 / 12554203470773361527671578846415332832204710888928069025792, -(7846206851937084354563185197365704944263650546268409991 / 1569275433846670190958947355801916604025588861116008628224)⟩⟩
    else if x = 2 ∧ y = 0 then ⟨0, ⟨-(490401375416844767953060223645713876174901274006764491 / 98079714615416886934934209737619787751599303819750539264), 188313610776376159592179199419671703803760786432027333851 / 12554203470773361527671578846415332832204710888928069025792⟩⟩
    else if x = 2 ∧ y = 1 then ⟨0, ⟨980791235647978920945236036618451851405949429544203989 / 196159429230833773869868419475239575503198607639501078528, 23539018177893866808687334184227554590282232165005427685 / 1569275433846670190958947355801916604025588861116008628224⟩⟩
    else if x = 2 ∧ y = 2 then ⟨0, ⟨94156454321104008440726582847982205367960711596578302333 / 6277101735386680763835789423207666416102355444464034512896, -(7846506295650260724984389202555773200305933398339527533 / 1569275433846670190958947355801916604025588861116008628224)⟩⟩
    else if x = 2 ∧ y = 3 then ⟨0, ⟨27301256690200407730162926062980726752978289759209 / 25108406941546723055343157692830665664409421777856138051584, -(251083850896682766300952643157512791765582726011087835779 / 12554203470773361527671578846415332832204710888928069025792)⟩⟩
    else if x = 2 ∧ y = 4 then ⟨0, ⟨-(1506504910553915157018811731012104119459824678075426549501 / 100433627766186892221372630771322662657637687111424552206336), -(7846231867205280245106264514441645394748556319283337411 / 1569275433846670190958947355801916604025588861116008628224)⟩⟩
    else if x = 3 ∧ y = 0 then ⟨0, ⟨-(23539146093732247044320406378331361972203374467073578987 / 1569275433846670190958947355801916604025588861116008628224), 3515180320403264092242674845233432185079033752441359938845 / 100433627766186892221372630771322662657637687111424552206336⟩⟩
    else if x = 3 ∧ y = 1 then ⟨0, ⟨94156454321104008440726582847982205367960711596578302333 / 6277101735386680763835789423207666416102355444464034512896, 219698158865240522552835746497342538474521228255023941965 / 6277101735386680763835789423207666416102355444464034512896⟩⟩
    else if x = 3 ∧ y = 2 then ⟨0, ⟨878794286362140099486534185245995286272971920911134803005 / 12554203470773361527671578846415332832204710888928069025792, -(251085779667804887487258834484768694462579425143374923815 / 25108406941546723055343157692830665664409421777856138051584)⟩⟩
    else if x = 3 ∧ y = 3 then ⟨0, ⟨1251357648061013730054548528514694864569772306321955 / 100433627766186892221372630771322662657637687111424552206336, -(5021679387420043701261403008955517645262176152490979199981 / 100433627766186892221372630771322662657637687111424552206336)⟩⟩
    else if x = 3 ∧ y = 4 then ⟨0, ⟨-(14060706749115848624931637616991411660006321338619818973421 / 200867255532373784442745261542645325315275374222849104412672), -(251082089038962300469402110574080094389719887864316028761 / 25108406941546723055343157692830665664409421777856138051584)⟩⟩
    else if x = 4 ∧ y = 0 then ⟨0, ⟨3329154985346810678287724601048339202626310711455 / 98079714615416886934934209737619787751599303819750539264, 20086731059813195448509755458841589492641236692622761989693 / 200867255532373784442745261542645325315275374222849104412672⟩⟩
    else if x = 4 ∧ y = 1 then ⟨0, ⟨7849308089772818448777992828298957364679840643575 / 196159429230833773869868419475239575503198607639501078528, 1255419600535149010310596109746466618772856773967766856381 / 12554203470773361527671578846415332832204710888928069025792⟩⟩
    else if x = 4 ∧ y = 2 then ⟨0, ⟨75897714373549192343732060468099720055873191030067 / 6277101735386680763835789423207666416102355444464034512896, -(2008678420701632760436896179982756256012086553266676277485 / 100433627766186892221372630771322662657637687111424552206336)⟩⟩
    else if x = 4 ∧ y = 3 then ⟨0, ⟨-(184298419643887859671243587955649438785493342136025 / 25108406941546723055343157692830665664409421777856138051584), 168728498587116769965213834671197784406652178533473723218707 / 200867255532373784442745261542645325315275374222849104412672⟩⟩
    else if x = 4 ∧ y = 4 then ⟨0, ⟨304100889783921300679039529278989863538207306494173 / 100433627766186892221372630771322662657637687111424552206336, -(2008665440857649807537036991686000986179788140099148971427 / 100433627766186892221372630771322662657637687111424552206336)⟩⟩
    else ⟨0, ⟨0, 0⟩⟩

theorem gC_out : ∀ x y : ℕ, ¬(x < 5 ∧ y < 5) → gC x y = ⟨0, ⟨0, 0⟩⟩ := by
  intro x y h
  unfold gC
  rw [if_neg (show ¬(x = 0 ∧ y = 0) by omega),
    if_neg (show ¬(x = 0 ∧ y = 1) by omega),
    if_neg (show ¬(x = 0 ∧ y = 2) by omega),
    if_neg (show ¬(x = 0 ∧ y = 3) by omega),
    if_neg (show ¬(x = 0 ∧ y = 4) by omega),
    if_neg (show ¬(x = 1 ∧ y = 0) by omega),
    if_neg (show ¬(x = 1 ∧ y = 1) by omega),
    if_neg (show ¬(x = 1 ∧ y = 2) by omega),
    if_neg (show ¬(x = 1 ∧ y = 3) by omega),
    if_neg (show ¬(x = 1 ∧ y = 4) by omega),
    if_neg (show ¬(x = 2 ∧ y = 0) by omega),
    if_neg (show ¬(x = 2 ∧ y = 1) by omega),
    if_neg (show ¬(x = 2 ∧ y = 2) by omega),
    if_neg (show ¬(x = 2 ∧ y = 3) by omega),
    if_neg (show ¬(x = 2 ∧ y = 4) by omega),
    if_neg (show ¬(x = 3 ∧ y = 0) by omega),
    if_neg (show ¬(x = 3 ∧ y = 1) by omega),
    if_neg (show ¬(x = 3 ∧ y = 2) by omega),
    if_neg (show ¬(x = 3 ∧ y = 3) by omega),
    if_neg (show ¬(x = 3 ∧ y = 4) by omega),
    if_neg (show ¬(x = 4 ∧ y = 0) by omega),
    if_neg (show ¬(x = 4 ∧ y = 1) by omega),
    if_neg (show ¬(x = 4 ∧ y = 2) by omega),
    if_neg (show ¬(x = 4 ∧ y = 3) by omega),
    if_neg (show ¬(x = 4 ∧ y = 4) by omega)]

/-- Current buffer of the 5 by 5 state after a projection with 40 relaxation sweeps. -/
def gC40 : Grid :=
  fun x y =>
    if x = 0 ∧ y = 0 then ⟨0, ⟨18912962974269066319381724095268118231924045657298497770522951076291783322669141087499330555433231359732622481196093 / 1260864198284623334792929283204595641762551656654894293374345388935863096687910739565256520156317300505812095689818112, 88260493880189207249696181364854373732778109871538516385652939548374858280306975457211568356549212569123272563791929 / 2521728396569246669585858566409191283525103313309788586748690777871726193375821479130513040312634601011624191379636224⟩⟩
    else if x = 0 ∧ y = 1 then ⟨0, ⟨-(37825925948466421433941107352585210952782182761319152417814331481188740567085376428408290815270273841559277937865975 / 2521728396569246669585858566409191283525103313309788586748690777871726193375821479130513040312634601011624191379636224), 2758140433754615638432746006281327017165739612081803691046065691053380806207918040553491489845874082184969411905917 / 78804012392788958424558080200287227610159478540930893335896586808491443542994421222828532509769831281613255980613632⟩⟩
    else if x = 0 ∧ y = 2 then ⟨0, ⟨-(353041975519536848193875011809947387289526563577582032087208709971005579534766175471112514970383005366161091617007119 / 5043456793138493339171717132818382567050206626619577173497381555743452386751642958261026080625269202023248382759272448), -(1576080247867982787418637256283290891616359734718752170606458458388934152488888131463819777778794402125548610461203 / 157608024785577916849116160400574455220318957081861786671793173616982887085988842445657065019539662563226511961227264)⟩⟩
    else if x = 0 ∧ y = 3 then ⟨0, ⟨1371476532279933862635119752401814000907857288595283879210268580279666107027681592419114796024558536555535 / 161390617380431786853494948250188242145606612051826469551916209783790476376052574664352834580008614464743948248296718336, -(126086419828714996382265551702624808905252206175130135909390365770921012470336453903451257586093122229675920673376729 / 2521728396569246669585858566409191283525103313309788586748690777871726193375821479130513040312634601011624191379636224)⟩⟩
    else if x = 0 ∧ y = 4 then ⟨0, ⟨45189372866517240109607258740867586856600273335342366804620275929949861381656520552330790244781066584160683590477366683 / 645562469521727147413979793000752968582426448207305878207664839135161905504210298657411338320034457858975792993186873344, -(1576080247858386668661269110168710944435488470470378991252083784808692823050105546753182625066459408459849706501581 / 157608024785577916849116160400574455220318957081861786671793173616982887085988842445657065019539662563226511961227264)⟩⟩
    else if x = 1 ∧ y = 0 then ⟨0, ⟨394020061966200583689463019407874933788865007558575657514447815319932920889167794338818535299074101865084273290749 / 78804012392788958424558080200287227610159478540930893335896586808491443542994421222828532509769831281613255980613632, 75651851897570340686126138049821197184279390802417582370025340023838435356479406201981621499239729540328146148657937 / 5043456793138493339171717132818382567050206626619577173497381555743452386751642958261026080625269202023248382759272448⟩⟩
    else if x = 1 ∧ y = 1 then ⟨0, ⟨-(3152160495710990487105839898615629893653899488019277773543353248628670154459742967974975269170469762922697867729949 / 630432099142311667396464641602297820881275828327447146687172694467931548343955369782628260078158650252906047844909056), 9456481487177986905573486445828938412663461419964448436831734332833053892241843504637519660418938775335782193862227 / 630432099142311667396464641602297820881275828327447146687172694467931548343955369782628260078158650252906047844909056⟩⟩
    else if x = 1 ∧ y = 2 then ⟨0, ⟨-(18912962974277229316473126828218949595905654891481342568561665000239465416387354306067804054905670305059405855112429 / 1260864198284623334792929283204595641762551656654894293374345388935863096687910739565256520156317300505812095689818112), -(12608641983034794896621044775031467270748887592747317171913671090821030120445535958447154610346738169774660081055417 / 2521728396569246669585858566409191283525103313309788586748690777871726193375821479130513040312634601011624191379636224)⟩⟩
    else if x = 1 ∧ y = 3 then ⟨0, ⟨88145132030790238622856548934409641207666740698357574739382200924541594922959469108976118849134505361565 / 10086913586276986678343434265636765134100413253239154346994763111486904773503285916522052161250538404046496765518544896, -(100869135863213353869275903158774225749371456554382925107608491298051901797786112389420154237680815840827127830679817 / 5043456793138493339171717132818382567050206626619577173497381555743452386751642958261026080625269202023248382759272448)⟩⟩
    else if x = 1 ∧ y = 4 then ⟨0, ⟨605214815177370570408783974504030733160198073566079723693281064935726170878280229650532976113186611514236966189475915 / 40347654345107946713373737062547060536401653012956617387979052445947619094013143666088208645002153616185987062074179584, -(12608641982855646134098018453807772097358925211127805206621690603404452227868484966383657662108473781318977853382551 / 2521728396569246669585858566409191283525103313309788586748690777871726193375821479130513040312634601011624191379636224)⟩⟩
    else if x = 2 ∧ y = 0 then ⟨0, ⟨-(3152160495710990487105839898615629893653899488019277773543353248628670154459742967974975269170469762922697867729949 / 630432099142311667396464641602297820881275828327447146687172694467931548343955369782628260078158650252906047844909056), 605214815180153354411581173822238933370402117145302760970391359926036671721207827714453700364690724764682731296478213 / 40347654345107946713373737062547060536401653012956617387979052445947619094013143666088208645002153616185987062074179584⟩⟩
    else if x = 2 ∧ y = 1 then ⟨0, ⟨6304320991397620668055961108564136778995225878520722070461460239844280326536248990086240764596915192560182675798435 / 1260864198284623334792929283204595641762551656654894293374345388935863096687910739565256520156317300505812095689818112, 18912962974337411559419400961756283738124338780890305967944221011495700748712649633366963217843129380058756362730259 / 1260864198284623334792929283204595641762551656654894293374345388935863096687910739565256520156317300505812095689818112⟩⟩
    else if x = 2 ∧ y = 2 then ⟨0, ⟨37825925948481005799685039467805275671956484007754018745171332521109361205631413355372211849508797244006464269290491 / 2521728396569246669585858566409191283525103313309788586748690777871726193375821479130513040312634601011624191379636224, -(50434567932086905469068555785657682216050221572484027801421331784093681087008411331161902002006349410422810680476243 / 10086913586276986678343434265636765134100413253239154346994763111486904773503285916522052161250538404046496765518544896)⟩⟩
    else if x = 2 ∧ y = 3 then ⟨0, ⟨-(286975565570035850244152227016158413052306571430790221922421167216237996423758045510517448792303993835191 / 40347654345107946713373737062547060536401653012956617387979052445947619094013143666088208645002153616185987062074179584), -(806953086905198033580324794234959822254856268708599488662991507391347135322707695010517415507321894398676777220954021 / 40347654345107946713373737062547060536401653012956617387979052445947619094013143666088208645002153616185987062074179584)⟩⟩
    else if x = 2 ∧ y = 4 then ⟨0, ⟨-(605214815176497484662412788029879740853594328320381059353461810100306414679489980752611934603988656099132133599532859 / 40347654345107946713373737062547060536401653012956617387979052445947619094013143666088208645002153616185987062074179584), -(50434567931351217214100746805212365467830950783814238018982399441544309002317818911757874955080893221548728740246877 / 10086913586276986678343434265636765134100413253239154346994763111486904773503285916522052161250538404046496765518544896)⟩⟩
    else if x = 3 ∧ y = 0 then ⟨0, ⟨-(18912962974277229316473126828218949595905654891481342568561665000239465416387354306067804054905670305059405855112429 / 1260864198284623334792929283204595641762551656654894293374345388935863096687910739565256520156317300505812095689818112), 1412167902081784071529212647902501695255676682852384824568431257966030867980485198051224611065007778583683148414346275 / 40347654345107946713373737062547060536401653012956617387979052445947619094013143666088208645002153616185987062074179584⟩⟩
    else if x = 3 ∧ y = 1 then ⟨0, ⟨37825925948481005799685039467805275671956484007754018745171332521109361205631413355372211849508797244006464269290491 / 2521728396569246669585858566409191283525103313309788586748690777871726193375821479130513040312634601011624191379636224, 88260493880036915370402344845583548897225927639688923586671682846956257392437759245822191567866431397040384515659195 / 2521728396569246669585858566409191283525103313309788586748690777871726193375821479130513040312634601011624191379636224⟩⟩
    else if x = 3 ∧ y = 2 then ⟨0, ⟨353041975519578445212419688597750434182410462877005016517930844891896479302977472100470925384472242267305190221318555 / 5043456793138493339171717132818382567050206626619577173497381555743452386751642958261026080625269202023248382759272448, -(403476543453567555289297507724800005486845588009672487576816255350075873543504781014337936278159614327112710916271783 / 40347654345107946713373737062547060536401653012956617387979052445947619094013143666088208645002153616185987062074179584)⟩⟩
    else if x = 3 ∧ y = 3 then ⟨0, ⟨-(1274463003318251520041967596371795005160266517480858591337578029713022823364198431243269338217907625313311 / 161390617380431786853494948250188242145606612051826469551916209783790476376052574664352834580008614464743948248296718336), -(2017382717257900408411580644784957957599869724879508760137071060822471408351881493553928558097575938729852584553619251 / 40347654345107946713373737062547060536401653012956617387979052445947619094013143666088208645002153616185987062074179584)⟩⟩
    else if x = 3 ∧ y = 4 then ⟨0, ⟨-(45189372866520056449215659008592540594152980364639647392653865427964915476278773849450414806083638378061282895917255115 / 645562469521727147413979793000752968582426448207305878207664839135161905504210298657411338320034457858975792993186873344), -(403476543450906753754772012922080514524576212198226354241290867344783704364103071416113181775135127879364005195002361 / 40347654345107946713373737062547060536401653012956617387979052445947619094013143666088208645002153616185987062074179584)⟩⟩
    else if x = 4 ∧ y = 0 then ⟨0, ⟨-(14532683864162890171953894666215955357905087552872311956952165794492777451336263485903579334584631637875 / 630432099142311667396464641602297820881275828327447146687172694467931548343955369782628260078158650252906047844909056), 64556246952213647604520327893506514100100274144949520366943988312185498692459740911856960245392942068761861449599272219 / 645562469521727147413979793000752968582426448207305878207664839135161905504210298657411338320034457858975792993186873344⟩⟩
    else if x = 4 ∧ y = 1 then ⟨0, ⟨17068123283752631057090648725422474300400312946745737452749663110218482381749256624762632061619893949205 / 1260864198284623334792929283204595641762551656654894293374345388935863096687910739565256520156317300505812095689818112, 504345679314037008715989799757651367518530437566491610663954388938837143963377487858209994475467441007777839092689307 / 5043456793138493339171717132818382567050206626619577173497381555743452386751642958261026080625269202023248382759272448⟩⟩
    else if x = 4 ∧ y = 2 then ⟨0, ⟨52654323988875794731100073412876125497174176590930018924119743037646942084191053257924915540298138778649 / 2521728396569246669585858566409191283525103313309788586748690777871726193375821479130513040312634601011624191379636224, -(3227812347617449321688257670030102526058390316661161911031187448487835592582258058865776188831907883521396591747524623 / 161390617380431786853494948250188242145606612051826469551916209783790476376052574664352834580008614464743948248296718336)⟩⟩
    else if x = 4 ∧ y = 3 then ⟨0, ⟨-(89858344793545689895562007728984900715258084141246399003280274123589204183950621219348391055896755421625 / 40347654345107946713373737062547060536401653012956617387979052445947619094013143666088208645002153616185987062074179584), 542272474398217881440289217143889015256847228295071996882107961442772686511987085258932366416621222160320617313405578853 / 645562469521727147413979793000752968582426448207305878207664839135161905504210298657411338320034457858975792993186873344⟩⟩
    else if x = 4 ∧ y = 4 then ⟨0, ⟨-(697064520846169741341383709559555914618627587719911209478875284899417827944506427787218296317375999950029 / 40347654345107946713373737062547060536401653012956617387979052445947619094013143666088208645002153616185987062074179584), -(3227812347607830364930853931375381428164847243645479390562130652504022939304953430941440719877976821254165701673027633 / 161390617380431786853494948250188242145606612051826469551916209783790476376052574664352834580008614464743948248296718336)⟩⟩
    else ⟨0, ⟨0, 0⟩⟩

theorem gC40_out : ∀ x y : ℕ, ¬(x < 5 ∧ y < 5) → gC40 x y = ⟨0, ⟨0, 0⟩⟩ := by
  intro x y h
  unfold gC40
  rw [if_neg (show ¬(x = 0 ∧ y = 0) by omega),
    if_neg (show ¬(x = 0 ∧ y = 1) by omega),
    if_neg (show ¬(x = 0 ∧ y = 2) by omega),
    if_neg (show ¬(x = 0 ∧ y = 3) by omega),
    if_neg (show ¬(x = 0 ∧ y = 4) by omega),
    if_neg (show ¬(x = 1 ∧ y = 0) by omega),
    if_neg (show ¬(x = 1 ∧ y = 1) by omega),
    if_neg (show ¬(x = 1 ∧ y = 2) by omega),
    if_neg (show ¬(x = 1 ∧ y = 3) by omega),
    if_neg (show ¬(x = 1 ∧ y = 4) by omega),
    if_neg (show ¬(x = 2 ∧ y = 0) by omega),
    if_neg (show ¬(x = 2 ∧ y = 1) by omega),
    if_neg (show ¬(x = 2 ∧ y = 2) by omega),
    if_neg (show ¬(x = 2 ∧ y = 3) by omega),
    if_neg (show ¬(x = 2 ∧ y = 4) by omega),
    if_neg (show ¬(x = 3 ∧ y = 0) by omega),
    if_neg (show ¬(x = 3 ∧ y = 1) by omega),
    if_neg (show ¬(x = 3 ∧ y = 2) by omega),
    if_neg (show ¬(x = 3 ∧ y = 3) by omega),
    if_neg (show ¬(x = 3 ∧ y = 4) by omega),
    if_neg (show ¬(x = 4 ∧ y = 0) by omega),
    if_neg (show ¬(x = 4 ∧ y = 1) by omega),
    if_neg (show ¬(x = 4 ∧ y = 2) by omega),
    if_neg (show ¬(x = 4 ∧ y = 3) by omega),
    if_neg (show ¬(x = 4 ∧ y = 4) by omega)]

set_option maxRecDepth 200000 in
set_option maxHeartbeats 2000000 in
theorem pC_div :
    foldCells 5 (project_div_cell sampleFluidC5N5.cells 5 (1 / ((5 : ℕ) : ℚ)))
      sampleFluidC5N5.prev_cells = pC0 := by
  funext i j
  by_cases hin : i < 5 ∧ j < 5
  · obtain ⟨hi, hj⟩ := hin
    interval_cases i <;> interval_cases j <;> (with_unfolding_all rfl)
  · rw [foldCells_untouched
      (div_cell_shape sampleFluidC5N5.cells 5 (1 / ((5 : ℕ) : ℚ))) sampleFluidC5N5.prev_cells hin,
      pC0_out i j hin]
    rfl

set_option maxRecDepth 200000 in
set_option maxHeartbeats 2000000 in
theorem pC_c5 :
    upTo (fun p _ => foldCells 5 (project_relax_cell 5) p) 5 pC0 = pC5 := by
  funext i j
  by_cases hin : i < 5 ∧ j < 5
  · obtain ⟨hi, hj⟩ := hin
    interval_cases i <;> interval_cases j <;> (with_unfolding_all rfl)
  · rw [sweeps_untouched (relax_cell_shape 5) 5 pC0 hin, pC0_out i j hin,
      pC5_out i j hin]

set_option maxRecDepth 200000 in
set_option maxHeartbeats 2000000 in
theorem pC_c10 :
    upTo (fun p _ => foldCells 5 (project_relax_cell 5) p) 5 pC5 = pC10 := by
  funext i j
  by_cases hin : i < 5 ∧ j < 5
  · obtain ⟨hi, hj⟩ := hin
    interval_cases i <;> interval_cases j <;> (with_unfolding_all rfl)
  · rw [sweeps_untouched (relax_cell_shape 5) 5 pC5 hin, pC5_out i j hin,
      pC10_out i j hin]

set_option maxRecDepth 200000 in
set_option maxHeartbeats 2000000 in
theorem pC_c15 :
    upTo (fun p _ => foldCells 5 (project_relax_cell 5) p) 5 pC10 = pC15 := by
  funext i j
  by_cases hin : i < 5 ∧ j < 5
  · obtain ⟨hi, hj⟩ := hin
    interval_cases i <;> interval_cases j <;> (with_unfolding_all rfl)
  · rw [sweeps_untouched (relax_cell_shape 5) 5 pC10 hin, pC10_out i j hin,
      pC15_out i j hin]

set_option maxRecDepth 200000 in
set_option maxHeartbeats 2000000 in
theorem pC_c20 :
    upTo (fun p _ => foldCells 5 (project_relax_cell 5) p) 5 pC15 = pC20 := by
  funext i j
  by_cases hin : i < 5 ∧ j < 5
  · obtain ⟨hi, hj⟩ := hin
    interval_cases i <;> interval_cases j <;> (with_unfolding_all rfl)
  · rw [sweeps_untouched (relax_cell_shape 5) 5 pC15 hin, pC15_out i j hin,
      pC20_out i j hin]

set_option maxRecDepth 200000 in
set_option maxHeartbeats 2000000 in
theorem pC_c25 :
    upTo (fun p _ => foldCells 5 (project_relax_cell 5) p) 5 pC20 = pC25 := by
  funext i j
  by_cases hin : i < 5 ∧ j < 5
  · obtain ⟨hi, hj⟩ := hin
    interval_cases i <;> interval_cases j <;> (with_unfolding_all rfl)
  · rw [sweeps_untouched (relax_cell_shape 5) 5 pC20 hin, pC20_out i j hin,
      pC25_out i j hin]

set_option maxRecDepth 200000 in
set_option maxHeartbeats 2000000 in
theorem pC_c30 :
    upTo (fun p _ => foldCells 5 (project_relax_cell 5) p) 5 pC25 = pC30 := by
  funext i j
  by_cases hin : i < 5 ∧ j < 5
  · obtain ⟨hi, hj⟩ := hin
    interval_cases i <;> interval_cases j <;> (with_unfolding_all rfl)
  · rw [sweeps_untouched (relax_cell_shape 5) 5 pC25 hin, pC25_out i j hin,
      pC30_out i j hin]

set_option maxRecDepth 200000 in
set_option maxHeartbeats 2000000 in
theorem pC_c35 :
    upTo (fun p _ => foldCells 5 (project_relax_cell 5) p) 5 pC30 = pC35 := by
  funext i j
  by_cases hin : i < 5 ∧ j < 5
  · obtain ⟨hi, hj⟩ := hin
    interval_cases i <;> interval_cases j <;> (with_unfolding_all rfl)
  · rw [sweeps_untouched (relax_cell_shape 5) 5 pC30 hin, pC30_out i j hin,
      pC35_out i j hin]

set_option maxRecDepth 200000 in
set_option maxHeartbeats 2000000 in
theorem pC_c40 :
    upTo (fun p _ => foldCells 5 (project_relax_cell 5) p) 5 pC35 = pC40 := by
  funext i j
  by_cases hin : i < 5 ∧ j < 5
  · obtain ⟨hi, hj⟩ := hin
    interval_cases i <;> interval_cases j <;> (with_unfolding_all rfl)
  · rw [sweeps_untouched (relax_cell_shape 5) 5 pC35 hin, pC35_out i j hin,
      pC40_out i j hin]

set_option maxRecDepth 200000 in
set_option maxHeartbeats 2000000 in
theorem gC_fold :
    foldCells 5 (project_grad_cell pC20 5 (1 / ((5 : ℕ) : ℚ)))
      sampleFluidC5N5.cells = gC := by
  funext i j
  by_cases hin : i < 5 ∧ j < 5
  · obtain ⟨hi, hj⟩ := hin
    interval_cases i <;> interval_cases j <;> (with_unfolding_all rfl)
  · rw [foldCells_untouched
      (grad_cell_shape pC20 5 (1 / ((5 : ℕ) : ℚ))) sampleFluidC5N5.cells hin,
      gC_out i j hin]
    rw [sampleFluidC5N5_cells_out i j hin]
set_option maxRecDepth 200000 in
set_option maxHeartbeats 2000000 in
theorem gC40_fold :
    foldCells 5 (project_grad_cell pC40 5 (1 / ((5 : ℕ) : ℚ)))
      sampleFluidC5N5.cells = gC40 := by
  funext i j
  by_cases hin : i < 5 ∧ j < 5
  · obtain ⟨hi, hj⟩ := hin
    interval_cases i <;> interval_cases j <;> (with_unfolding_all rfl)
  · rw [foldCells_untouched
      (grad_cell_shape pC40 5 (1 / ((5 : ℕ) : ℚ))) sampleFluidC5N5.cells hin,
      gC40_out i j hin]
    rw [sampleFluidC5N5_cells_out i j hin]

theorem relaxC_20 :
    upTo (fun p _ => foldCells 5 (project_relax_cell 5) p) 20 pC0 = pC20 := by
  rw [show (20 : ℕ) = 15 + 5 from rfl, upTo_sweeps_add,
    show (15 : ℕ) = 10 + 5 from rfl, upTo_sweeps_add,
    show (10 : ℕ) = 5 + 5 from rfl, upTo_sweeps_add, pC_c5, pC_c10, pC_c15,
    pC_c20]

theorem relaxC_40 :
    upTo (fun p _ => foldCells 5 (project_relax_cell 5) p) 20 pC20 =
      pC40 := by
  rw [show (20 : ℕ) = 15 + 5 from rfl, upTo_sweeps_add,
    show (15 : ℕ) = 10 + 5 from rfl, upTo_sweeps_add,
    show (10 : ℕ) = 5 + 5 from rfl, upTo_sweeps_add, pC_c25, pC_c30, pC_c35,
    pC_c40]

theorem projC5_prev : (sampleFluidC5N5.projectN 20).prev_cells = pC20 := by
  rw [projectN_prev_cells, show sampleFluidC5N5.size = 5 from rfl, pC_div]
  exact relaxC_20

theorem projC5_prev40 : (sampleFluidC5N5.projectN 40).prev_cells = pC40 := by
  rw [projectN_prev_cells, show sampleFluidC5N5.size = 5 from rfl, pC_div,
    show (40 : ℕ) = 20 + 20 from rfl, upTo_sweeps_add, relaxC_20]
  exact relaxC_40

theorem projC5_cells : (sampleFluidC5N5.project).cells = gC := by
  rw [show (sampleFluidC5N5.project).cells =
      (sampleFluidC5N5.projectN 20).cells from rfl,
    projectN_cells, show sampleFluidC5N5.size = 5 from rfl, projC5_prev]
  exact gC_fold

theorem projC5_cells40 : (sampleFluidC5N5.projectN 40).cells = gC40 := by
  rw [projectN_cells, show sampleFluidC5N5.size = 5 from rfl, projC5_prev40]
  exact gC40_fold

set_option maxRecDepth 100000 in
set_option maxHeartbeats 2000000 in
/-- C5 counterexample: for the 5 by 5 state with a single non-zero velocity
`(0, 1)` at `(4, 3)`, one `project()` call strictly increases the sum of the
divergence magnitudes from `1/5` to about `0.23`, and a projection with 40
relaxation sweeps instead of 20 leaves the sum essentially unchanged (still
above `1/5`), so neither the strict reduction nor the
convergence-toward-zero part of the claim holds for this state. -/
theorem project_single_nonzero_cell_divergence_sum_increases :
    sampleFluidC5N5.sumDivMag = 1 / 5 ∧
      (sampleFluidC5N5.project).sumDivMag =
        230997503225688492137469891450654364032887670264148401607379 / 1004336277661868922213726307713226626576376871114245522063360 ∧
      ¬ (sampleFluidC5N5.project).sumDivMag < sampleFluidC5N5.sumDivMag ∧
      sampleFluidC5N5.sumDivMag < (sampleFluidC5N5.project).sumDivMag ∧
      (sampleFluidC5N5.projectN 40).sumDivMag =
        742396839950372665949532320022499139164753924559561919301856703015295299773887536328932596835187969667351675531868219329 / 3227812347608635737069898965003764842912132241036529391038324195675809527521051493287056691600172289294878964965934366720 ∧
      sampleFluidC5N5.sumDivMag < (sampleFluidC5N5.projectN 40).sumDivMag := by
  have hb : sampleFluidC5N5.sumDivMag = 1 / 5 := by
    with_unfolding_all rfl
  have h20 : (sampleFluidC5N5.project).sumDivMag =
      230997503225688492137469891450654364032887670264148401607379 / 1004336277661868922213726307713226626576376871114245522063360 := by
    unfold Fluid.sumDivMag Fluid.divAt
    simp only [projC5_cells, show (sampleFluidC5N5.project).size = 5 from rfl]
    with_unfolding_all rfl
  have h40 : (sampleFluidC5N5.projectN 40).sumDivMag =
      742396839950372665949532320022499139164753924559561919301856703015295299773887536328932596835187969667351675531868219329 / 3227812347608635737069898965003764842912132241036529391038324195675809527521051493287056691600172289294878964965934366720 := by
    unfold Fluid.sumDivMag Fluid.divAt
    simp only [projC5_cells40,
      show (sampleFluidC5N5.projectN 40).size = 5 from rfl]
    with_unfolding_all rfl
  refine ⟨hb, h20, ?_, ?_, h40, ?_⟩
  · rw [hb, h20]
    norm_num
  · rw [hb, h20]
    norm_num
  · rw [hb, h40]
    norm_num

/-- Concrete 2 by 2 state with non-zero velocities everywhere. -/
def sampleFluidC5W : Fluid :=
  ⟨0, 0, 2, fun _ _ => ⟨1, ⟨2, 3⟩⟩, fun _ _ => Cell.init⟩

set_option maxRecDepth 100000 in
set_option maxHeartbeats 2000000 in
/-- C5 amended: for single-non-zero-velocity-cell states the effect of
`project()` on the divergence-magnitude sum depends on the grid size. On the
3 by 3 such state the call strictly reduces the sum, from `1/3` to about
`0.25` (the proved instance below); on every state of size at most 2 the
discrete divergence vanishes identically, so the sum is `0` both before and
after the call and the observable buffer is left unchanged — as it is for
every divergence-free field. (From size 5 on, the call can instead strictly
increase the sum; see the counterexample.) -/
theorem project_divergence_reduction_amended :
    ((sampleFluidC4.project).sumDivMag < sampleFluidC4.sumDivMag ∧
      sampleFluidC4.sumDivMag = 1 / 3 ∧
      (sampleFluidC4.project).sumDivMag =
        2658455991569831746237631034806283873 / 10633823966279326983230456482242756608) ∧
    ∀ f : Fluid,
      (f.size ≤ 2 ∨ ∀ x y, x < f.size → y < f.size → f.divAt x y = 0) →
      (∀ x y, (f.project).cells x y = f.cells x y) ∧
        (f.project).sumDivMag = f.sumDivMag ∧ f.sumDivMag = 0 := by
  have hb : sampleFluidC4.sumDivMag = 1 / 3 := by
    with_unfolding_all rfl
  have ha : (sampleFluidC4.project).sumDivMag =
      2658455991569831746237631034806283873 / 10633823966279326983230456482242756608 := by
    unfold Fluid.sumDivMag Fluid.divAt
    simp only [projA_cells, show (sampleFluidC4.project).size = 3 from rfl]
    with_unfolding_all rfl
  refine ⟨⟨?_, hb, ha⟩, fun f h => ?_⟩
  · rw [hb, ha]
    norm_num
  · refine project_divfree_package f ?_
    rcases h with hs | hd
    · exact fun x y hx hy => divAt_zero_of_small f hs x y hx hy
    · exact hd

/-- Witness for the amended C5 at a concrete 2 by 2 state. -/
theorem project_divergence_reduction_amended_witness :
    (sampleFluidC5W.size ≤ 2 ∨
        ∀ x y, x < sampleFluidC5W.size → y < sampleFluidC5W.size →
          sampleFluidC5W.divAt x y = 0) ∧
      ((∀ x y, (sampleFluidC5W.project).cells x y = sampleFluidC5W.cells x y) ∧
        (sampleFluidC5W.project).sumDivMag = sampleFluidC5W.sumDivMag ∧
        sampleFluidC5W.sumDivMag = 0) :=
  ⟨Or.inl (by decide),
    project_divergence_reduction_amended.2 sampleFluidC5W
      (Or.inl (by decide))⟩

end Fluidsim
